import Mathlib

/-!
netbox-ssot: the inventory loaders, the relation resolution of the VMware sync, and main.

A shallow embedding of
* `internal/netbox/inventory/init_items.go` (the snapshot loaders `InitX`),
* `internal/source/vmware/vmware_sync.go` (`syncClusters`, `syncHosts`),
* `internal/source/ovirt/ovirt.go` (the relation collections a source holds),
* `main.go` (the run over the configured sources).

Conventions of the embedding.
* A Go `map[K]V` that is only read and written by key is a function `K → Option V`
  (`GoMap`); `none` is the absent key (which Go reads as the zero value, `nil` for the
  pointer and map values used here).
* A Go map that is ranged over is given by the list of its entries in the order
  `range` visits them (Go leaves that order unspecified).
* A pointer is an `Option`; selecting a field through a nil pointer is the outcome
  `fault` (the Go runtime panic).
* A call that leaves the package (the NetBox fetch, the upsert operations, the helpers
  of `utils`) is a parameter.
* Logger calls have no effect on the state and are left out.
-/

namespace NetboxSsot

/-! ## Go maps -/

/-- A Go map read and written by key. -/
abbrev GoMap (K V : Type) := K → Option V

/-- The map `make(map[K]V)` returns. -/
def GoMap.empty {K V : Type} : GoMap K V := fun _ => none

/-- The map after `m[k] = v`. -/
def GoMap.set {K V : Type} [DecidableEq K] (m : GoMap K V) (k : K) (v : V) : GoMap K V :=
  fun x => if x = k then some v else m x

/-- The `ok` of `_, ok := m[k]`. -/
def GoMap.has {K V : Type} (m : GoMap K V) (k : K) : Bool := (m k).isSome

/-- The inner map `m[k]` of a two-level map, the empty map when `m[k] == nil`. -/
def GoMap.inner {K J V : Type} (m : GoMap K (GoMap J V)) (k : K) : GoMap J V :=
  match m k with
  | some i => i
  | none => GoMap.empty

/-- The statement `if m[k] == nil { m[k] = make(...) }`. -/
def GoMap.ensure {K J V : Type} [DecidableEq K] (m : GoMap K (GoMap J V)) (k : K) :
    GoMap K (GoMap J V) :=
  match m k with
  | some _ => m
  | none => GoMap.set m k GoMap.empty

/-- The statement `m[k][j] = v` on a two-level map whose `m[k]` is not nil. -/
def GoMap.set2 {K J V : Type} [DecidableEq K] [DecidableEq J] (m : GoMap K (GoMap J V))
    (k : K) (j : J) (v : V) : GoMap K (GoMap J V) :=
  GoMap.set m k (GoMap.set (GoMap.inner m k) j v)

/-- The read `m[k][j]` of a two-level map. -/
def GoMap.get2 {K J V : Type} (m : GoMap K (GoMap J V)) (k : K) (j : J) : Option V :=
  match m k with
  | some i => i j
  | none => none

/-- The function `slices.IndexFunc`: the first index whose element satisfies `f`, or -1. -/
def slices.IndexFunc {α : Type} (s : List α) (f : α → Bool) : Int :=
  match s.findIdx? f with
  | some i => (i : Int)
  | none => -1

/-! ## The NetBox objects the loaders and the sync read -/

/-- A Go `error` value. -/
abbrev Error := String

/-- How a Go function ends: it returns nil, it returns an error, or the runtime panics
on a nil pointer. -/
inductive Outcome where
  | ok : Outcome
  | error (err : Error) : Outcome
  | fault : Outcome
deriving DecidableEq, Repr

/-- Fields of `objects.Tag` the code reads. -/
structure Tag where
  Id : Int
  Name : String
  Slug : String
deriving DecidableEq, Repr

/-- The embedded `objects.NetboxObject`. -/
structure NetboxObject where
  Id : Int
  Tags : List Tag
  Description : String
deriving DecidableEq, Repr

structure Tenant extends NetboxObject where
  Name : String
deriving DecidableEq, Repr

structure Contact extends NetboxObject where
  Name : String
deriving DecidableEq, Repr

structure ContactRole extends NetboxObject where
  Name : String
  Slug : String
deriving DecidableEq, Repr

structure ContactGroup extends NetboxObject where
  Name : String
deriving DecidableEq, Repr

structure ContactAssignment extends NetboxObject where
  ContentType : String
  ObjectId : Int
  Contact : Option Contact
  Role : Option ContactRole
deriving DecidableEq, Repr

structure Site extends NetboxObject where
  Name : String
deriving DecidableEq, Repr

structure Manufacturer extends NetboxObject where
  Name : String
  Slug : String
deriving DecidableEq, Repr

structure Platform extends NetboxObject where
  Name : String
  Slug : String
deriving DecidableEq, Repr

structure DeviceRole extends NetboxObject where
  Name : String
  Slug : String
  Color : String
  VMRole : Bool
deriving DecidableEq, Repr

/-- The values of `objects.CustomFieldType`; the source names `CustomFieldTypeText`. -/
inductive CustomFieldType where
  | CustomFieldTypeText : CustomFieldType
  | CustomFieldTypeOther (value : String) : CustomFieldType
deriving DecidableEq, Repr

/-- The values of `objects.FilterLogic`; the source names `FilterLogicLoose`. -/
inductive FilterLogic where
  | FilterLogicLoose : FilterLogic
  | FilterLogicOther (value : String) : FilterLogic
deriving DecidableEq, Repr

/-- The values of `objects.CustomFieldUIVisible`; the source names
`CustomFieldUIVisibleAlways`. -/
inductive CustomFieldUIVisible where
  | CustomFieldUIVisibleAlways : CustomFieldUIVisible
  | CustomFieldUIVisibleOther (value : String) : CustomFieldUIVisible
deriving DecidableEq, Repr

/-- The values of `objects.CustomFieldUIEditable`; the source names
`CustomFieldUIEditableYes`. -/
inductive CustomFieldUIEditable where
  | CustomFieldUIEditableYes : CustomFieldUIEditable
  | CustomFieldUIEditableOther (value : String) : CustomFieldUIEditable
deriving DecidableEq, Repr

/-- Fields of `objects.CustomField` the code reads or sets; `Typ` is the Go field `Type`.
The literals of InitSsotCustomFields set `Description` as a field of the struct itself, so
it is not taken from an embedded `NetboxObject`. -/
structure CustomField where
  Name : String
  Label : String
  Description : String
  Typ : CustomFieldType
  FilterLogic : FilterLogic
  CustomFieldUIVisible : Option CustomFieldUIVisible
  CustomFieldUIEditable : Option CustomFieldUIEditable
  DisplayWeight : Int
  SearchWeight : Int
  ContentTypes : List String
deriving DecidableEq, Repr

structure ClusterGroup extends NetboxObject where
  Name : String
  Slug : String
deriving DecidableEq, Repr

structure ClusterType extends NetboxObject where
  Name : String
  Slug : String
deriving DecidableEq, Repr

/-- The values of `objects.ClusterStatus`; the source names `ClusterStatusActive`. -/
inductive ClusterStatus where
  | ClusterStatusActive : ClusterStatus
  | ClusterStatusOther (value : String) : ClusterStatus
deriving DecidableEq, Repr

/-- Fields of `objects.Cluster`; `Typ` is the Go field `Type`. -/
structure Cluster extends NetboxObject where
  Name : String
  Typ : Option ClusterType
  Status : ClusterStatus
  Group : Option ClusterGroup
  Site : Option Site
  Tenant : Option Tenant
deriving DecidableEq, Repr

structure DeviceType extends NetboxObject where
  Manufacturer : Option Manufacturer
  Model : String
  Slug : String
deriving DecidableEq, Repr

/-- The values of `objects.DeviceStatus` the source names. -/
inductive DeviceStatus where
  | DeviceStatusActive : DeviceStatus
  | DeviceStatusOffline : DeviceStatus
deriving DecidableEq, Repr

/-- Fields of `objects.Device`; `CustomFields` is the Go map written as its entries. -/
structure Device extends NetboxObject where
  Name : String
  Status : Option DeviceStatus
  Platform : Option Platform
  DeviceRole : Option DeviceRole
  Site : Option Site
  Tenant : Option Tenant
  Cluster : Option Cluster
  SerialNumber : String
  AssetTag : String
  DeviceType : Option DeviceType
  CustomFields : List (String × String)
deriving DecidableEq, Repr

structure Interface extends NetboxObject where
  Device : Option Device
  Name : String
deriving DecidableEq, Repr

structure VlanGroup extends NetboxObject where
  Name : String
  Slug : String
  MinVid : Int
  MaxVid : Int
deriving DecidableEq, Repr

/-- The values of `objects.VlanStatus` the source names. -/
inductive VlanStatus where
  | VlanStatusActive : VlanStatus
  | VlanStatusReserved : VlanStatus
deriving DecidableEq, Repr

structure Vlan extends NetboxObject where
  Name : String
  Vid : Int
  Group : Option VlanGroup
  Status : Option VlanStatus
  Tenant : Option Tenant
deriving DecidableEq, Repr

structure VM extends NetboxObject where
  Name : String
deriving DecidableEq, Repr

structure VMInterface extends NetboxObject where
  VM : Option VM
  Name : String
deriving DecidableEq, Repr

structure IPAddress extends NetboxObject where
  Address : String
deriving DecidableEq, Repr

/-- Fields of `objects.Prefix`; `Value` is the Go field `Prefix`. -/
structure IPPrefix extends NetboxObject where
  Value : String
deriving DecidableEq, Repr

/-- The path constants of `service` that key the OrphanManager; they are declared outside
the files at hand and distinct constants are distinct keys. `OtherApiPath` stands for
every path constant the loaders do not name. -/
inductive ApiPath where
  | ContactsApiPath | ContactAssignmentsApiPath | ManufacturersApiPath | PlatformsApiPath
  | DevicesApiPath | DeviceRolesApiPath | ClusterGroupsApiPath | ClusterTypesApiPath
  | ClustersApiPath | DeviceTypesApiPath | InterfacesApiPath | VlanGroupsApiPath
  | VlansApiPath | VirtualMachinesApiPath | VMInterfacesApiPath | IpAddressesApiPath
  | PrefixesApiPath | OtherApiPath (name : String)
deriving DecidableEq, Repr

/-- The four-level index of contact assignments. -/
abbrev CAIndex := GoMap String (GoMap Int (GoMap Int (GoMap Int ContactAssignment)))

/-- The index and orphan fields of `NetboxInventory`. `SsotTag` is the tag `InitTags`
stored; `OrphanManager` is the non-nil map the constructor made. -/
structure NetboxInventory where
  Tags : List Tag
  SsotTag : Tag
  TenantsIndexByName : GoMap String Tenant
  ContactsIndexByName : GoMap String Contact
  ContactRolesIndexByName : GoMap String ContactRole
  ContactAssignmentsIndexByContentTypeAndObjectIdAndContactIdAndRoleId : CAIndex
  ContactGroupsIndexByName : GoMap String ContactGroup
  SitesIndexByName : GoMap String Site
  ManufacturersIndexByName : GoMap String Manufacturer
  PlatformsIndexByName : GoMap String Platform
  DevicesIndexByNameAndSiteId : GoMap String (GoMap Int Device)
  DeviceRolesIndexByName : GoMap String DeviceRole
  CustomFieldsIndexByName : GoMap String CustomField
  ClusterGroupsIndexByName : GoMap String ClusterGroup
  ClusterTypesIndexByName : GoMap String ClusterType
  ClustersIndexByName : GoMap String Cluster
  DeviceTypesIndexByModel : GoMap String DeviceType
  InterfacesIndexByDeviceIdAndName : GoMap Int (GoMap String Interface)
  VlanGroupsIndexByName : GoMap String VlanGroup
  VlansIndexByVlanGroupIdAndVid : GoMap Int (GoMap Int Vlan)
  VMsIndexByName : GoMap String VM
  VMInterfacesIndexByVMIdAndName : GoMap Int (GoMap String VMInterface)
  IPAdressesIndexByAddress : GoMap String IPAddress
  PrefixesIndexByPrefix : GoMap String IPPrefix
  OrphanManager : GoMap ApiPath (GoMap Int Bool)

/-- An inventory as the constructor leaves it, before any load. -/
def NetboxInventory.fresh (ssot : Tag) : NetboxInventory :=
  { Tags := []
    SsotTag := ssot
    TenantsIndexByName := GoMap.empty
    ContactsIndexByName := GoMap.empty
    ContactRolesIndexByName := GoMap.empty
    ContactAssignmentsIndexByContentTypeAndObjectIdAndContactIdAndRoleId := GoMap.empty
    ContactGroupsIndexByName := GoMap.empty
    SitesIndexByName := GoMap.empty
    ManufacturersIndexByName := GoMap.empty
    PlatformsIndexByName := GoMap.empty
    DevicesIndexByNameAndSiteId := GoMap.empty
    DeviceRolesIndexByName := GoMap.empty
    CustomFieldsIndexByName := GoMap.empty
    ClusterGroupsIndexByName := GoMap.empty
    ClusterTypesIndexByName := GoMap.empty
    ClustersIndexByName := GoMap.empty
    DeviceTypesIndexByModel := GoMap.empty
    InterfacesIndexByDeviceIdAndName := GoMap.empty
    VlanGroupsIndexByName := GoMap.empty
    VlansIndexByVlanGroupIdAndVid := GoMap.empty
    VMsIndexByName := GoMap.empty
    VMInterfacesIndexByVMIdAndName := GoMap.empty
    IPAdressesIndexByAddress := GoMap.empty
    PrefixesIndexByPrefix := GoMap.empty
    OrphanManager := GoMap.empty }

/-- The test `slices.IndexFunc(tags, func(t) bool { return t.Slug == nbi.SsotTag.Slug }) >= 0`
every loader applies to a record's tags. -/
def hasSsotTag (ssot : Tag) (tags : List Tag) : Bool :=
  decide (slices.IndexFunc tags (fun t => t.Slug == ssot.Slug) ≥ 0)

/-! ## The loaders of init_items.go

Every loader takes the inventory and the result of `service.GetAll` and gives the
inventory it leaves and how it ends. -/

/-- One pass of the loop of a loader keyed by one field: `index[key] = record`, and the
record's id goes into the orphan set when the record carries the ssot tag. -/
def indexStep {K α : Type} [DecidableEq K] (ssot : Tag) (key : α → K) (obj : α → NetboxObject)
    (s : GoMap K α × GoMap Int Bool) (r : α) : GoMap K α × GoMap Int Bool :=
  (GoMap.set s.1 (key r) r,
   if hasSsotTag ssot (obj r).Tags then GoMap.set s.2 (obj r).Id true else s.2)

/-- The loop of a loader keyed by one field, started on the two fresh maps. -/
def indexLoop {K α : Type} [DecidableEq K] (ssot : Tag) (key : α → K) (obj : α → NetboxObject)
    (recs : List α) : GoMap K α × GoMap Int Bool :=
  recs.foldl (indexStep ssot key obj) (GoMap.empty, GoMap.empty)

/-- The loop of a loader that keeps no orphan set: `index[key] = record`. -/
def plainLoop {K α : Type} [DecidableEq K] (key : α → K) (recs : List α) : GoMap K α :=
  recs.foldl (fun idx r => GoMap.set idx (key r) r) GoMap.empty

/-- One pass of the loop of a loader with a two-part key. `k1` is read first (in the nil
test of the inner map), then the inner map is made when missing, then `k2` is read; a key
part read through a nil pointer is `none` and the pass faults there. -/
def index2Step {K J α : Type} [DecidableEq K] [DecidableEq J] (ssot : Tag) (k1 : α → Option K)
    (k2 : α → Option J) (obj : α → NetboxObject)
    (s : GoMap K (GoMap J α) × GoMap Int Bool) (r : α) :
    (GoMap K (GoMap J α) × GoMap Int Bool) × Outcome :=
  match k1 r with
  | none => (s, Outcome.fault)
  | some a =>
    let idx := GoMap.ensure s.1 a
    match k2 r with
    | none => ((idx, s.2), Outcome.fault)
    | some b =>
      ((GoMap.set2 idx a b r,
        if hasSsotTag ssot (obj r).Tags then GoMap.set s.2 (obj r).Id true else s.2),
       Outcome.ok)

/-- The loop of a loader with a two-part key: it stops at the first pass that faults. -/
def index2Loop {K J α : Type} [DecidableEq K] [DecidableEq J] (ssot : Tag) (k1 : α → Option K)
    (k2 : α → Option J) (obj : α → NetboxObject) :
    List α → GoMap K (GoMap J α) × GoMap Int Bool →
      (GoMap K (GoMap J α) × GoMap Int Bool) × Outcome
  | [], s => (s, Outcome.ok)
  | r :: rest, s =>
    match index2Step ssot k1 k2 obj s r with
    | (s1, Outcome.ok) => index2Loop ssot k1 k2 obj rest s1
    | (s1, o) => (s1, o)

def InitTenants (nbi : NetboxInventory) (getAll : Except Error (List Tenant)) :
    NetboxInventory × Outcome :=
  match getAll with
  | Except.error err => (nbi, Outcome.error err)
  | Except.ok nbTenants =>
    ({ nbi with TenantsIndexByName := plainLoop (fun t => t.Name) nbTenants }, Outcome.ok)

def InitContacts (nbi : NetboxInventory) (getAll : Except Error (List Contact)) :
    NetboxInventory × Outcome :=
  match getAll with
  | Except.error err => (nbi, Outcome.error err)
  | Except.ok nbContacts =>
    let s := indexLoop nbi.SsotTag (fun c => c.Name) (fun c => c.toNetboxObject) nbContacts
    ({ nbi with
        ContactsIndexByName := s.1
        OrphanManager := GoMap.set nbi.OrphanManager ApiPath.ContactsApiPath s.2 }, Outcome.ok)

def InitContactRoles (nbi : NetboxInventory) (getAll : Except Error (List ContactRole)) :
    NetboxInventory × Outcome :=
  match getAll with
  | Except.error err => (nbi, Outcome.error err)
  | Except.ok nbContactRoles =>
    ({ nbi with ContactRolesIndexByName := plainLoop (fun r => r.Name) nbContactRoles },
     Outcome.ok)

/-- The state of the loop of InitContactAssignments: the index, the orphan set, the set
`debugIds` of identifiers seen, and what `fmt.Printf` wrote. -/
structure CAState where
  idx : CAIndex
  orph : GoMap Int Bool
  debugIds : GoMap Int Bool
  printed : List String

/-- The read `index[contentType][objectId][contactId][roleId]`. -/
def CAIndex.get4 (m : CAIndex) (ct : String) (oid cid rid : Int) : Option ContactAssignment :=
  GoMap.get2 (GoMap.inner (GoMap.inner m ct) oid) cid rid

/-- One pass of the loop of InitContactAssignments. -/
def InitContactAssignments.step (ssot : Tag) (s : CAState) (cA : ContactAssignment) :
    CAState × Outcome :=
  let printed := if GoMap.has s.debugIds cA.Id
    then s.printed ++ ["Already been here: " ++ toString cA.Id] else s.printed
  let debugIds := GoMap.set s.debugIds cA.Id true
  let idx := GoMap.ensure s.idx cA.ContentType
  let idx := GoMap.set idx cA.ContentType (GoMap.ensure (GoMap.inner idx cA.ContentType) cA.ObjectId)
  match cA.Contact with
  | none => ({ idx := idx, orph := s.orph, debugIds := debugIds, printed := printed }, Outcome.fault)
  | some contact =>
    let idx := GoMap.set idx cA.ContentType
      (GoMap.set (GoMap.inner idx cA.ContentType) cA.ObjectId
        (GoMap.ensure (GoMap.inner (GoMap.inner idx cA.ContentType) cA.ObjectId) contact.Id))
    match cA.Role with
    | none =>
      ({ idx := idx, orph := s.orph, debugIds := debugIds, printed := printed }, Outcome.fault)
    | some role =>
      let idx := GoMap.set idx cA.ContentType
        (GoMap.set (GoMap.inner idx cA.ContentType) cA.ObjectId
          (GoMap.set2 (GoMap.inner (GoMap.inner idx cA.ContentType) cA.ObjectId)
            contact.Id role.Id cA))
      let orph := if hasSsotTag ssot cA.Tags then GoMap.set s.orph cA.Id true else s.orph
      ({ idx := idx, orph := orph, debugIds := debugIds, printed := printed }, Outcome.ok)

/-- The loop of InitContactAssignments: it stops at the first pass that faults. -/
def InitContactAssignments.loop (ssot : Tag) : List ContactAssignment → CAState → CAState × Outcome
  | [], s => (s, Outcome.ok)
  | cA :: rest, s =>
    match InitContactAssignments.step ssot s cA with
    | (s1, Outcome.ok) => InitContactAssignments.loop ssot rest s1
    | (s1, o) => (s1, o)

/-- The state the loop of InitContactAssignments starts from. -/
def CAState.init : CAState :=
  { idx := GoMap.empty, orph := GoMap.empty, debugIds := GoMap.empty, printed := [] }

def InitContactAssignments (nbi : NetboxInventory)
    (getAll : Except Error (List ContactAssignment)) : NetboxInventory × Outcome :=
  match getAll with
  | Except.error err => (nbi, Outcome.error err)
  | Except.ok nbCAs =>
    let r := InitContactAssignments.loop nbi.SsotTag nbCAs CAState.init
    ({ nbi with
        ContactAssignmentsIndexByContentTypeAndObjectIdAndContactIdAndRoleId := r.1.idx
        OrphanManager := GoMap.set nbi.OrphanManager ApiPath.ContactAssignmentsApiPath r.1.orph },
     r.2)

/-- What InitContactAssignments writes with `fmt.Printf`. -/
def InitContactAssignments.printed (nbi : NetboxInventory) (nbCAs : List ContactAssignment) :
    List String :=
  (InitContactAssignments.loop nbi.SsotTag nbCAs CAState.init).1.printed

def InitContactGroups (nbi : NetboxInventory) (getAll : Except Error (List ContactGroup)) :
    NetboxInventory × Outcome :=
  match getAll with
  | Except.error err => (nbi, Outcome.error err)
  | Except.ok nbContactGroups =>
    ({ nbi with ContactGroupsIndexByName := plainLoop (fun g => g.Name) nbContactGroups },
     Outcome.ok)

def InitSites (nbi : NetboxInventory) (getAll : Except Error (List Site)) :
    NetboxInventory × Outcome :=
  match getAll with
  | Except.error err => (nbi, Outcome.error err)
  | Except.ok nbSites =>
    ({ nbi with SitesIndexByName := plainLoop (fun s => s.Name) nbSites }, Outcome.ok)

def InitManufacturers (nbi : NetboxInventory) (getAll : Except Error (List Manufacturer)) :
    NetboxInventory × Outcome :=
  match getAll with
  | Except.error err => (nbi, Outcome.error err)
  | Except.ok nbManufacturers =>
    let s := indexLoop nbi.SsotTag (fun m => m.Name) (fun m => m.toNetboxObject) nbManufacturers
    ({ nbi with
        ManufacturersIndexByName := s.1
        OrphanManager := GoMap.set nbi.OrphanManager ApiPath.ManufacturersApiPath s.2 },
     Outcome.ok)

def InitPlatforms (nbi : NetboxInventory) (getAll : Except Error (List Platform)) :
    NetboxInventory × Outcome :=
  match getAll with
  | Except.error err => (nbi, Outcome.error err)
  | Except.ok nbPlatforms =>
    let s := indexLoop nbi.SsotTag (fun p => p.Name) (fun p => p.toNetboxObject) nbPlatforms
    ({ nbi with
        PlatformsIndexByName := s.1
        OrphanManager := GoMap.set nbi.OrphanManager ApiPath.PlatformsApiPath s.2 }, Outcome.ok)

def InitDevices (nbi : NetboxInventory) (getAll : Except Error (List Device)) :
    NetboxInventory × Outcome :=
  match getAll with
  | Except.error err => (nbi, Outcome.error err)
  | Except.ok nbDevices =>
    let r := index2Loop nbi.SsotTag (fun (d : Device) => some d.Name)
      (fun d => d.Site.map (fun s => s.Id)) (fun d => d.toNetboxObject) nbDevices
      (GoMap.empty, GoMap.empty)
    ({ nbi with
        DevicesIndexByNameAndSiteId := r.1.1
        OrphanManager := GoMap.set nbi.OrphanManager ApiPath.DevicesApiPath r.1.2 }, r.2)

def InitDeviceRoles (nbi : NetboxInventory) (getAll : Except Error (List DeviceRole)) :
    NetboxInventory × Outcome :=
  match getAll with
  | Except.error err => (nbi, Outcome.error err)
  | Except.ok nbDeviceRoles =>
    let s := indexLoop nbi.SsotTag (fun r => r.Name) (fun r => r.toNetboxObject) nbDeviceRoles
    ({ nbi with
        DeviceRolesIndexByName := s.1
        OrphanManager := GoMap.set nbi.OrphanManager ApiPath.DeviceRolesApiPath s.2 }, Outcome.ok)

def InitCustomFields (nbi : NetboxInventory) (getAll : Except Error (List CustomField)) :
    NetboxInventory × Outcome :=
  match getAll with
  | Except.error err => (nbi, Outcome.error err)
  | Except.ok customFields =>
    ({ nbi with CustomFieldsIndexByName := plainLoop (fun f => f.Name) customFields },
     Outcome.ok)

def InitClusterGroups (nbi : NetboxInventory) (getAll : Except Error (List ClusterGroup)) :
    NetboxInventory × Outcome :=
  match getAll with
  | Except.error err => (nbi, Outcome.error err)
  | Except.ok nbClusterGroups =>
    let s := indexLoop nbi.SsotTag (fun g => g.Name) (fun g => g.toNetboxObject) nbClusterGroups
    ({ nbi with
        ClusterGroupsIndexByName := s.1
        OrphanManager := GoMap.set nbi.OrphanManager ApiPath.ClusterGroupsApiPath s.2 },
     Outcome.ok)

def InitClusterTypes (nbi : NetboxInventory) (getAll : Except Error (List ClusterType)) :
    NetboxInventory × Outcome :=
  match getAll with
  | Except.error err => (nbi, Outcome.error err)
  | Except.ok nbClusterTypes =>
    let s := indexLoop nbi.SsotTag (fun t => t.Name) (fun t => t.toNetboxObject) nbClusterTypes
    ({ nbi with
        ClusterTypesIndexByName := s.1
        OrphanManager := GoMap.set nbi.OrphanManager ApiPath.ClusterTypesApiPath s.2 },
     Outcome.ok)

def InitClusters (nbi : NetboxInventory) (getAll : Except Error (List Cluster)) :
    NetboxInventory × Outcome :=
  match getAll with
  | Except.error err => (nbi, Outcome.error err)
  | Except.ok nbClusters =>
    let s := indexLoop nbi.SsotTag (fun c => c.Name) (fun c => c.toNetboxObject) nbClusters
    ({ nbi with
        ClustersIndexByName := s.1
        OrphanManager := GoMap.set nbi.OrphanManager ApiPath.ClustersApiPath s.2 }, Outcome.ok)

def InitDeviceTypes (nbi : NetboxInventory) (getAll : Except Error (List DeviceType)) :
    NetboxInventory × Outcome :=
  match getAll with
  | Except.error err => (nbi, Outcome.error err)
  | Except.ok nbDeviceTypes =>
    let s := indexLoop nbi.SsotTag (fun t => t.Model) (fun t => t.toNetboxObject) nbDeviceTypes
    ({ nbi with
        DeviceTypesIndexByModel := s.1
        OrphanManager := GoMap.set nbi.OrphanManager ApiPath.DeviceTypesApiPath s.2 },
     Outcome.ok)

def InitInterfaces (nbi : NetboxInventory) (getAll : Except Error (List Interface)) :
    NetboxInventory × Outcome :=
  match getAll with
  | Except.error err => (nbi, Outcome.error err)
  | Except.ok nbInterfaces =>
    let r := index2Loop nbi.SsotTag (fun (i : Interface) => i.Device.map (fun d => d.Id))
      (fun i => some i.Name) (fun i => i.toNetboxObject) nbInterfaces
      (GoMap.empty, GoMap.empty)
    ({ nbi with
        InterfacesIndexByDeviceIdAndName := r.1.1
        OrphanManager := GoMap.set nbi.OrphanManager ApiPath.InterfacesApiPath r.1.2 }, r.2)

def InitVlanGroups (nbi : NetboxInventory) (getAll : Except Error (List VlanGroup)) :
    NetboxInventory × Outcome :=
  match getAll with
  | Except.error err => (nbi, Outcome.error err)
  | Except.ok nbVlanGroups =>
    let s := indexLoop nbi.SsotTag (fun g => g.Name) (fun g => g.toNetboxObject) nbVlanGroups
    ({ nbi with
        VlanGroupsIndexByName := s.1
        OrphanManager := GoMap.set nbi.OrphanManager ApiPath.VlanGroupsApiPath s.2 }, Outcome.ok)

def InitVMs (nbi : NetboxInventory) (getAll : Except Error (List VM)) :
    NetboxInventory × Outcome :=
  match getAll with
  | Except.error err => (nbi, Outcome.error err)
  | Except.ok nbVMs =>
    let s := indexLoop nbi.SsotTag (fun v => v.Name) (fun v => v.toNetboxObject) nbVMs
    ({ nbi with
        VMsIndexByName := s.1
        OrphanManager := GoMap.set nbi.OrphanManager ApiPath.VirtualMachinesApiPath s.2 },
     Outcome.ok)

def InitVMInterfaces (nbi : NetboxInventory) (getAll : Except Error (List VMInterface)) :
    NetboxInventory × Outcome :=
  match getAll with
  | Except.error err => (nbi, Outcome.error ("Init vm interfaces: " ++ err))
  | Except.ok nbVMInterfaces =>
    let r := index2Loop nbi.SsotTag (fun (i : VMInterface) => i.VM.map (fun v => v.Id))
      (fun i => some i.Name) (fun i => i.toNetboxObject) nbVMInterfaces
      (GoMap.empty, GoMap.empty)
    ({ nbi with
        VMInterfacesIndexByVMIdAndName := r.1.1
        OrphanManager := GoMap.set nbi.OrphanManager ApiPath.VMInterfacesApiPath r.1.2 }, r.2)

def InitIPAddresses (nbi : NetboxInventory) (getAll : Except Error (List IPAddress)) :
    NetboxInventory × Outcome :=
  match getAll with
  | Except.error err => (nbi, Outcome.error err)
  | Except.ok ipAddresses =>
    let s := indexLoop nbi.SsotTag (fun a => a.Address) (fun a => a.toNetboxObject) ipAddresses
    ({ nbi with
        IPAdressesIndexByAddress := s.1
        OrphanManager := GoMap.set nbi.OrphanManager ApiPath.IpAddressesApiPath s.2 },
     Outcome.ok)

def InitPrefixes (nbi : NetboxInventory) (getAll : Except Error (List IPPrefix)) :
    NetboxInventory × Outcome :=
  match getAll with
  | Except.error err => (nbi, Outcome.error err)
  | Except.ok prefixes =>
    let s := indexLoop nbi.SsotTag (fun p => p.Value) (fun p => p.toNetboxObject) prefixes
    ({ nbi with
        PrefixesIndexByPrefix := s.1
        OrphanManager := GoMap.set nbi.OrphanManager ApiPath.PrefixesApiPath s.2 }, Outcome.ok)

/-! ## The VMware source and its sync (vmware_sync.go)

The maps of `VmwareSource` that the sync ranges over (`DataCenters`, `Clusters`, `Hosts`)
are lists of entries in `range` order. The declaration of `VmwareSource` is outside the
files at hand, so whether `DataCenters` and `Clusters` hold pointers or struct values is a
parameter of the source, `MapElems`: with pointers the read of a missing key gives nil and
selecting `.Name` from it faults; with struct values it gives the zero struct, whose name
is empty. The objects of the VMware SDK are taken fully populated. -/

/-- A collection of relation rules as a source holds it: a Go `map[string]string` from
pattern to label. -/
abbrev RegexPairs := GoMap String String

/-- Fields of `mo.Datacenter` the sync reads. -/
structure Datacenter where
  Name : String
deriving DecidableEq, Repr

/-- Fields of `mo.ClusterComputeResource` the sync reads. -/
structure ClusterComputeResource where
  Name : String
deriving DecidableEq, Repr

/-- One entry of `Hardware.OtherIdentifyingInfo`: `IdentifierKey` is
`IdentifierType.GetElementDescription().Key`. -/
structure HostSystemIdentificationInfo where
  IdentifierKey : String
  IdentifierValue : String
deriving DecidableEq, Repr

structure HostHardwareSummary where
  Uuid : String
  Model : String
  Vendor : String
  NumCpuCores : Int
  MemorySize : Int
  OtherIdentifyingInfo : List HostSystemIdentificationInfo
deriving DecidableEq, Repr

structure HostRuntimeInfo where
  ConnectionState : String
deriving DecidableEq, Repr

structure AboutInfo where
  Name : String
  Version : String
deriving DecidableEq, Repr

structure HostConfigSummary where
  Product : AboutInfo
deriving DecidableEq, Repr

structure HostListSummary where
  Hardware : HostHardwareSummary
  Runtime : HostRuntimeInfo
  Config : HostConfigSummary
deriving DecidableEq, Repr

/-- Fields of `mo.HostSystem` the sync reads. -/
structure HostSystem where
  Name : String
  Summary : HostListSummary
deriving DecidableEq, Repr

/-- The value of `dvsPortSetting.Vlan` as the type assertion of syncVlans sees it: a
`*types.VmwareDistributedVirtualSwitchVlanIdSpec` with its `VlanId`, or a value of another
type (a trunk range, a private VLAN, nil). -/
inductive VlanSpec where
  | VmwareDistributedVirtualSwitchVlanIdSpec (VlanId : Int) : VlanSpec
  | OtherVlanSpec : VlanSpec
deriving DecidableEq, Repr

/-- The value of `dvpg.Config.DefaultPortConfig` as the type assertion of syncVlans sees
it: a `*types.VMwareDVSPortSetting` with its `Vlan`, or a value of another type. -/
inductive DVPortSetting where
  | VMwareDVSPortSetting (Vlan : VlanSpec) : DVPortSetting
  | OtherPortSetting : DVPortSetting
deriving DecidableEq, Repr

/-- Fields of `types.DVPortgroupConfigInfo` the sync reads. -/
structure DVPortgroupConfigInfo where
  Name : String
  DefaultPortConfig : DVPortSetting
deriving DecidableEq, Repr

/-- Fields of `mo.DistributedVirtualPortgroup` the sync reads. -/
structure DistributedVirtualPortgroup where
  Config : DVPortgroupConfigInfo
deriving DecidableEq, Repr

/-- How the maps `DataCenters` and `Clusters` of `VmwareSource` hold their elements. The
declaration of `VmwareSource` is outside the files at hand and nothing in them fixes it, so
the element kind is a parameter of the source: `map[string]*T` (pointers) or
`map[string]T` (values). -/
inductive MapElems where
  | pointers : MapElems
  | values : MapElems
deriving DecidableEq, Repr

/-- Fields of `VmwareSource` that syncClusters, syncHosts and syncVlans read. A relation
collection is `none` when the Go map is nil. `DistributedVirtualPortgrups`, spelled as in
the source, is the map syncVlans ranges over, empty when not given. `Elems` is how
`DataCenters` and `Clusters` are declared to hold their elements. -/
structure VmwareSource where
  SourceTags : List Tag
  DataCenters : List (String × Datacenter)
  Clusters : List (String × ClusterComputeResource)
  Hosts : List (String × HostSystem)
  Cluster2Datacenter : GoMap String String
  Host2Cluster : GoMap String String
  HostSiteRelations : Option RegexPairs
  ClusterSiteRelations : Option RegexPairs
  ClusterTenantRelations : Option RegexPairs
  HostTenantRelations : Option RegexPairs
  DistributedVirtualPortgrups : List (String × DistributedVirtualPortgroup) := []
  Elems : MapElems

/-- The read `vc.DataCenters[datacenterId]`: the entry under the key, and for a key the map
does not have nil (`none`) when the map holds pointers, the zero struct when it holds
struct values. -/
def VmwareSource.readDatacenter (vc : VmwareSource) (datacenterId : String) :
    Option Datacenter :=
  match vc.DataCenters.lookup datacenterId with
  | some dc => some dc
  | none =>
    match vc.Elems with
    | MapElems.pointers => none
    | MapElems.values => some { Name := "" }

/-- The read `vc.Clusters[clusterId]`: the entry under the key, and for a key the map does
not have nil (`none`) when the map holds pointers, the zero struct when it holds struct
values. -/
def VmwareSource.readCluster (vc : VmwareSource) (clusterId : String) :
    Option ClusterComputeResource :=
  match vc.Clusters.lookup clusterId with
  | some cluster => some cluster
  | none =>
    match vc.Elems with
    | MapElems.pointers => none
    | MapElems.values => some { Name := "" }

/-- The helpers of `utils` the sync calls; their code is outside the files at hand. -/
structure Utils where
  Slugify : String → String
  GeneratePlatformName : String → String → String
  MatchStringToValue : String → RegexPairs → Except Error String

/-- The upsert operations of the inventory the sync calls, and `syncHostNics`; their code
is outside the files at hand. Each takes the inventory and gives the inventory it leaves
and what it returns. -/
structure Upsert where
  AddClusterType : NetboxInventory → ClusterType → NetboxInventory × Except Error ClusterType
  AddCluster : NetboxInventory → Cluster → NetboxInventory × Option Error
  AddManufacturer : NetboxInventory → Manufacturer → NetboxInventory × Except Error Manufacturer
  AddDeviceType : NetboxInventory → DeviceType → NetboxInventory × Except Error DeviceType
  AddPlatform : NetboxInventory → Platform → NetboxInventory × Except Error Platform
  AddDevice : NetboxInventory → Device → NetboxInventory × Except Error Device
  syncHostNics : NetboxInventory → HostSystem → Device → NetboxInventory × Option Error

/-- A call the sync made, with the candidate it submitted. -/
inductive Call where
  | AddClusterType (c : ClusterType) : Call
  | AddCluster (c : Cluster) : Call
  | AddManufacturer (m : Manufacturer) : Call
  | AddDeviceType (t : DeviceType) : Call
  | AddPlatform (p : Platform) : Call
  | AddDevice (d : Device) : Call
  | syncHostNics (host : HostSystem) (d : Device) : Call
deriving DecidableEq, Repr

/-- The state of a sync: the inventory and the calls made so far, oldest first. -/
structure Run where
  nbi : NetboxInventory
  calls : List Call

/-- The block syncClusters and syncHosts repeat for each relation: when the rule
collection is not nil the name is matched; a matcher error is returned (worded by
`errMatch`); a non-empty label that is no key of the index is an error (worded by
`errMissing`); a non-empty label that is a key gives the indexed entity; in every other
case the relation stays nil. -/
def resolveRelation {α : Type} (u : Utils) (relations : Option RegexPairs) (name : String)
    (index : GoMap String α) (errMatch : Error → Error) (errMissing : String → Error) :
    Except Error (Option α) :=
  match relations with
  | none => Except.ok none
  | some rel =>
    match u.MatchStringToValue name rel with
    | Except.error err => Except.error (errMatch err)
    | Except.ok label =>
      if label ≠ "" then
        if ¬ GoMap.has index label then Except.error (errMissing label)
        else Except.ok (index label)
      else Except.ok none

/-- The site relation of a cluster, lines 53 to 65 of vmware_sync.go. -/
def clusterSiteOf (u : Utils) (vc : VmwareSource) (nbi : NetboxInventory) (clusterName : String) :
    Except Error (Option Site) :=
  resolveRelation u vc.ClusterSiteRelations clusterName nbi.SitesIndexByName
    (fun err => "failed to match vmware cluster " ++ clusterName ++ " to a Netbox site: " ++ err)
    (fun label => "failed to match vmware cluster " ++ clusterName ++ " to a Netbox site: "
      ++ label ++ ". Site with this name doesn't exist")

/-- The tenant relation of a cluster, lines 67 to 79 of vmware_sync.go. -/
def clusterTenantOf (u : Utils) (vc : VmwareSource) (nbi : NetboxInventory)
    (clusterName : String) : Except Error (Option Tenant) :=
  resolveRelation u vc.ClusterTenantRelations clusterName nbi.TenantsIndexByName
    (fun err => "error occurred when matching vmware cluster " ++ clusterName
      ++ " to a Netbox tenant: " ++ err)
    (fun label => "failed to match vmware cluster " ++ clusterName ++ " to a Netbox tenant: "
      ++ label ++ ". Tenant with this name doesn't exist")

/-- The body of the loop of syncClusters for one entry of `vc.Clusters`. -/
def syncClusters.body (u : Utils) (up : Upsert) (vc : VmwareSource) (clusterType : ClusterType)
    (run : Run) (clusterId : String) (cluster : ClusterComputeResource) : Run × Outcome :=
  let clusterName := cluster.Name
  let datacenterId := (vc.Cluster2Datacenter clusterId).getD ""
  match vc.readDatacenter datacenterId with
  | none => (run, Outcome.fault)
  | some dc =>
    let clusterGroup := run.nbi.ClusterGroupsIndexByName dc.Name
    match clusterSiteOf u vc run.nbi clusterName with
    | Except.error err => (run, Outcome.error err)
    | Except.ok clusterSite =>
      match clusterTenantOf u vc run.nbi clusterName with
      | Except.error err => (run, Outcome.error err)
      | Except.ok clusterTenant =>
        let nbCluster : Cluster :=
          { Id := 0, Tags := vc.SourceTags, Description := "", Name := clusterName,
            Typ := some clusterType, Status := ClusterStatus.ClusterStatusActive,
            Group := clusterGroup, Site := clusterSite, Tenant := clusterTenant }
        match up.AddCluster run.nbi nbCluster with
        | (nbi1, some err) =>
          ({ nbi := nbi1, calls := run.calls ++ [Call.AddCluster nbCluster] },
           Outcome.error ("failed to add vmware cluster " ++ clusterName
             ++ " as Netbox cluster: " ++ err))
        | (nbi1, none) =>
          ({ nbi := nbi1, calls := run.calls ++ [Call.AddCluster nbCluster] }, Outcome.ok)

/-- The loop of syncClusters over the entries of `vc.Clusters`: the first pass that does
not end well ends the function. -/
def syncClusters.loop (u : Utils) (up : Upsert) (vc : VmwareSource) (clusterType : ClusterType) :
    List (String × ClusterComputeResource) → Run → Run × Outcome
  | [], run => (run, Outcome.ok)
  | (clusterId, cluster) :: rest, run =>
    match syncClusters.body u up vc clusterType run clusterId cluster with
    | (run1, Outcome.ok) => syncClusters.loop u up vc clusterType rest run1
    | (run1, o) => (run1, o)

def syncClusters (u : Utils) (up : Upsert) (vc : VmwareSource) (nbi : NetboxInventory) :
    Run × Outcome :=
  let clusterType : ClusterType :=
    { Id := 0, Tags := vc.SourceTags, Description := "", Name := "vmware", Slug := "vmware" }
  match up.AddClusterType nbi clusterType with
  | (nbi1, Except.error err) =>
    ({ nbi := nbi1, calls := [Call.AddClusterType clusterType] },
     Outcome.error ("failed to add vmware ClusterType: " ++ err))
  | (nbi1, Except.ok clusterType1) =>
    syncClusters.loop u up vc clusterType1 vc.Clusters
      { nbi := nbi1, calls := [Call.AddClusterType clusterType] }

/-- The site relation of a host, lines 107 to 119 of vmware_sync.go. -/
def hostSiteOf (u : Utils) (vc : VmwareSource) (nbi : NetboxInventory) (hostName : String) :
    Except Error (Option Site) :=
  resolveRelation u vc.HostSiteRelations hostName nbi.SitesIndexByName
    (fun err => "error occurred when matching vmware host " ++ hostName
      ++ " to a Netbox site: " ++ err)
    (fun label => "failed to match vmware host " ++ hostName ++ " to a Netbox site: "
      ++ label ++ ". Site with this name doesn't exist")

/-- The tenant relation of a host, lines 120 to 132 of vmware_sync.go. -/
def hostTenantOf (u : Utils) (vc : VmwareSource) (nbi : NetboxInventory) (hostName : String) :
    Except Error (Option Tenant) :=
  resolveRelation u vc.HostTenantRelations hostName nbi.TenantsIndexByName
    (fun err => "error occurred when matching vmware host " ++ hostName
      ++ " to a Netbox tenant: " ++ err)
    (fun label => "failed to match vmware host " ++ hostName ++ " to a Netbox tenant: "
      ++ label ++ ". Tenant with this name doesn't exist")

/-- The keys of the map `serialInfoTypes`. -/
def serialInfoTypes : List String :=
  ["EnclosureSerialNumberTag", "ServiceTag", "SerialNumberTag"]

/-- The loop that finds the serial number in `OtherIdentifyingInfo`. -/
def hostSerialNumberOf (infos : List HostSystemIdentificationInfo) : String :=
  infos.foldl (fun hostSerialNumber info =>
    if info.IdentifierKey ∈ serialInfoTypes then
      if info.IdentifierValue ≠ "" then info.IdentifierValue else hostSerialNumber
    else hostSerialNumber) ""

/-- The body of the loop of syncHosts for one entry of `vc.Hosts`. An upsert that fails
returned a nil pointer, which `%v` prints as `<nil>`. -/
def syncHosts.body (u : Utils) (up : Upsert) (vc : VmwareSource) (run : Run) (hostId : String)
    (host : HostSystem) : Run × Outcome :=
  let hostName := host.Name
  match vc.readCluster ((vc.Host2Cluster hostId).getD "") with
  | none => (run, Outcome.fault)
  | some cluster =>
    let hostCluster := run.nbi.ClustersIndexByName cluster.Name
    match hostSiteOf u vc run.nbi hostName with
    | Except.error err => (run, Outcome.error err)
    | Except.ok hostSite =>
      match hostTenantOf u vc run.nbi hostName with
      | Except.error err => (run, Outcome.error err)
      | Except.ok hostTenant =>
        let hostAssetTag := host.Summary.Hardware.Uuid
        let hostModel := host.Summary.Hardware.Model
        let hostSerialNumber := hostSerialNumberOf host.Summary.Hardware.OtherIdentifyingInfo
        let manufacturerName :=
          if host.Summary.Hardware.Vendor = "" then "Generic Manufacturer"
          else host.Summary.Hardware.Vendor
        let manufacturer : Manufacturer :=
          { Id := 0, Tags := [], Description := "", Name := manufacturerName,
            Slug := u.Slugify manufacturerName }
        let calls1 := run.calls ++ [Call.AddManufacturer manufacturer]
        match up.AddManufacturer run.nbi manufacturer with
        | (nbi1, Except.error err) =>
          ({ nbi := nbi1, calls := calls1 },
           Outcome.error ("failed adding oVirt Manufacturer <nil> with error: " ++ err))
        | (nbi1, Except.ok hostManufacturer) =>
          let deviceType : DeviceType :=
            { Id := 0, Tags := [], Description := "", Manufacturer := some hostManufacturer,
              Model := hostModel, Slug := u.Slugify hostModel }
          let calls2 := calls1 ++ [Call.AddDeviceType deviceType]
          match up.AddDeviceType nbi1 deviceType with
          | (nbi2, Except.error err) =>
            ({ nbi := nbi2, calls := calls2 },
             Outcome.error ("failed adding oVirt DeviceType <nil> with error: " ++ err))
          | (nbi2, Except.ok hostDeviceType) =>
            let hostStatus :=
              if host.Summary.Runtime.ConnectionState = "connected"
              then DeviceStatus.DeviceStatusActive else DeviceStatus.DeviceStatusOffline
            let osType := host.Summary.Config.Product.Name
            let osVersion := host.Summary.Config.Product.Version
            let platformName := u.GeneratePlatformName osType osVersion
            let platform : Platform :=
              { Id := 0, Tags := [], Description := "", Name := platformName,
                Slug := u.Slugify platformName }
            let calls3 := calls2 ++ [Call.AddPlatform platform]
            match up.AddPlatform nbi2 platform with
            | (nbi3, Except.error err) =>
              ({ nbi := nbi3, calls := calls3 },
               Outcome.error ("failed adding oVirt Platform <nil> with error: " ++ err))
            | (nbi3, Except.ok hostPlatform) =>
              let hostCpuCores := host.Summary.Hardware.NumCpuCores
              let hostMemGB :=
                Int.tdiv (Int.tdiv (Int.tdiv host.Summary.Hardware.MemorySize 1024) 1024) 1024
              let nbHost : Device :=
                { Id := 0, Tags := vc.SourceTags, Description := "", Name := hostName,
                  Status := some hostStatus, Platform := some hostPlatform,
                  DeviceRole := nbi3.DeviceRolesIndexByName "Server", Site := hostSite,
                  Tenant := hostTenant, Cluster := hostCluster,
                  SerialNumber := hostSerialNumber, AssetTag := hostAssetTag,
                  DeviceType := some hostDeviceType,
                  CustomFields := [("host_cpu_cores", toString hostCpuCores),
                    ("host_memory", toString hostMemGB ++ " GB")] }
              let calls4 := calls3 ++ [Call.AddDevice nbHost]
              match up.AddDevice nbi3 nbHost with
              | (nbi4, Except.error err) =>
                ({ nbi := nbi4, calls := calls4 },
                 Outcome.error ("failed to add vmware host " ++ host.Name ++ " with error: "
                   ++ err))
              | (nbi4, Except.ok nbHost1) =>
                let calls5 := calls4 ++ [Call.syncHostNics host nbHost1]
                match up.syncHostNics nbi4 host nbHost1 with
                | (nbi5, some err) =>
                  ({ nbi := nbi5, calls := calls5 },
                   Outcome.error ("failed to sync vmware host " ++ host.Name
                     ++ " nics with error: " ++ err))
                | (nbi5, none) => ({ nbi := nbi5, calls := calls5 }, Outcome.ok)

/-- The loop of syncHosts over the entries of `vc.Hosts`. -/
def syncHosts.loop (u : Utils) (up : Upsert) (vc : VmwareSource) :
    List (String × HostSystem) → Run → Run × Outcome
  | [], run => (run, Outcome.ok)
  | (hostId, host) :: rest, run =>
    match syncHosts.body u up vc run hostId host with
    | (run1, Outcome.ok) => syncHosts.loop u up vc rest run1
    | (run1, o) => (run1, o)

def syncHosts (u : Utils) (up : Upsert) (vc : VmwareSource) (nbi : NetboxInventory) :
    Run × Outcome :=
  syncHosts.loop u up vc vc.Hosts { nbi := nbi, calls := [] }

/-! ## The relation rules a source holds (ovirt.go) and the matcher

`utils.ConvertStringsToRegexPairs` and `utils.MatchStringToValue` are code of the
repository outside the files at hand; what the files fix is the type of the collection,
`map[string]string`, in which a source keeps the rules and which it hands to the matcher. -/

/-- A relation rule as configured: a pattern and a target label. -/
abbrev Rule := String × String

/-- Modelled from the spec: `utils.ConvertStringsToRegexPairs` is not in the files at hand.
The configuration is an ordered list of (pattern, label) pairs; the result is the
`map[string]string` that the fields of `OVirtSource` are declared as, so each rule is
stored under its pattern. -/
def ConvertStringsToRegexPairs (rules : List Rule) : RegexPairs :=
  rules.foldl (fun m r => GoMap.set m r.1 r.2) GoMap.empty

/-- The name and the relation rules of a source as configured. -/
structure SourceConfig where
  Name : String
  HostSiteRelations : List Rule
  ClusterSiteRelations : List Rule
  ClusterTenantRelations : List Rule
  HostTenantRelations : List Rule
  VmTenantRelations : List Rule

/-- The relation fields of `OVirtSource`. -/
structure OVirtSource where
  HostSiteRelations : RegexPairs
  ClusterSiteRelations : RegexPairs
  ClusterTenantRelations : RegexPairs
  HostTenantRelations : RegexPairs
  VmTenantRelations : RegexPairs

/-- The first part of `OVirtSource.Init` (lines 30 to 41): the relation fields are filled
from the configuration. -/
def OVirtSource.InitRelations (cfg : SourceConfig) : OVirtSource :=
  { HostSiteRelations := ConvertStringsToRegexPairs cfg.HostSiteRelations
    ClusterSiteRelations := ConvertStringsToRegexPairs cfg.ClusterSiteRelations
    ClusterTenantRelations := ConvertStringsToRegexPairs cfg.ClusterTenantRelations
    HostTenantRelations := ConvertStringsToRegexPairs cfg.HostTenantRelations
    VmTenantRelations := ConvertStringsToRegexPairs cfg.VmTenantRelations }

/-- The list is a sequence in which `range` can visit the map: every entry of the map
once, in any order. -/
def IsRangeOf (m : RegexPairs) (order : List Rule) : Prop :=
  (order.map Prod.fst).Nodup ∧ ∀ p l, (p, l) ∈ order ↔ m p = some l

/-- Modelled from the spec: `utils.MatchStringToValue` is not in the files at hand. The
rules are evaluated in the order given, the first rule whose pattern matches the name
gives its label, and no match gives the empty label. `rx pattern name` says whether the
pattern matches the name; the list is the sequence in which the rules are visited. The
error result, of which the spec says nothing, is left out. -/
def MatchStringToValue (rx : String → String → Bool) (name : String) :
    List Rule → String
  | [] => ""
  | (pattern, label) :: rest =>
    if rx pattern name then label else MatchStringToValue rx name rest

/-- The loop of a starred item `c*` followed by what `k` accepts. -/
def regexpStar (c : Char) (k : List Char → Bool) : List Char → Bool
  | [] => k []
  | t :: text => k (t :: text) || ((c == '.' || c == t) && regexpStar c k text)

/-- Whether the pattern matches at the start of the text. -/
def regexpHere : List Char → List Char → Bool
  | [], _ => true
  | c :: re, text =>
    match re with
    | d :: re2 =>
      if d = '*' then regexpStar c (regexpHere re2) text
      else
        match text with
        | [] => false
        | t :: text2 => (c == '.' || c == t) && regexpHere (d :: re2) text2
    | [] =>
      if c = '$' then text.isEmpty
      else
        match text with
        | [] => false
        | t :: text2 => (c == '.' || c == t) && regexpHere [] text2

/-- Whether the pattern matches at some position of the text. -/
def regexpSearch (re : List Char) : List Char → Bool
  | [] => regexpHere re []
  | t :: text => regexpHere re (t :: text) || regexpSearch re text

/-- Go's `regexp.Match` on the part of the syntax made of literal characters, `.`, a
starred character, a leading `^` and a trailing `$`. -/
def regexpMatch (pattern name : String) : Bool :=
  match pattern.toList with
  | [] => true
  | c :: re =>
    if c = '^' then regexpHere re name.toList else regexpSearch (c :: re) name.toList

/-- The rules of the precedence example, in the configured order. -/
def exRules : List Rule := [("^web-.*", "A"), (".*", "B")]

/-! ## main (main.go)

Everything main calls lies outside main.go and is a parameter, gathered in `Env`. The
inventory is the one object main creates and hands to every call; a call gives the
inventory it leaves and what it returns. -/

/-- The parsed configuration, as far as main reads it. -/
structure Config where
  Sources : List SourceConfig

/-- The functions main calls; `Src` is the type of a source. -/
structure Env (Src : Type) where
  ParseConfig : Except Error Config
  NewLogger : Config → Option Error
  NewNetboxInventory : Config → NetboxInventory
  Init : NetboxInventory → NetboxInventory × Option Error
  NewSource : SourceConfig → NetboxInventory → NetboxInventory × Except Error Src
  SourceInit : Src → NetboxInventory → (Src × NetboxInventory) × Option Error
  SourceSync : Src → NetboxInventory → NetboxInventory × Option Error

/-- A call main made; the source calls carry the name of the source. -/
inductive Event where
  | ParseConfig : Event
  | NewLogger : Event
  | NewNetboxInventory : Event
  | InventoryInit : Event
  | NewSource (name : String) : Event
  | SourceInit (name : String) : Event
  | SourceSync (name : String) : Event
deriving DecidableEq, Repr

/-- What a run of main leaves: the inventory (none when main ended before creating it),
the calls made, oldest first, and the error that ended the run, if one did. -/
structure MainResult where
  inventory : Option NetboxInventory
  calls : List Event
  failed : Option Error

/-- The loop of main over `config.Sources`: each of the three error checks returns from
main. -/
def main.loop {Src : Type} (env : Env Src) :
    List SourceConfig → NetboxInventory → List Event → MainResult
  | [], nbi, calls => { inventory := some nbi, calls := calls, failed := none }
  | sourceConfig :: rest, nbi, calls =>
    let calls1 := calls ++ [Event.NewSource sourceConfig.Name]
    match env.NewSource sourceConfig nbi with
    | (nbi1, Except.error err) => { inventory := some nbi1, calls := calls1, failed := some err }
    | (nbi1, Except.ok source) =>
      let calls2 := calls1 ++ [Event.SourceInit sourceConfig.Name]
      match env.SourceInit source nbi1 with
      | ((_, nbi2), some err) => { inventory := some nbi2, calls := calls2, failed := some err }
      | ((source1, nbi2), none) =>
        let calls3 := calls2 ++ [Event.SourceSync sourceConfig.Name]
        match env.SourceSync source1 nbi2 with
        | (nbi3, some err) => { inventory := some nbi3, calls := calls3, failed := some err }
        | (nbi3, none) => main.loop env rest nbi3 calls3

def main {Src : Type} (env : Env Src) : MainResult :=
  match env.ParseConfig with
  | Except.error err => { inventory := none, calls := [Event.ParseConfig], failed := some err }
  | Except.ok config =>
    match env.NewLogger config with
    | some err =>
      { inventory := none, calls := [Event.ParseConfig, Event.NewLogger], failed := some err }
    | none =>
      let netboxInventory := env.NewNetboxInventory config
      match env.Init netboxInventory with
      | (nbi1, some err) =>
        { inventory := some nbi1
          calls := [Event.ParseConfig, Event.NewLogger, Event.NewNetboxInventory,
            Event.InventoryInit]
          failed := some err }
      | (nbi1, none) =>
        main.loop env config.Sources nbi1
          [Event.ParseConfig, Event.NewLogger, Event.NewNetboxInventory, Event.InventoryInit]

/-! ## Notions the statements use -/

/-- The record carries the ownership tag: one of its tags has the ssot tag's slug. -/
def Owned (ssot : Tag) (o : NetboxObject) : Prop := ∃ t ∈ o.Tags, t.Slug = ssot.Slug

/-- The last record of the list whose key is `k`: the one a key-by-key load leaves stored. -/
def lastWith {α : Type} (p : α → Bool) (recs : List α) : Option α := recs.reverse.find? p

/-- The two key parts of a record under a two-part key, when both can be read. -/
def key2 {K J α : Type} (k1 : α → Option K) (k2 : α → Option J) (r : α) : Option (K × J) :=
  match k1 r, k2 r with
  | some a, some b => some (a, b)
  | _, _ => none

/-- The orphan set holds exactly the identifiers of the fetched records that carry the
ownership tag. -/
def OrphanExact {α : Type} (ssot : Tag) (obj : α → NetboxObject) (recs : List α)
    (orph : GoMap Int Bool) : Prop :=
  ∀ id : Int, GoMap.has orph id = true ↔ ∃ r ∈ recs, (obj r).Id = id ∧ Owned ssot (obj r)

/-- The four-part natural key of a contact assignment, when its contact and role can be
read. -/
def caKey (cA : ContactAssignment) : Option (String × Int × Int × Int) :=
  match cA.Contact, cA.Role with
  | some contact, some role => some (cA.ContentType, cA.ObjectId, contact.Id, role.Id)
  | _, _ => none

/-- The orphan set of a type: the map `nbi.OrphanManager[path]`. -/
def orphanSet (nbi : NetboxInventory) (path : ApiPath) : GoMap Int Bool :=
  GoMap.inner nbi.OrphanManager path

/-- After a successful load of any fetched list, the orphan set under `path` holds exactly
the identifiers of the fetched records that carry the ownership tag. -/
def TracksOwned {α : Type}
    (load : NetboxInventory → Except Error (List α) → NetboxInventory × Outcome)
    (obj : α → NetboxObject) (path : ApiPath) : Prop :=
  ∀ (nbi : NetboxInventory) (recs : List α), (load nbi (Except.ok recs)).2 = Outcome.ok →
    OrphanExact nbi.SsotTag obj recs (orphanSet (load nbi (Except.ok recs)).1 path)

/-! ## Concrete records for the examples -/

/-- The ownership tag as InitTags creates it. -/
def exSsot : Tag := { Id := 1, Name := "netbox-ssot", Slug := "netbox-ssot" }

/-- A tag other than the ownership tag. -/
def exOtherTag : Tag := { Id := 2, Name := "prod", Slug := "prod" }

def exSite (id : Int) (name : String) : Site :=
  { Id := id, Tags := [], Description := "", Name := name }

def exTenant (id : Int) (name : String) (tags : List Tag) : Tenant :=
  { Id := id, Tags := tags, Description := "", Name := name }

def exDevice (id : Int) (name : String) (site : Option Site) (tags : List Tag) : Device :=
  { Id := id, Tags := tags, Description := "", Name := name, Status := none, Platform := none,
    DeviceRole := none, Site := site, Tenant := none, Cluster := none, SerialNumber := "",
    AssetTag := "", DeviceType := none, CustomFields := [] }

def exContact (id : Int) : Contact :=
  { Id := id, Tags := [], Description := "", Name := "c" }

def exRole (id : Int) : ContactRole :=
  { Id := id, Tags := [], Description := "", Name := "r", Slug := "r" }

def exCA (id : Int) (ct : String) (oid cid rid : Int) (tags : List Tag) : ContactAssignment :=
  { Id := id, Tags := tags, Description := "", ContentType := ct, ObjectId := oid,
    Contact := some (exContact cid), Role := some (exRole rid) }

/-- After a successful load of any fetched list, every fetched record that carries the
ownership tag has its identifier in the orphan set under `path`. -/
def CoversOwned {α : Type}
    (load : NetboxInventory → Except Error (List α) → NetboxInventory × Outcome)
    (obj : α → NetboxObject) (path : ApiPath) : Prop :=
  ∀ (nbi : NetboxInventory) (recs : List α), (load nbi (Except.ok recs)).2 = Outcome.ok →
    ∀ r ∈ recs, Owned nbi.SsotTag (obj r) →
      GoMap.has (orphanSet (load nbi (Except.ok recs)).1 path) (obj r).Id = true

/-- The loader keeps no orphan set: a load of any fetched list succeeds and leaves the
OrphanManager as it was. -/
def KeepsNoOrphanSet {α : Type}
    (load : NetboxInventory → Except Error (List α) → NetboxInventory × Outcome) : Prop :=
  ∀ (nbi : NetboxInventory) (recs : List α),
    (load nbi (Except.ok recs)).2 = Outcome.ok ∧
    (load nbi (Except.ok recs)).1.OrphanManager = nbi.OrphanManager

/-- The list with the later duplicates removed, as the specification words it: a record
whose identifier is among `seen` (the identifiers that occurred earlier) is dropped. -/
def dropSeen : List ContactAssignment → List Int → List ContactAssignment
  | [], _ => []
  | cA :: rest, seen =>
    if cA.Id ∈ seen then dropSeen rest seen else cA :: dropSeen rest (cA.Id :: seen)

/-- The fetched list deduplicated by identifier, first occurrences kept. -/
def dedupById (recs : List ContactAssignment) : List ContactAssignment := dropSeen recs []

/-- The records whose identifier is among `seen` or occurs earlier in the list. -/
def laterDuplicates : List ContactAssignment → List Int → List ContactAssignment
  | [], _ => []
  | cA :: rest, seen =>
    if cA.Id ∈ seen then cA :: laterDuplicates rest seen
    else laterDuplicates rest (cA.Id :: seen)

/-- The natural key of a device: its name and the id of its site. -/
def deviceKey (d : Device) : Option (String × Int) :=
  key2 (fun (d : Device) => some d.Name) (fun d => d.Site.map (fun s => s.Id)) d

/-- The natural key of an interface: the id of its device and its name. -/
def interfaceKey (i : Interface) : Option (Int × String) :=
  key2 (fun (i : Interface) => i.Device.map (fun d => d.Id)) (fun i => some i.Name) i

/-- The natural key of a VM interface: the id of its VM and its name. -/
def vmInterfaceKey (i : VMInterface) : Option (Int × String) :=
  key2 (fun (i : VMInterface) => i.VM.map (fun v => v.Id)) (fun i => some i.Name) i

/-- The two inventories have the same site index and the same tenant index. -/
def SameSitesAndTenants (a b : NetboxInventory) : Prop :=
  a.SitesIndexByName = b.SitesIndexByName ∧ a.TenantsIndexByName = b.TenantsIndexByName

/-- The relation has no override for the name: the rule collection is unset (nil), or the
matcher returns the empty label with no error. -/
def NoOverride (u : Utils) (relations : Option RegexPairs) (name : String) : Prop :=
  relations = none ∨ ∃ rel, relations = some rel ∧ u.MatchStringToValue name rel = Except.ok ""

/-- A matcher for the examples: the label stored under the pattern that is the name
itself, the empty label when there is none. -/
def exMatch (name : String) (rel : RegexPairs) : Except Error String :=
  Except.ok ((rel name).getD "")

def exUtils : Utils :=
  { Slugify := fun s => s
    GeneratePlatformName := fun osType osVersion => osType ++ " " ++ osVersion
    MatchStringToValue := exMatch }

/-- Upsert operations for the examples: each accepts its candidate and leaves the
inventory as it is. -/
def exUpsert : Upsert :=
  { AddClusterType := fun nbi c => (nbi, Except.ok c)
    AddCluster := fun nbi _ => (nbi, none)
    AddManufacturer := fun nbi c => (nbi, Except.ok c)
    AddDeviceType := fun nbi c => (nbi, Except.ok c)
    AddPlatform := fun nbi c => (nbi, Except.ok c)
    AddDevice := fun nbi c => (nbi, Except.ok c)
    syncHostNics := fun nbi _ _ => (nbi, none) }

def exHost (name : String) : HostSystem :=
  { Name := name
    Summary :=
      { Hardware := { Uuid := "u-1", Model := "R640", Vendor := "Dell", NumCpuCores := 16,
                      MemorySize := 68719476736, OtherIdentifyingInfo := [] }
        Runtime := { ConnectionState := "connected" }
        Config := { Product := { Name := "VMware ESXi", Version := "7.0.3" } } } }

/-- A source with one datacenter, one cluster `web-cl` and one host `web-01`, whose site
relations send both names to the label `dc-east` and whose tenant relations are unset; its
maps hold pointers. -/
def exSource : VmwareSource :=
  { SourceTags := [exSsot]
    DataCenters := [("dc-1", { Name := "DC1" })]
    Clusters := [("cl-1", { Name := "web-cl" })]
    Hosts := [("h-1", exHost "web-01")]
    Cluster2Datacenter := GoMap.set GoMap.empty "cl-1" "dc-1"
    Host2Cluster := GoMap.set GoMap.empty "h-1" "cl-1"
    HostSiteRelations := some (GoMap.set GoMap.empty "web-01" "dc-east")
    ClusterSiteRelations := some (GoMap.set GoMap.empty "web-cl" "dc-east")
    ClusterTenantRelations := none
    HostTenantRelations := none
    Elems := MapElems.pointers }

/-- The source `exSource` with no site relation that matches: the cluster rules are unset
and the host rules match no host name. -/
def exSourcePlain : VmwareSource :=
  { exSource with
    HostSiteRelations := some GoMap.empty
    ClusterSiteRelations := none }

/-- The candidate `nbCluster` that syncClusters builds for a cluster name from the cluster
type, the group, the site and the tenant it found. -/
def nbClusterOf (vc : VmwareSource) (clusterType : ClusterType) (clusterName : String)
    (clusterGroup : Option ClusterGroup) (clusterSite : Option Site)
    (clusterTenant : Option Tenant) : Cluster :=
  { Id := 0, Tags := vc.SourceTags, Description := "", Name := clusterName,
    Typ := some clusterType, Status := ClusterStatus.ClusterStatusActive,
    Group := clusterGroup, Site := clusterSite, Tenant := clusterTenant }

/-- The cluster candidate carries the site and the tenant that the relation blocks give
for its name in some state of the inventory. -/
def RelationsAsResolved (u : Utils) (vc : VmwareSource) (cand : Cluster) : Prop :=
  ∃ nbi, clusterSiteOf u vc nbi cand.Name = Except.ok cand.Site ∧
    clusterTenantOf u vc nbi cand.Name = Except.ok cand.Tenant

/-- A configuration whose cluster-site rules are the rules of the precedence example. -/
def exConfig : SourceConfig :=
  { Name := "ovirt-1", HostSiteRelations := [], ClusterSiteRelations := exRules,
    ClusterTenantRelations := [], HostTenantRelations := [], VmTenantRelations := [] }

/-- The configuration `exConfig` with the two cluster-site rules in the other order. -/
def exConfigSwapped : SourceConfig :=
  { exConfig with ClusterSiteRelations := [(".*", "B"), ("^web-.*", "A")] }

def exManufacturer (id : Int) (name : String) (tags : List Tag) : Manufacturer :=
  { Id := id, Tags := tags, Description := "", Name := name, Slug := name }

def exSourceConfig (name : String) : SourceConfig :=
  { Name := name, HostSiteRelations := [], ClusterSiteRelations := [],
    ClusterTenantRelations := [], HostTenantRelations := [], VmTenantRelations := [] }

/-- An environment for the examples. Two sources are configured, `vmware-1` then
`vmware-2`; the inventory load finds one manufacturer, `Dell` with id 7, that carries the
ownership tag; a source is its name; no source has anything to sync, and the sync of the
source named `failing` returns an error. -/
def exEnv (failing : String) : Env String :=
  { ParseConfig := Except.ok { Sources := [exSourceConfig "vmware-1", exSourceConfig "vmware-2"] }
    NewLogger := fun _ => none
    NewNetboxInventory := fun _ => NetboxInventory.fresh exSsot
    Init := fun nbi =>
      ((InitManufacturers nbi (Except.ok [exManufacturer 7 "Dell" [exSsot]])).1, none)
    NewSource := fun sourceConfig nbi => (nbi, Except.ok sourceConfig.Name)
    SourceInit := fun source nbi => ((source, nbi), none)
    SourceSync := fun source nbi =>
      (nbi, if source = failing then some "sync failed" else none) }

/-! ## The bootstrap functions, InitTags and InitVlans (init_items.go) and syncDatacenters

These call operations of the upsert engine that `Upsert` does not hold, and
`service.Create`; their code is outside the files at hand and they are parameters,
gathered in `Engine`. -/

/-- The name constants of package `objects` the bootstrap functions read; they are
declared outside the files at hand. -/
structure ObjectNames where
  DefaultVlanGroupName : String
  AdminContactRoleName : String

/-- The operations init_items.go and syncDatacenters call. `Create` is
`service.Create[objects.Tag]`, which talks to NetBox and does not take the inventory; every
other operation takes the inventory and gives the inventory it leaves and what it
returns. -/
structure Engine where
  Create : Tag → Except Error Tag
  AddContactRole : NetboxInventory → ContactRole → NetboxInventory × Except Error ContactRole
  AddDeviceRole : NetboxInventory → DeviceRole → NetboxInventory × Except Error DeviceRole
  AddCustomField : NetboxInventory → CustomField → NetboxInventory × Option Error
  AddVlanGroup : NetboxInventory → VlanGroup → NetboxInventory × Except Error VlanGroup
  AddVlan : NetboxInventory → Vlan → NetboxInventory × Except Error Vlan
  AddClusterGroup : NetboxInventory → ClusterGroup → NetboxInventory × Except Error ClusterGroup

/-- A call made to an operation of `Engine`, with the candidate submitted. -/
inductive EngineCall where
  | Create (t : Tag) : EngineCall
  | AddContactRole (r : ContactRole) : EngineCall
  | AddDeviceRole (r : DeviceRole) : EngineCall
  | AddCustomField (f : CustomField) : EngineCall
  | AddVlanGroup (g : VlanGroup) : EngineCall
  | AddVlan (v : Vlan) : EngineCall
  | AddClusterGroup (g : ClusterGroup) : EngineCall
deriving DecidableEq, Repr

/-- The state of a function of the inventory: the inventory and the calls made so far,
oldest first. -/
structure InvRun where
  nbi : NetboxInventory
  calls : List EngineCall

/-- The tag InitTags creates when NetBox has no tag named netbox-ssot. -/
def newSsotTag : Tag := { Id := 0, Name := "netbox-ssot", Slug := "netbox-ssot" }

/-- The function InitTags: `getAll` is the result of the fetch of all tags, `getSsot` the
result of the fetch filtered by the name netbox-ssot. The description and the colour of
the created tag are not among the fields of `Tag` modelled. -/
def InitTags (e : Engine) (nbi : NetboxInventory) (getAll getSsot : Except Error (List Tag)) :
    InvRun × Outcome :=
  match getAll with
  | Except.error err => ({ nbi := nbi, calls := [] }, Outcome.error err)
  | Except.ok nbTags =>
    let nbi1 := { nbi with Tags := nbTags }
    match getSsot with
    | Except.error err => ({ nbi := nbi1, calls := [] }, Outcome.error err)
    | Except.ok [] =>
      match e.Create newSsotTag with
      | Except.error err =>
        ({ nbi := nbi1, calls := [EngineCall.Create newSsotTag] }, Outcome.error err)
      | Except.ok ssotTag =>
        ({ nbi := { nbi1 with SsotTag := ssotTag }, calls := [EngineCall.Create newSsotTag] },
         Outcome.ok)
    | Except.ok (ssotTag :: _) =>
      ({ nbi := { nbi1 with SsotTag := ssotTag }, calls := [] }, Outcome.ok)

/-- The candidate InitAdminContactRole submits. -/
def adminContactRole (names : ObjectNames) (u : Utils) : ContactRole :=
  { Id := 0, Tags := [],
    Description := "Auto generated contact role by netbox-ssot for admins of vms.",
    Name := names.AdminContactRoleName, Slug := u.Slugify names.AdminContactRoleName }

def InitAdminContactRole (names : ObjectNames) (u : Utils) (e : Engine) (nbi : NetboxInventory) :
    InvRun × Outcome :=
  match e.AddContactRole nbi (adminContactRole names u) with
  | (nbi1, Except.error err) =>
    ({ nbi := nbi1, calls := [EngineCall.AddContactRole (adminContactRole names u)] },
     Outcome.error ("admin contact role: " ++ err))
  | (nbi1, Except.ok _) =>
    ({ nbi := nbi1, calls := [EngineCall.AddContactRole (adminContactRole names u)] },
     Outcome.ok)

/-- The candidate InitServerDeviceRole submits. -/
def serverDeviceRole : DeviceRole :=
  { Id := 0, Tags := [], Description := "", Name := "Server", Slug := "server",
    Color := "00add8", VMRole := true }

def InitServerDeviceRole (e : Engine) (nbi : NetboxInventory) : InvRun × Outcome :=
  match e.AddDeviceRole nbi serverDeviceRole with
  | (nbi1, Except.error err) =>
    ({ nbi := nbi1, calls := [EngineCall.AddDeviceRole serverDeviceRole] }, Outcome.error err)
  | (nbi1, Except.ok _) =>
    ({ nbi := nbi1, calls := [EngineCall.AddDeviceRole serverDeviceRole] }, Outcome.ok)

/-- The first definition InitSsotCustomFields submits. -/
def hostCpuCoresField : CustomField :=
  { Description := "Number of CPU cores on the host",
    Name := "host_cpu_cores", Label := "Host CPU cores",
    Typ := CustomFieldType.CustomFieldTypeText, FilterLogic := FilterLogic.FilterLogicLoose,
    CustomFieldUIVisible := some CustomFieldUIVisible.CustomFieldUIVisibleAlways,
    CustomFieldUIEditable := some CustomFieldUIEditable.CustomFieldUIEditableYes,
    DisplayWeight := 100, SearchWeight := 1000, ContentTypes := ["dcim.device"] }

/-- The second definition InitSsotCustomFields submits. -/
def hostMemoryField : CustomField :=
  { Description := "Amount of memory on the host",
    Name := "host_memory", Label := "Host memory",
    Typ := CustomFieldType.CustomFieldTypeText, FilterLogic := FilterLogic.FilterLogicLoose,
    CustomFieldUIVisible := some CustomFieldUIVisible.CustomFieldUIVisibleAlways,
    CustomFieldUIEditable := some CustomFieldUIEditable.CustomFieldUIEditableYes,
    DisplayWeight := 100, SearchWeight := 1000, ContentTypes := ["dcim.device"] }

/-- The third definition InitSsotCustomFields submits. -/
def sourceIdField : CustomField :=
  { Description := "ID of the object on the source API",
    Name := "source_id", Label := "Source ID",
    Typ := CustomFieldType.CustomFieldTypeText, FilterLogic := FilterLogic.FilterLogicLoose,
    CustomFieldUIVisible := some CustomFieldUIVisible.CustomFieldUIVisibleAlways,
    CustomFieldUIEditable := some CustomFieldUIEditable.CustomFieldUIEditableYes,
    DisplayWeight := 100, SearchWeight := 1000, ContentTypes := ["dcim.interface"] }

def InitSsotCustomFields (e : Engine) (nbi : NetboxInventory) : InvRun × Outcome :=
  match e.AddCustomField nbi hostCpuCoresField with
  | (nbi1, some err) =>
    ({ nbi := nbi1, calls := [EngineCall.AddCustomField hostCpuCoresField] }, Outcome.error err)
  | (nbi1, none) =>
    match e.AddCustomField nbi1 hostMemoryField with
    | (nbi2, some err) =>
      ({ nbi := nbi2
         calls := [EngineCall.AddCustomField hostCpuCoresField,
           EngineCall.AddCustomField hostMemoryField] }, Outcome.error err)
    | (nbi2, none) =>
      match e.AddCustomField nbi2 sourceIdField with
      | (nbi3, some err) =>
        ({ nbi := nbi3
           calls := [EngineCall.AddCustomField hostCpuCoresField,
             EngineCall.AddCustomField hostMemoryField,
             EngineCall.AddCustomField sourceIdField] }, Outcome.error err)
      | (nbi3, none) =>
        ({ nbi := nbi3
           calls := [EngineCall.AddCustomField hostCpuCoresField,
             EngineCall.AddCustomField hostMemoryField,
             EngineCall.AddCustomField sourceIdField] }, Outcome.ok)

/-- The candidate InitDefaultVlanGroup submits. -/
def defaultVlanGroup (names : ObjectNames) (u : Utils) (nbi : NetboxInventory) : VlanGroup :=
  { Id := 0, Tags := [nbi.SsotTag],
    Description := "Default netbox-ssot VlanGroup for all vlans that are not part of any other vlanGroup. This group is required for netbox-ssot vlan index to work.",
    Name := names.DefaultVlanGroupName, Slug := u.Slugify names.DefaultVlanGroupName,
    MinVid := 1, MaxVid := 4094 }

def InitDefaultVlanGroup (names : ObjectNames) (u : Utils) (e : Engine) (nbi : NetboxInventory) :
    InvRun × Outcome :=
  match e.AddVlanGroup nbi (defaultVlanGroup names u nbi) with
  | (nbi1, Except.error err) =>
    ({ nbi := nbi1, calls := [EngineCall.AddVlanGroup (defaultVlanGroup names u nbi)] },
     Outcome.error ("init default vlan group: " ++ err))
  | (nbi1, Except.ok _) =>
    ({ nbi := nbi1, calls := [EngineCall.AddVlanGroup (defaultVlanGroup names u nbi)] },
     Outcome.ok)

/-- The end of one pass of the loop of InitVlans, lines 534 to 540: the VLAN is stored
under its group's id and its VID, and its id goes into the orphan set when it carries the
ssot tag. Reading the id of a nil group faults. -/
def InitVlans.store (run : InvRun) (vlan : Vlan) : InvRun × Outcome :=
  match vlan.Group with
  | none => (run, Outcome.fault)
  | some group =>
    let idx := GoMap.set2 (GoMap.ensure run.nbi.VlansIndexByVlanGroupIdAndVid group.Id)
      group.Id vlan.Vid vlan
    let om :=
      if hasSsotTag run.nbi.SsotTag vlan.Tags then
        GoMap.set run.nbi.OrphanManager ApiPath.VlansApiPath
          (GoMap.set (GoMap.inner run.nbi.OrphanManager ApiPath.VlansApiPath) vlan.Id true)
      else run.nbi.OrphanManager
    ({ nbi := { run.nbi with VlansIndexByVlanGroupIdAndVid := idx, OrphanManager := om }
       calls := run.calls }, Outcome.ok)

/-- One pass of the loop of InitVlans. A VLAN without a group gets the group stored under
the default name and is submitted to AddVlan, whose result is the VLAN the pass goes on
with. -/
def InitVlans.step (names : ObjectNames) (e : Engine) (run : InvRun) (vlan : Vlan) :
    InvRun × Outcome :=
  match vlan.Group with
  | none =>
    let vlan1 : Vlan :=
      { vlan with Group := run.nbi.VlanGroupsIndexByName names.DefaultVlanGroupName }
    match e.AddVlan run.nbi vlan1 with
    | (nbi1, Except.error err) =>
      ({ nbi := nbi1, calls := run.calls ++ [EngineCall.AddVlan vlan1] }, Outcome.error err)
    | (nbi1, Except.ok vlan2) =>
      InitVlans.store { nbi := nbi1, calls := run.calls ++ [EngineCall.AddVlan vlan1] } vlan2
  | some _ => InitVlans.store run vlan

/-- The loop of InitVlans: the first pass that does not end well ends the function. -/
def InitVlans.loop (names : ObjectNames) (e : Engine) : List Vlan → InvRun → InvRun × Outcome
  | [], run => (run, Outcome.ok)
  | vlan :: rest, run =>
    match InitVlans.step names e run vlan with
    | (run1, Outcome.ok) => InitVlans.loop names e rest run1
    | (run1, o) => (run1, o)

def InitVlans (names : ObjectNames) (e : Engine) (nbi : NetboxInventory)
    (getAll : Except Error (List Vlan)) : InvRun × Outcome :=
  match getAll with
  | Except.error err => ({ nbi := nbi, calls := [] }, Outcome.error err)
  | Except.ok nbVlans =>
    InitVlans.loop names e nbVlans
      { nbi := { nbi with
          VlansIndexByVlanGroupIdAndVid := GoMap.empty
          OrphanManager := GoMap.set nbi.OrphanManager ApiPath.VlansApiPath GoMap.empty }
        calls := [] }

/-- The candidate syncDatacenters builds for a datacenter; `hostname` is
`vc.SourceConfig.Hostname`. -/
def nbClusterGroupOf (u : Utils) (vc : VmwareSource) (hostname : String) (dc : Datacenter) :
    ClusterGroup :=
  { Id := 0, Tags := vc.SourceTags, Description := "Datacenter from source " ++ hostname,
    Name := dc.Name, Slug := u.Slugify dc.Name }

/-- The loop of syncDatacenters over the entries of `vc.DataCenters`. -/
def syncDatacenters.loop (u : Utils) (e : Engine) (vc : VmwareSource) (hostname : String) :
    List (String × Datacenter) → InvRun → InvRun × Outcome
  | [], run => (run, Outcome.ok)
  | (_, dc) :: rest, run =>
    let calls1 := run.calls ++ [EngineCall.AddClusterGroup (nbClusterGroupOf u vc hostname dc)]
    match e.AddClusterGroup run.nbi (nbClusterGroupOf u vc hostname dc) with
    | (nbi1, Except.error err) =>
      ({ nbi := nbi1, calls := calls1 },
       Outcome.error ("failed to add vmware datacenter " ++ dc.Name
         ++ " as Netbox ClusterGroup: " ++ err))
    | (nbi1, Except.ok _) =>
      syncDatacenters.loop u e vc hostname rest { nbi := nbi1, calls := calls1 }

/-- The function syncDatacenters; `hostname` is `vc.SourceConfig.Hostname`. -/
def syncDatacenters (u : Utils) (e : Engine) (vc : VmwareSource) (hostname : String)
    (nbi : NetboxInventory) : InvRun × Outcome :=
  syncDatacenters.loop u e vc hostname vc.DataCenters { nbi := nbi, calls := [] }

/-! ## Init of pkg/netbox/inventory/inventory.go

The steps Init runs are methods whose code is outside the files at hand; `run` gives for
each step the inventory it leaves and the error it returns. -/

/-- The steps of Init, named as the methods it calls. -/
inductive InitStep where
  | InitTags | InitTenants | InitSites | InitDevices | InitDeviceRoles
  | InitServerDeviceRole | InitCustomFields | InitServerCustomFields | InitClusterGroups
  | InitClusterTypes | InitClusters
deriving DecidableEq, Repr

/-- The steps in the order Init calls them, lines 68 to 113. -/
def NetBoxInventory.Init.steps : List InitStep :=
  [InitStep.InitTags, InitStep.InitTenants, InitStep.InitSites, InitStep.InitDevices,
   InitStep.InitDeviceRoles, InitStep.InitServerDeviceRole, InitStep.InitCustomFields,
   InitStep.InitServerCustomFields, InitStep.InitClusterGroups, InitStep.InitClusterTypes,
   InitStep.InitClusters]

/-- Running steps in order, each followed by `if err != nil { return err }`; `ran` lists
the steps called so far. -/
def runSteps (run : InitStep → NetboxInventory → NetboxInventory × Option Error) :
    List InitStep → NetboxInventory → List InitStep →
      (NetboxInventory × List InitStep) × Option Error
  | [], nbi, ran => ((nbi, ran), none)
  | step :: rest, nbi, ran =>
    match run step nbi with
    | (nbi1, some err) => ((nbi1, ran ++ [step]), some err)
    | (nbi1, none) => runSteps run rest nbi1 (ran ++ [step])

/-- The function Init: the inventory it leaves, the steps it called, and the error it
returns. Creating the API client, which cannot fail, is left out. -/
def NetBoxInventory.Init (run : InitStep → NetboxInventory → NetboxInventory × Option Error)
    (nbi : NetboxInventory) : (NetboxInventory × List InitStep) × Option Error :=
  runSteps run NetBoxInventory.Init.steps nbi []

/-- The entity types whose records Init loads. -/
inductive EntityType where
  | Tags | Tenants | Sites | Devices | DeviceRoles | CustomFields | ClusterGroups
  | ClusterTypes | Clusters
deriving DecidableEq, Repr

/-- The entity type a step loads; the two bootstrap steps load none. -/
def InitStep.loads : InitStep → Option EntityType
  | InitStep.InitTags => some EntityType.Tags
  | InitStep.InitTenants => some EntityType.Tenants
  | InitStep.InitSites => some EntityType.Sites
  | InitStep.InitDevices => some EntityType.Devices
  | InitStep.InitDeviceRoles => some EntityType.DeviceRoles
  | InitStep.InitServerDeviceRole => none
  | InitStep.InitCustomFields => some EntityType.CustomFields
  | InitStep.InitServerCustomFields => none
  | InitStep.InitClusterGroups => some EntityType.ClusterGroups
  | InitStep.InitClusterTypes => some EntityType.ClusterTypes
  | InitStep.InitClusters => some EntityType.Clusters

/-- The sequence of entity types Init loads. -/
def loadOrder : List EntityType := NetBoxInventory.Init.steps.filterMap InitStep.loads

/-- The entity types, among those Init loads, that the records of a type reference: the
pointer fields of `Device` and `Cluster`, and the tags of every type that embeds
`NetboxObject`. -/
def EntityType.references : EntityType → List EntityType
  | EntityType.Tags => []
  | EntityType.CustomFields => []
  | EntityType.Devices =>
    [EntityType.Tags, EntityType.DeviceRoles, EntityType.Sites, EntityType.Tenants,
     EntityType.Clusters]
  | EntityType.Clusters =>
    [EntityType.Tags, EntityType.ClusterTypes, EntityType.ClusterGroups, EntityType.Sites,
     EntityType.Tenants]
  | _ => [EntityType.Tags]

/-- The type `a` is loaded, and loaded before `b` is: its first place in the sequence
comes before the first place of `b` (the length of the sequence when `b` is not in it). -/
def loadedBefore (order : List EntityType) (a b : EntityType) : Bool :=
  decide (a ∈ order ∧ order.indexOf a < order.indexOf b)

/-- Every type of the sequence is loaded only after every type its records reference. -/
def DependencyOrdered (order : List EntityType) : Prop :=
  ∀ t ∈ order, ∀ r ∈ t.references, loadedBefore order r t = true

/-- Names for the examples. -/
def exNames : ObjectNames :=
  { DefaultVlanGroupName := "Default netbox-ssot vlan group", AdminContactRoleName := "Admin" }

/-- Operations for the examples: each accepts its candidate, returns it and leaves the
inventory as it is, except that AddClusterGroup rejects the cluster group named
`failing`. -/
def exEngine (failing : String) : Engine :=
  { Create := fun t => Except.ok t
    AddContactRole := fun nbi r => (nbi, Except.ok r)
    AddDeviceRole := fun nbi r => (nbi, Except.ok r)
    AddCustomField := fun nbi _ => (nbi, none)
    AddVlanGroup := fun nbi g => (nbi, Except.ok g)
    AddVlan := fun nbi v => (nbi, Except.ok v)
    AddClusterGroup := fun nbi g =>
      (nbi, if g.Name = failing then Except.error "rejected" else Except.ok g) }

/-- The source `exSource` with two datacenters, visited `DC1` first. -/
def exSourceTwoDatacenters : VmwareSource :=
  { exSource with DataCenters := [("dc-1", { Name := "DC1" }), ("dc-2", { Name := "DC2" })] }

/-- Steps for the examples: each leaves the inventory as it is, and the step `failing`
returns an error. -/
def exSteps (failing : Option InitStep) (step : InitStep) (nbi : NetboxInventory) :
    NetboxInventory × Option Error :=
  (nbi, if failing = some step then some "load failed" else none)

/-- The environment `exEnv` whose inventory Init is the function Init over `exSteps`. -/
def exEnvInit (failing : Option InitStep) : Env String :=
  { exEnv "" with
    Init := fun nbi =>
      ((NetBoxInventory.Init (exSteps failing) nbi).1.1,
       (NetBoxInventory.Init (exSteps failing) nbi).2) }

/-- The VLAN as InitVlans goes on with it: with the group `dg` filled in when it has
none. -/
def withDefaultGroup (dg : VlanGroup) (v : Vlan) : Vlan :=
  match v.Group with
  | none => { v with Group := some dg }
  | some _ => v

/-- The natural key of a VLAN: the id of its group and its VID. -/
def vlanKey (v : Vlan) : Option (Int × Int) := v.Group.map (fun g => (g.Id, v.Vid))

/-- The calls InitVlans makes for a fetched list when the default group is `dg`: one
AddVlan for each VLAN without a group, in the order fetched. -/
def upsertsOf (dg : VlanGroup) (vlans : List Vlan) : List EngineCall :=
  (vlans.filter (fun v => v.Group.isNone)).map
    (fun v => EngineCall.AddVlan (withDefaultGroup dg v))

/-- The operation AddVlan, when it returns no error, returns the VLAN it was given. -/
def Engine.AddVlanReturnsGiven (e : Engine) : Prop :=
  ∀ nbi v w, (e.AddVlan nbi v).2 = Except.ok w → w = v

/-- The operation AddVlan leaves the VLAN-group index as it is and changes no slot of the
VLAN index other than the slot of the VLAN it is given. -/
def Engine.AddVlanKeepsOtherSlots (e : Engine) : Prop :=
  ∀ nbi v,
    (e.AddVlan nbi v).1.VlanGroupsIndexByName = nbi.VlanGroupsIndexByName ∧
    ∀ g vid, vlanKey v ≠ some (g, vid) →
      GoMap.get2 (e.AddVlan nbi v).1.VlansIndexByVlanGroupIdAndVid g vid
        = GoMap.get2 nbi.VlansIndexByVlanGroupIdAndVid g vid

def exVlanGroup (id : Int) (name : String) : VlanGroup :=
  { Id := id, Tags := [], Description := "", Name := name, Slug := name, MinVid := 1,
    MaxVid := 4094 }

def exVlan (id vid : Int) (group : Option VlanGroup) : Vlan :=
  { Id := id, Tags := [], Description := "", Name := "vlan", Vid := vid, Group := group,
    Status := none, Tenant := none }

/-- An inventory whose VLAN-group index holds the default group, with id 9. -/
def exInventoryWithDefaultGroup : NetboxInventory :=
  { NetboxInventory.fresh exSsot with
    VlanGroupsIndexByName :=
      GoMap.set GoMap.empty exNames.DefaultVlanGroupName
        (exVlanGroup 9 exNames.DefaultVlanGroupName) }

/-- The call is a create call, `service.Create`, rather than an upsert operation. -/
def EngineCall.isCreate : EngineCall → Bool
  | EngineCall.Create _ => true
  | _ => false

/-! ## The inventory at the time of a call -/

/-- The inventory a call of the sync leaves when it is made in the inventory `nbi`. -/
def Call.apply (up : Upsert) (nbi : NetboxInventory) : Call → NetboxInventory
  | Call.AddClusterType c => (up.AddClusterType nbi c).1
  | Call.AddCluster c => (up.AddCluster nbi c).1
  | Call.AddManufacturer m => (up.AddManufacturer nbi m).1
  | Call.AddDeviceType t => (up.AddDeviceType nbi t).1
  | Call.AddPlatform p => (up.AddPlatform nbi p).1
  | Call.AddDevice d => (up.AddDevice nbi d).1
  | Call.syncHostNics host d => (up.syncHostNics nbi host d).1

/-- The inventory after the calls have been made in order, the first of them in `nbi`:
the inventory in which the next call is made. -/
def replay (up : Upsert) (nbi : NetboxInventory) (calls : List Call) : NetboxInventory :=
  calls.foldl (Call.apply up) nbi

/-- The relation is unset, or it is an entity stored in the index. -/
def FromIndex {α : Type} (index : GoMap String α) (x : Option α) : Prop :=
  x = none ∨ ∃ k v, index k = some v ∧ x = some v

/-- Every call of the list satisfies `Q` together with the calls made before it. -/
def AllAfter (Q : List Call → Call → Prop) (calls : List Call) : Prop :=
  ∀ pre c post, calls = pre ++ c :: post → Q pre c

/-- The candidate `clusterType` that syncClusters submits to AddClusterType. -/
def vmwareClusterType (vc : VmwareSource) : ClusterType :=
  { Id := 0, Tags := vc.SourceTags, Description := "", Name := "vmware", Slug := "vmware" }

/-- What holds of a cluster candidate submitted after the calls `pre` of a sync that
started in `nbi0` with the cluster type `ct`: its type is `ct`, and its group, its site and
its tenant are each unset or stored in the index of the inventory of that moment. -/
def ClusterFromIndex (up : Upsert) (nbi0 : NetboxInventory) (ct : ClusterType)
    (pre : List Call) (c : Cluster) : Prop :=
  c.Typ = some ct ∧
  FromIndex (replay up nbi0 pre).ClusterGroupsIndexByName c.Group ∧
  FromIndex (replay up nbi0 pre).SitesIndexByName c.Site ∧
  FromIndex (replay up nbi0 pre).TenantsIndexByName c.Tenant

/-- An inventory that holds the site `dc-east`, the cluster group `DC1` and the device role
`Server`, and nothing else. -/
def exInventoryLoaded : NetboxInventory :=
  { NetboxInventory.fresh exSsot with
    SitesIndexByName := GoMap.set GoMap.empty "dc-east" (exSite 3 "dc-east")
    ClusterGroupsIndexByName := GoMap.set GoMap.empty "DC1"
      { Id := 4, Tags := [], Description := "", Name := "DC1", Slug := "dc1" }
    DeviceRolesIndexByName := GoMap.set GoMap.empty "Server"
      { Id := 5, Tags := [], Description := "", Name := "Server", Slug := "server",
        Color := "00add8", VMRole := true } }

/-- What holds of a device candidate `d` that syncHosts submits after the calls `pre` of a
sync that started in `nbi0`: the three calls before it are the upserts of a manufacturer, a
device type and a platform, each of which succeeded in the inventory of its moment; the
device type candidate names the manufacturer returned, and `d` names the device type and the
platform returned; the role of `d` is what the device-role index of the moment holds under
`Server`; and the custom-field keys of `d` are `host_cpu_cores` and `host_memory`. -/
def DeviceAfterChain (up : Upsert) (nbi0 : NetboxInventory) (pre : List Call) (d : Device) :
    Prop :=
  ∃ pre0 m t p hm ht hp,
    pre = pre0 ++ [Call.AddManufacturer m] ++ [Call.AddDeviceType t] ++ [Call.AddPlatform p] ∧
    (up.AddManufacturer (replay up nbi0 pre0) m).2 = Except.ok hm ∧
    t.Manufacturer = some hm ∧
    (up.AddDeviceType (replay up nbi0 (pre0 ++ [Call.AddManufacturer m])) t).2
      = Except.ok ht ∧
    (up.AddPlatform
      (replay up nbi0 (pre0 ++ [Call.AddManufacturer m] ++ [Call.AddDeviceType t])) p).2
      = Except.ok hp ∧
    d.DeviceType = some ht ∧ d.Platform = some hp ∧
    d.DeviceRole = (replay up nbi0 pre).DeviceRolesIndexByName "Server" ∧
    d.CustomFields.map Prod.fst = ["host_cpu_cores", "host_memory"]

/-- The manufacturer candidate syncHosts builds for a host. -/
def hostManufacturerOf (u : Utils) (host : HostSystem) : Manufacturer :=
  let manufacturerName :=
    if host.Summary.Hardware.Vendor = "" then "Generic Manufacturer"
    else host.Summary.Hardware.Vendor
  { Id := 0, Tags := [], Description := "", Name := manufacturerName,
    Slug := u.Slugify manufacturerName }

/-- The device type candidate syncHosts builds for a host from the manufacturer that
AddManufacturer returned. -/
def hostDeviceTypeOf (u : Utils) (host : HostSystem) (hostManufacturer : Manufacturer) :
    DeviceType :=
  { Id := 0, Tags := [], Description := "", Manufacturer := some hostManufacturer,
    Model := host.Summary.Hardware.Model, Slug := u.Slugify host.Summary.Hardware.Model }

/-- The platform candidate syncHosts builds for a host. -/
def hostPlatformOf (u : Utils) (host : HostSystem) : Platform :=
  let platformName :=
    u.GeneratePlatformName host.Summary.Config.Product.Name host.Summary.Config.Product.Version
  { Id := 0, Tags := [], Description := "", Name := platformName,
    Slug := u.Slugify platformName }

/-- The device candidate of the host `web-01` of `exSource` in `exInventoryLoaded`. -/
def exHostCandidate : Device :=
  { Id := 0, Tags := [exSsot], Description := "", Name := "web-01",
    Status := some DeviceStatus.DeviceStatusActive,
    Platform := some (hostPlatformOf exUtils (exHost "web-01")),
    DeviceRole := exInventoryLoaded.DeviceRolesIndexByName "Server",
    Site := some (exSite 3 "dc-east"), Tenant := none, Cluster := none, SerialNumber := "",
    AssetTag := "u-1",
    DeviceType := some (hostDeviceTypeOf exUtils (exHost "web-01")
      (hostManufacturerOf exUtils (exHost "web-01"))),
    CustomFields := [("host_cpu_cores", "16"), ("host_memory", "64 GB")] }

/-! ## Notions for the VM index and the orphan set -/

/-- An entity with the identifier `id` is stored in the VM index, under some name. -/
def VMIndexed (nbi : NetboxInventory) (id : Int) : Prop :=
  ∃ name v, nbi.VMsIndexByName name = some v ∧ v.Id = id

def exVM (id : Int) (name : String) (tags : List Tag) : VM :=
  { Id := id, Tags := tags, Description := "", Name := name }

/-- The source `exSourcePlain` with a second host `esx-02` that has no entry in
`Host2Cluster`, visited first. -/
def exSourceHostWithoutCluster : VmwareSource :=
  { exSourcePlain with Hosts := [("h-2", exHost "esx-02"), ("h-1", exHost "web-01")] }

/-! ## The values syncHosts reads from a host -/

/-- The value `hostMemGB` of syncHosts: `MemorySize / 1024 / 1024 / 1024`, each division
Go's integer division, which truncates toward zero. -/
def hostMemGBOf (host : HostSystem) : Int :=
  Int.tdiv (Int.tdiv (Int.tdiv host.Summary.Hardware.MemorySize 1024) 1024) 1024

/-- The custom fields syncHosts sets on the device candidate of a host. -/
def hostCustomFieldsOf (host : HostSystem) : List (String × String) :=
  [("host_cpu_cores", toString host.Summary.Hardware.NumCpuCores),
   ("host_memory", toString (hostMemGBOf host) ++ " GB")]

/-- The device candidate `d` carries the values syncHosts reads from `host`: the name, the
serial number found in `OtherIdentifyingInfo`, the asset tag and the custom fields. -/
def HostCandidate (host : HostSystem) (d : Device) : Prop :=
  d.Name = host.Name ∧
  d.SerialNumber = hostSerialNumberOf host.Summary.Hardware.OtherIdentifyingInfo ∧
  d.AssetTag = host.Summary.Hardware.Uuid ∧
  d.CustomFields = hostCustomFieldsOf host

/-- The entry of `OtherIdentifyingInfo` counts for the serial number: its type key is one of
`serialInfoTypes` and its value is not empty. -/
def isSerialInfo (info : HostSystemIdentificationInfo) : Bool :=
  decide (info.IdentifierKey ∈ serialInfoTypes ∧ info.IdentifierValue ≠ "")

/-- Identifying entries of a host: a service tag, an entry of another type, a serial
number tag, and an enclosure tag with an empty value. -/
def exIdentifyingInfo : List HostSystemIdentificationInfo :=
  [{ IdentifierKey := "ServiceTag", IdentifierValue := "SVC-1" },
   { IdentifierKey := "AssetTag", IdentifierValue := "A-7" },
   { IdentifierKey := "SerialNumberTag", IdentifierValue := "SN-2" },
   { IdentifierKey := "EnclosureSerialNumberTag", IdentifierValue := "" }]

/-! ## Notions for repeated and failed loads -/

/-- A load of a fetched list succeeds, keeps the ownership tag, and leaves an index and an
orphan set of the type that do not depend on what the inventory held before: two
inventories whose ownership tags have the same slug end with the same index and the same
orphan set. -/
def LoadsAfresh {K α : Type}
    (load : NetboxInventory → Except Error (List α) → NetboxInventory × Outcome)
    (index : NetboxInventory → GoMap K α) (path : ApiPath) : Prop :=
  ∀ (a b : NetboxInventory) (recs : List α), a.SsotTag.Slug = b.SsotTag.Slug →
    (load a (Except.ok recs)).2 = Outcome.ok ∧
    (load a (Except.ok recs)).1.SsotTag = a.SsotTag ∧
    index (load a (Except.ok recs)).1 = index (load b (Except.ok recs)).1 ∧
    orphanSet (load a (Except.ok recs)).1 path = orphanSet (load b (Except.ok recs)).1 path

/-- Loading the same records a second time leaves the index and the orphan set that the
first load left, and a load of other records after it leaves what that load alone
leaves. -/
def LoadIsIdempotent {K α : Type}
    (load : NetboxInventory → Except Error (List α) → NetboxInventory × Outcome)
    (index : NetboxInventory → GoMap K α) (path : ApiPath) : Prop :=
  ∀ (nbi : NetboxInventory) (first recs : List α),
    index (load (load nbi (Except.ok recs)).1 (Except.ok recs)).1
      = index (load nbi (Except.ok recs)).1 ∧
    orphanSet (load (load nbi (Except.ok recs)).1 (Except.ok recs)).1 path
      = orphanSet (load nbi (Except.ok recs)).1 path ∧
    index (load (load nbi (Except.ok first)).1 (Except.ok recs)).1
      = index (load nbi (Except.ok recs)).1 ∧
    orphanSet (load (load nbi (Except.ok first)).1 (Except.ok recs)).1 path
      = orphanSet (load nbi (Except.ok recs)).1 path

def exCluster (id : Int) (name : String) (tags : List Tag) : Cluster :=
  { Id := id, Tags := tags, Description := "", Name := name, Typ := none,
    Status := ClusterStatus.ClusterStatusActive, Group := none, Site := none, Tenant := none }

/-- When the fetch fails, the loader returns an error, the fetch error worded by `wrap`, and
leaves the inventory as it was, the type's index and orphan set included. -/
def FailsClean {α : Type}
    (load : NetboxInventory → Except Error (List α) → NetboxInventory × Outcome)
    (wrap : Error → Error) : Prop :=
  ∀ (nbi : NetboxInventory) (err : Error),
    load nbi (Except.error err) = (nbi, Outcome.error (wrap err))

/-! ## syncVlans, syncVms and syncVmInterfaces (vmware_sync.go) -/

/-- The body of the loop of syncVlans for one port group: when the default port config is
a DVS port setting whose VLAN is a VLAN-id spec, the candidate is built and handed to
`nbi.AddVlan`, whose two results are dropped; in every other case nothing is done. -/
def syncVlans.body (e : Engine) (vc : VmwareSource) (run : InvRun)
    (dvpg : DistributedVirtualPortgroup) : InvRun :=
  match dvpg.Config.DefaultPortConfig with
  | DVPortSetting.VMwareDVSPortSetting dvsVlan =>
    match dvsVlan with
    | VlanSpec.VmwareDistributedVirtualSwitchVlanIdSpec vlanId =>
      let vlan : Vlan :=
        { Id := 0, Tags := vc.SourceTags, Description := "", Name := dvpg.Config.Name,
          Vid := vlanId, Group := none, Status := some VlanStatus.VlanStatusActive,
          Tenant := none }
      { nbi := (e.AddVlan run.nbi vlan).1, calls := run.calls ++ [EngineCall.AddVlan vlan] }
    | VlanSpec.OtherVlanSpec => run
  | DVPortSetting.OtherPortSetting => run

def syncVlans (e : Engine) (vc : VmwareSource) (nbi : NetboxInventory) : InvRun × Outcome :=
  (vc.DistributedVirtualPortgrups.foldl (fun run p => syncVlans.body e vc run p.2)
    { nbi := nbi, calls := [] }, Outcome.ok)

/-- The function syncVms: every line of its body but `return nil` is commented out. -/
def syncVms (_vc : VmwareSource) (nbi : NetboxInventory) : Run × Outcome :=
  ({ nbi := nbi, calls := [] }, Outcome.ok)

/-- The function syncVmInterfaces: every line of its body but `return nil` is commented
out. `OvirtVm` stands for `ovirtsdk4.Vm`, the type of its second parameter. -/
def syncVmInterfaces {OvirtVm : Type} (_vc : VmwareSource) (nbi : NetboxInventory)
    (_ovirtVm : Option OvirtVm) (_netboxVm : Option VM) : Run × Outcome :=
  ({ nbi := nbi, calls := [] }, Outcome.ok)

/-- The VLAN id of a port group whose default port config carries a VLAN-id spec, `none`
for every other port group. -/
def vlanIdOf (dvpg : DistributedVirtualPortgroup) : Option Int :=
  match dvpg.Config.DefaultPortConfig with
  | DVPortSetting.VMwareDVSPortSetting (VlanSpec.VmwareDistributedVirtualSwitchVlanIdSpec vid) =>
    some vid
  | _ => none

/-- The VLAN candidate of a port group with the VLAN id `vid`: the port group's name, the
VID, the status active, the tags of the source, and no group. -/
def vlanOfPortgroup (vc : VmwareSource) (dvpg : DistributedVirtualPortgroup) (vid : Int) :
    Vlan :=
  { Id := 0, Tags := vc.SourceTags, Description := "", Name := dvpg.Config.Name, Vid := vid,
    Group := none, Status := some VlanStatus.VlanStatusActive, Tenant := none }

/-- The candidates of the port groups that carry a VLAN-id spec, one for each, in the
order of the port groups. -/
def vlanCandidatesOf (vc : VmwareSource) (dvpgs : List (String × DistributedVirtualPortgroup)) :
    List Vlan :=
  dvpgs.filterMap (fun p => (vlanIdOf p.2).map (vlanOfPortgroup vc p.2))

/-- An engine whose AddVlan rejects every VLAN. -/
def exEngineNoVlan : Engine :=
  { exEngine "" with AddVlan := fun nbi _ => (nbi, Except.error "rejected") }

def exPortgroup (name : String) (cfg : DVPortSetting) : DistributedVirtualPortgroup :=
  { Config := { Name := name, DefaultPortConfig := cfg } }

/-- A source with three port groups: one with the VLAN id 100, one whose port setting
carries no VLAN-id spec, and one with another kind of port config. -/
def exSourcePortgroups : VmwareSource :=
  { exSourcePlain with
    DistributedVirtualPortgrups :=
      [("pg-1", exPortgroup "prod-100" (DVPortSetting.VMwareDVSPortSetting
          (VlanSpec.VmwareDistributedVirtualSwitchVlanIdSpec 100))),
       ("pg-2", exPortgroup "trunk" (DVPortSetting.VMwareDVSPortSetting
          VlanSpec.OtherVlanSpec)),
       ("pg-3", exPortgroup "uplink" DVPortSetting.OtherPortSetting)] }

/-! ## The candidates of one pass of syncHosts -/

/-- The device candidate `nbHost` that syncHosts builds for a host from the cluster, the
site and the tenant it found, the device type and the platform the upserts returned, and
the role it read from the device-role index. -/
def nbHostOf (vc : VmwareSource) (host : HostSystem) (hostCluster : Option Cluster)
    (hostSite : Option Site) (hostTenant : Option Tenant) (hostDeviceType : DeviceType)
    (hostPlatform : Platform) (role : Option DeviceRole) : Device :=
  { Id := 0, Tags := vc.SourceTags, Description := "", Name := host.Name,
    Status := some (if host.Summary.Runtime.ConnectionState = "connected"
      then DeviceStatus.DeviceStatusActive else DeviceStatus.DeviceStatusOffline),
    Platform := some hostPlatform, DeviceRole := role, Site := hostSite,
    Tenant := hostTenant, Cluster := hostCluster,
    SerialNumber := hostSerialNumberOf host.Summary.Hardware.OtherIdentifyingInfo,
    AssetTag := host.Summary.Hardware.Uuid, DeviceType := some hostDeviceType,
    CustomFields := hostCustomFieldsOf host }

/-- The three reads at the start of a pass of syncHosts give a cluster, a site and a
tenant: the cluster read is not nil and neither relation block returns an error. -/
def HostReads (u : Utils) (vc : VmwareSource) (run : Run) (hostId : String)
    (host : HostSystem) (cluster : ClusterComputeResource) (hostSite : Option Site)
    (hostTenant : Option Tenant) : Prop :=
  vc.readCluster ((vc.Host2Cluster hostId).getD "") = some cluster ∧
  hostSiteOf u vc run.nbi host.Name = Except.ok hostSite ∧
  hostTenantOf u vc run.nbi host.Name = Except.ok hostTenant

/-- The operations of `exUpsert`, except that AddDeviceType rejects every device type. -/
def exUpsertNoDeviceType : Upsert :=
  { exUpsert with AddDeviceType := fun nbi _ => (nbi, Except.error "rejected") }

/-- The source `exSourceHostWithoutCluster`, with the host `esx-02` that has no entry in
`Host2Cluster`, and maps that hold struct values. -/
def exSourceStandaloneHost : VmwareSource :=
  { exSourceHostWithoutCluster with Elems := MapElems.values }

/-- The operations `exEngine` with an AddVlan that marks what it stores: it returns the
VLAN it was given with the ssot tag of the inventory appended to its tags. -/
def exEngineTagging : Engine :=
  { exEngine "" with
    AddVlan := fun nbi v => (nbi, Except.ok { v with Tags := v.Tags ++ [nbi.SsotTag] }) }

/-! ## Lemmas on Go maps -/

@[simp] theorem GoMap.empty_apply {K V : Type} (k : K) : (GoMap.empty : GoMap K V) k = none := rfl

@[simp] theorem GoMap.set_self {K V : Type} [DecidableEq K] (m : GoMap K V) (k : K) (v : V) :
    GoMap.set m k v k = some v := by
  simp [GoMap.set]

theorem GoMap.set_apply {K V : Type} [DecidableEq K] (m : GoMap K V) (k x : K) (v : V) :
    GoMap.set m k v x = if x = k then some v else m x := rfl

theorem GoMap.set_of_ne {K V : Type} [DecidableEq K] (m : GoMap K V) {k x : K} (v : V)
    (h : x ≠ k) : GoMap.set m k v x = m x := by
  simp [GoMap.set, h]

@[simp] theorem GoMap.get2_empty {K J V : Type} (k : K) (j : J) :
    GoMap.get2 (GoMap.empty : GoMap K (GoMap J V)) k j = none := rfl

theorem GoMap.get2_ensure {K J V : Type} [DecidableEq K] (m : GoMap K (GoMap J V))
    (a k : K) (j : J) : GoMap.get2 (GoMap.ensure m a) k j = GoMap.get2 m k j := by
  unfold GoMap.ensure GoMap.get2
  cases h : m a with
  | some i => simp
  | none =>
    by_cases hk : k = a
    · subst hk; simp [GoMap.set_self, h]
    · simp [GoMap.set_of_ne _ _ hk]

theorem GoMap.get2_set2 {K J V : Type} [DecidableEq K] [DecidableEq J]
    (m : GoMap K (GoMap J V)) (a k : K) (b j : J) (v : V) :
    GoMap.get2 (GoMap.set2 m a b v) k j
      = if k = a ∧ j = b then some v else GoMap.get2 m k j := by
  unfold GoMap.set2 GoMap.get2
  by_cases hk : k = a
  · subst hk
    by_cases hj : j = b
    · subst hj; simp
    · simp only [GoMap.set_self, GoMap.set_of_ne _ _ hj, hj, and_false, if_false]
      unfold GoMap.inner
      cases m k <;> rfl
  · simp [GoMap.set_of_ne _ _ hk, hk]

theorem hasSsotTag_iff (ssot : Tag) (tags : List Tag) :
    hasSsotTag ssot tags = true ↔ ∃ t ∈ tags, t.Slug = ssot.Slug := by
  unfold hasSsotTag slices.IndexFunc
  cases h : tags.findIdx? (fun t => t.Slug == ssot.Slug) with
  | none =>
    rw [List.findIdx?_eq_none_iff] at h
    simp only [ge_iff_le, decide_eq_true_eq]
    constructor
    · intro h0; omega
    · rintro ⟨t, ht, hs⟩
      have := h t ht
      simp [hs] at this
  | some i =>
    have hs : (tags.findIdx? (fun t => t.Slug == ssot.Slug)).isSome = true := by simp [h]
    rw [List.findIdx?_isSome] at hs
    simp only [List.any_eq_true, beq_iff_eq] at hs
    simp only [ge_iff_le, decide_eq_true_eq]
    exact ⟨fun _ => hs, fun _ => Int.ofNat_nonneg i⟩

/-! ## Lemmas on the loader loops -/

theorem lastWith_nil {α : Type} (p : α → Bool) : lastWith p ([] : List α) = none := rfl

theorem lastWith_cons {α : Type} (p : α → Bool) (r : α) (recs : List α) :
    lastWith p (r :: recs) = (lastWith p recs).or (if p r then some r else none) := by
  unfold lastWith
  rw [List.reverse_cons, List.find?_append]
  cases h : List.find? p recs.reverse <;> simp [List.find?]
  cases p r <;> simp

theorem lastWith_some {α : Type} {p : α → Bool} {recs : List α} {r : α}
    (h : lastWith p recs = some r) : r ∈ recs ∧ p r = true := by
  unfold lastWith at h
  exact ⟨List.mem_reverse.mp (List.mem_of_find?_eq_some h), List.find?_some h⟩

theorem lastWith_none {α : Type} {p : α → Bool} {recs : List α}
    (h : lastWith p recs = none) : ∀ r ∈ recs, p r = false := by
  unfold lastWith at h
  rw [List.find?_eq_none] at h
  intro r hr
  simpa using h r (List.mem_reverse.mpr hr)

theorem foldl_indexStep_idx {K α : Type} [DecidableEq K] (ssot : Tag) (key : α → K)
    (obj : α → NetboxObject) (recs : List α) (s : GoMap K α × GoMap Int Bool) (k : K) :
    (recs.foldl (indexStep ssot key obj) s).1 k
      = (lastWith (fun r => decide (key r = k)) recs).or (s.1 k) := by
  induction recs generalizing s with
  | nil => simp [lastWith_nil]
  | cons r rest ih =>
    rw [List.foldl_cons, ih, lastWith_cons]
    cases lastWith (fun r => decide (key r = k)) rest with
    | some x => simp
    | none =>
      by_cases h : key r = k
      · simp [indexStep, h]
      · have h2 : k ≠ key r := fun e => h e.symm
        simp [indexStep, h, GoMap.set_of_ne _ _ h2]

theorem foldl_indexStep_orph {K α : Type} [DecidableEq K] (ssot : Tag) (key : α → K)
    (obj : α → NetboxObject) (recs : List α) (s : GoMap K α × GoMap Int Bool) (id : Int) :
    GoMap.has (recs.foldl (indexStep ssot key obj) s).2 id = true
      ↔ GoMap.has s.2 id = true ∨ ∃ r ∈ recs, (obj r).Id = id ∧ Owned ssot (obj r) := by
  induction recs generalizing s with
  | nil => simp
  | cons r rest ih =>
    rw [List.foldl_cons, ih]
    simp only [indexStep, List.mem_cons, exists_eq_or_imp]
    by_cases ht : hasSsotTag ssot (obj r).Tags = true
    · have ho : Owned ssot (obj r) := (hasSsotTag_iff _ _).mp ht
      by_cases hid : id = (obj r).Id
      · subst hid; simp [ht, ho, GoMap.has]
      · have hid2 : (obj r).Id ≠ id := fun e => hid e.symm
        simp [ht, GoMap.has, GoMap.set_of_ne _ _ hid, hid2]
    · have ho : ¬ Owned ssot (obj r) := fun h => ht ((hasSsotTag_iff _ _).mpr h)
      simp [ht, ho]

theorem plainLoop_apply {K α : Type} [DecidableEq K] (key : α → K) (recs : List α) (k : K) :
    plainLoop key recs k = lastWith (fun r => decide (key r = k)) recs := by
  have gen : ∀ (l : List α) (m : GoMap K α),
      l.foldl (fun idx r => GoMap.set idx (key r) r) m k
        = (lastWith (fun r => decide (key r = k)) l).or (m k) := by
    intro l
    induction l with
    | nil => intro m; simp [lastWith_nil]
    | cons r rest ih =>
      intro m
      rw [List.foldl_cons, ih, lastWith_cons]
      cases lastWith (fun r => decide (key r = k)) rest with
      | some x => simp
      | none =>
        by_cases h : key r = k
        · simp [h]
        · have h2 : k ≠ key r := fun e => h e.symm
          simp [h, GoMap.set_of_ne _ _ h2]
  unfold plainLoop
  rw [gen]
  simp

theorem index2Step_ok {K J α : Type} [DecidableEq K] [DecidableEq J] {ssot : Tag}
    {k1 : α → Option K} {k2 : α → Option J} {obj : α → NetboxObject}
    {s s1 : GoMap K (GoMap J α) × GoMap Int Bool} {r : α}
    (h : index2Step ssot k1 k2 obj s r = (s1, Outcome.ok)) :
    ∃ a b, k1 r = some a ∧ k2 r = some b ∧
      s1 = (GoMap.set2 (GoMap.ensure s.1 a) a b r,
            if hasSsotTag ssot (obj r).Tags then GoMap.set s.2 (obj r).Id true else s.2) := by
  unfold index2Step at h
  cases h1 : k1 r with
  | none => simp [h1] at h
  | some a =>
    cases h2 : k2 r with
    | none => simp [h1, h2] at h
    | some b =>
      simp only [h1, h2, Prod.mk.injEq, and_true] at h
      exact ⟨a, b, rfl, rfl, h.symm⟩

theorem index2Step_of_keys {K J α : Type} [DecidableEq K] [DecidableEq J] (ssot : Tag)
    {k1 : α → Option K} {k2 : α → Option J} (obj : α → NetboxObject)
    (s : GoMap K (GoMap J α) × GoMap Int Bool) {r : α} {a : K} {b : J}
    (h1 : k1 r = some a) (h2 : k2 r = some b) :
    index2Step ssot k1 k2 obj s r
      = ((GoMap.set2 (GoMap.ensure s.1 a) a b r,
          if hasSsotTag ssot (obj r).Tags then GoMap.set s.2 (obj r).Id true else s.2),
         Outcome.ok) := by
  simp [index2Step, h1, h2]

theorem index2Loop_cons_ok {K J α : Type} [DecidableEq K] [DecidableEq J] {ssot : Tag}
    {k1 : α → Option K} {k2 : α → Option J} {obj : α → NetboxObject}
    {s s2 : GoMap K (GoMap J α) × GoMap Int Bool} {r : α} {rest : List α}
    (h : index2Loop ssot k1 k2 obj (r :: rest) s = (s2, Outcome.ok)) :
    ∃ s1, index2Step ssot k1 k2 obj s r = (s1, Outcome.ok) ∧
      index2Loop ssot k1 k2 obj rest s1 = (s2, Outcome.ok) := by
  rw [index2Loop] at h
  rcases hst : index2Step ssot k1 k2 obj s r with ⟨s1, o⟩
  cases o with
  | ok => rw [hst] at h; exact ⟨s1, rfl, h⟩
  | error e => rw [hst] at h; simp at h
  | fault => rw [hst] at h; simp at h

theorem key2_eq_some {K J α : Type} {k1 : α → Option K} {k2 : α → Option J} {r : α}
    {a : K} {b : J} : key2 k1 k2 r = some (a, b) ↔ k1 r = some a ∧ k2 r = some b := by
  unfold key2
  cases k1 r <;> cases k2 r <;> simp

theorem index2Loop_ok_keys {K J α : Type} [DecidableEq K] [DecidableEq J] {ssot : Tag}
    {k1 : α → Option K} {k2 : α → Option J} {obj : α → NetboxObject} {recs : List α}
    {s s2 : GoMap K (GoMap J α) × GoMap Int Bool}
    (h : index2Loop ssot k1 k2 obj recs s = (s2, Outcome.ok)) :
    ∀ r ∈ recs, ∃ a b, key2 k1 k2 r = some (a, b) := by
  induction recs generalizing s with
  | nil => simp
  | cons r rest ih =>
    obtain ⟨s1, hst, hrest⟩ := index2Loop_cons_ok h
    obtain ⟨a, b, h1, h2, -⟩ := index2Step_ok hst
    intro x hx
    rcases List.mem_cons.mp hx with rfl | hx
    · exact ⟨a, b, key2_eq_some.mpr ⟨h1, h2⟩⟩
    · exact ih hrest x hx

theorem index2Loop_of_keys {K J α : Type} [DecidableEq K] [DecidableEq J] (ssot : Tag)
    {k1 : α → Option K} {k2 : α → Option J} (obj : α → NetboxObject) {recs : List α}
    (s : GoMap K (GoMap J α) × GoMap Int Bool)
    (h : ∀ r ∈ recs, ∃ a b, key2 k1 k2 r = some (a, b)) :
    (index2Loop ssot k1 k2 obj recs s).2 = Outcome.ok := by
  induction recs generalizing s with
  | nil => rfl
  | cons r rest ih =>
    obtain ⟨a, b, hk⟩ := h r (List.mem_cons_self _ _)
    obtain ⟨h1, h2⟩ := key2_eq_some.mp hk
    rw [index2Loop, index2Step_of_keys ssot obj s h1 h2]
    exact ih _ (fun x hx => h x (List.mem_cons_of_mem _ hx))

theorem index2Loop_ok_get2 {K J α : Type} [DecidableEq K] [DecidableEq J] {ssot : Tag}
    {k1 : α → Option K} {k2 : α → Option J} {obj : α → NetboxObject} {recs : List α}
    {s s2 : GoMap K (GoMap J α) × GoMap Int Bool}
    (h : index2Loop ssot k1 k2 obj recs s = (s2, Outcome.ok)) (k : K) (j : J) :
    GoMap.get2 s2.1 k j
      = (lastWith (fun r => decide (key2 k1 k2 r = some (k, j))) recs).or
          (GoMap.get2 s.1 k j) := by
  induction recs generalizing s with
  | nil =>
    simp only [index2Loop, Prod.mk.injEq, and_true] at h
    subst h
    simp [lastWith_nil]
  | cons r rest ih =>
    obtain ⟨s1, hst, hrest⟩ := index2Loop_cons_ok h
    obtain ⟨a, b, h1, h2, hs1⟩ := index2Step_ok hst
    rw [ih hrest, lastWith_cons]
    cases lastWith (fun r => decide (key2 k1 k2 r = some (k, j))) rest with
    | some x => simp
    | none =>
      have hk : key2 k1 k2 r = some (a, b) := key2_eq_some.mpr ⟨h1, h2⟩
      subst hs1
      simp only [Option.none_or, GoMap.get2_set2, GoMap.get2_ensure, hk, Option.some.injEq,
        Prod.mk.injEq]
      by_cases hkj : k = a ∧ j = b
      · obtain ⟨rfl, rfl⟩ := hkj; simp
      · have hkj2 : ¬ (a = k ∧ b = j) := fun e => hkj ⟨e.1.symm, e.2.symm⟩
        simp [hkj, hkj2]

theorem index2Loop_ok_orph {K J α : Type} [DecidableEq K] [DecidableEq J] {ssot : Tag}
    {k1 : α → Option K} {k2 : α → Option J} {obj : α → NetboxObject} {recs : List α}
    {s s2 : GoMap K (GoMap J α) × GoMap Int Bool}
    (h : index2Loop ssot k1 k2 obj recs s = (s2, Outcome.ok)) (id : Int) :
    GoMap.has s2.2 id = true
      ↔ GoMap.has s.2 id = true ∨ ∃ r ∈ recs, (obj r).Id = id ∧ Owned ssot (obj r) := by
  induction recs generalizing s with
  | nil =>
    simp only [index2Loop, Prod.mk.injEq, and_true] at h
    subst h
    simp
  | cons r rest ih =>
    obtain ⟨s1, hst, hrest⟩ := index2Loop_cons_ok h
    obtain ⟨a, b, -, -, hs1⟩ := index2Step_ok hst
    rw [ih hrest]
    subst hs1
    simp only [List.mem_cons, exists_eq_or_imp]
    by_cases ht : hasSsotTag ssot (obj r).Tags = true
    · have ho : Owned ssot (obj r) := (hasSsotTag_iff _ _).mp ht
      by_cases hid : id = (obj r).Id
      · subst hid; simp [ht, ho, GoMap.has]
      · have hid2 : (obj r).Id ≠ id := fun e => hid e.symm
        simp [ht, GoMap.has, GoMap.set_of_ne _ _ hid, hid2]
    · have ho : ¬ Owned ssot (obj r) := fun h => ht ((hasSsotTag_iff _ _).mpr h)
      simp [ht, ho]

theorem indexLoop_orphanExact {K α : Type} [DecidableEq K] (ssot : Tag) (key : α → K)
    (obj : α → NetboxObject) (recs : List α) :
    OrphanExact ssot obj recs (indexLoop ssot key obj recs).2 := by
  intro id
  unfold indexLoop
  rw [foldl_indexStep_orph]
  simp [GoMap.has]

theorem index2Loop_orphanExact {K J α : Type} [DecidableEq K] [DecidableEq J] {ssot : Tag}
    {k1 : α → Option K} {k2 : α → Option J} {obj : α → NetboxObject} {recs : List α}
    (h : (index2Loop ssot k1 k2 obj recs (GoMap.empty, GoMap.empty)).2 = Outcome.ok) :
    OrphanExact ssot obj recs (index2Loop ssot k1 k2 obj recs (GoMap.empty, GoMap.empty)).1.2 := by
  intro id
  have h2 : index2Loop ssot k1 k2 obj recs (GoMap.empty, GoMap.empty)
      = ((index2Loop ssot k1 k2 obj recs (GoMap.empty, GoMap.empty)).1, Outcome.ok) := by
    rw [← h]
  rw [index2Loop_ok_orph h2]
  simp [GoMap.has]

@[simp] theorem GoMap.inner_set_self {K J V : Type} [DecidableEq K] (m : GoMap K (GoMap J V))
    (k : K) (i : GoMap J V) : GoMap.inner (GoMap.set m k i) k = i := by
  simp [GoMap.inner]

theorem GoMap.inner_set {K J V : Type} [DecidableEq K] (m : GoMap K (GoMap J V))
    (k x : K) (i : GoMap J V) :
    GoMap.inner (GoMap.set m k i) x = if x = k then i else GoMap.inner m x := by
  by_cases h : x = k
  · subst h; simp
  · simp [GoMap.inner, GoMap.set_of_ne _ _ h, h]

theorem GoMap.inner_ensure {K J V : Type} [DecidableEq K] (m : GoMap K (GoMap J V))
    (a k : K) : GoMap.inner (GoMap.ensure m a) k = GoMap.inner m k := by
  unfold GoMap.ensure
  cases h : m a with
  | some i => rfl
  | none =>
    rw [GoMap.inner_set]
    by_cases hk : k = a
    · subst hk; simp [GoMap.inner, h]
    · simp [hk]

theorem caKey_eq_some {cA : ContactAssignment} {ct : String} {oid cid rid : Int} :
    caKey cA = some (ct, oid, cid, rid)
      ↔ cA.ContentType = ct ∧ cA.ObjectId = oid ∧
        (∃ c, cA.Contact = some c ∧ c.Id = cid) ∧ ∃ r, cA.Role = some r ∧ r.Id = rid := by
  unfold caKey
  cases cA.Contact <;> cases cA.Role <;> simp

theorem InitContactAssignments_step_ok {ssot : Tag} {s s1 : CAState} {cA : ContactAssignment}
    (h : InitContactAssignments.step ssot s cA = (s1, Outcome.ok)) :
    ∃ ct oid cid rid, caKey cA = some (ct, oid, cid, rid) ∧
      (∀ ct1 oid1 cid1 rid1, CAIndex.get4 s1.idx ct1 oid1 cid1 rid1
        = if (ct1, oid1, cid1, rid1) = (ct, oid, cid, rid) then some cA
          else CAIndex.get4 s.idx ct1 oid1 cid1 rid1) ∧
      s1.orph = (if hasSsotTag ssot cA.Tags then GoMap.set s.orph cA.Id true else s.orph) ∧
      s1.debugIds = GoMap.set s.debugIds cA.Id true ∧
      s1.printed = (if GoMap.has s.debugIds cA.Id
        then s.printed ++ ["Already been here: " ++ toString cA.Id] else s.printed) := by
  unfold InitContactAssignments.step at h
  cases hc : cA.Contact with
  | none => simp [hc] at h
  | some contact =>
    cases hr : cA.Role with
    | none => simp [hc, hr] at h
    | some role =>
      simp only [hc, hr, Prod.mk.injEq, and_true] at h
      subst h
      refine ⟨cA.ContentType, cA.ObjectId, contact.Id, role.Id, ?_, ?_, rfl, rfl, rfl⟩
      · simp [caKey, hc, hr]
      · intro ct1 oid1 cid1 rid1
        simp only [CAIndex.get4, GoMap.inner_set, GoMap.inner_ensure, Prod.mk.injEq]
        by_cases h1 : ct1 = cA.ContentType
        · by_cases h2 : oid1 = cA.ObjectId
          · simp [h1, h2, GoMap.inner_set, GoMap.inner_ensure, GoMap.get2_set2,
              GoMap.get2_ensure]
          · simp [h1, h2, GoMap.inner_set, GoMap.inner_ensure]
        · simp [h1]

theorem InitContactAssignments_step_of_key (ssot : Tag) (s : CAState) {cA : ContactAssignment}
    {k : String × Int × Int × Int} (h : caKey cA = some k) :
    (InitContactAssignments.step ssot s cA).2 = Outcome.ok := by
  unfold caKey at h
  unfold InitContactAssignments.step
  cases hc : cA.Contact with
  | none => simp [hc] at h
  | some contact =>
    cases hr : cA.Role with
    | none => simp [hc, hr] at h
    | some role => simp

theorem InitContactAssignments_loop_cons_ok {ssot : Tag} {s s2 : CAState}
    {cA : ContactAssignment} {rest : List ContactAssignment}
    (h : InitContactAssignments.loop ssot (cA :: rest) s = (s2, Outcome.ok)) :
    ∃ s1, InitContactAssignments.step ssot s cA = (s1, Outcome.ok) ∧
      InitContactAssignments.loop ssot rest s1 = (s2, Outcome.ok) := by
  rw [InitContactAssignments.loop] at h
  rcases hst : InitContactAssignments.step ssot s cA with ⟨s1, o⟩
  cases o with
  | ok => rw [hst] at h; exact ⟨s1, rfl, h⟩
  | error e => rw [hst] at h; simp at h
  | fault => rw [hst] at h; simp at h

theorem InitContactAssignments_loop_ok_keys {ssot : Tag} {recs : List ContactAssignment}
    {s s2 : CAState} (h : InitContactAssignments.loop ssot recs s = (s2, Outcome.ok)) :
    ∀ cA ∈ recs, ∃ k, caKey cA = some k := by
  induction recs generalizing s with
  | nil => simp
  | cons r rest ih =>
    obtain ⟨s1, hst, hrest⟩ := InitContactAssignments_loop_cons_ok h
    obtain ⟨ct, oid, cid, rid, hk, -⟩ := InitContactAssignments_step_ok hst
    intro x hx
    rcases List.mem_cons.mp hx with rfl | hx
    · exact ⟨_, hk⟩
    · exact ih hrest x hx

theorem InitContactAssignments_loop_of_keys (ssot : Tag) {recs : List ContactAssignment}
    (s : CAState) (h : ∀ cA ∈ recs, ∃ k, caKey cA = some k) :
    (InitContactAssignments.loop ssot recs s).2 = Outcome.ok := by
  induction recs generalizing s with
  | nil => rfl
  | cons r rest ih =>
    obtain ⟨k, hk⟩ := h r (List.mem_cons_self _ _)
    have hst := InitContactAssignments_step_of_key ssot s hk
    rw [InitContactAssignments.loop]
    rcases hs : InitContactAssignments.step ssot s r with ⟨s1, o⟩
    rw [hs] at hst
    simp only at hst
    subst hst
    exact ih _ (fun x hx => h x (List.mem_cons_of_mem _ hx))

theorem InitContactAssignments_loop_ok_get4 {ssot : Tag} {recs : List ContactAssignment}
    {s s2 : CAState} (h : InitContactAssignments.loop ssot recs s = (s2, Outcome.ok))
    (ct : String) (oid cid rid : Int) :
    CAIndex.get4 s2.idx ct oid cid rid
      = (lastWith (fun cA => decide (caKey cA = some (ct, oid, cid, rid))) recs).or
          (CAIndex.get4 s.idx ct oid cid rid) := by
  induction recs generalizing s with
  | nil =>
    simp only [InitContactAssignments.loop, Prod.mk.injEq, and_true] at h
    subst h
    simp [lastWith_nil]
  | cons r rest ih =>
    obtain ⟨s1, hst, hrest⟩ := InitContactAssignments_loop_cons_ok h
    obtain ⟨ct0, oid0, cid0, rid0, hk, hget, -⟩ := InitContactAssignments_step_ok hst
    rw [ih hrest, lastWith_cons]
    cases lastWith (fun cA => decide (caKey cA = some (ct, oid, cid, rid))) rest with
    | some x => simp
    | none =>
      rw [hget]
      by_cases hkk : (ct, oid, cid, rid) = (ct0, oid0, cid0, rid0)
      · rw [← hkk] at hk; simp [hk, hkk]
      · have h2 : ¬ caKey r = some (ct, oid, cid, rid) := by
          rw [hk]; intro e; exact hkk (Option.some.inj e).symm
        simp [hkk, h2]

theorem InitContactAssignments_loop_ok_orph {ssot : Tag} {recs : List ContactAssignment}
    {s s2 : CAState} (h : InitContactAssignments.loop ssot recs s = (s2, Outcome.ok))
    (id : Int) :
    GoMap.has s2.orph id = true
      ↔ GoMap.has s.orph id = true
          ∨ ∃ r ∈ recs, r.toNetboxObject.Id = id ∧ Owned ssot r.toNetboxObject := by
  induction recs generalizing s with
  | nil =>
    simp only [InitContactAssignments.loop, Prod.mk.injEq, and_true] at h
    subst h
    simp
  | cons r rest ih =>
    obtain ⟨s1, hst, hrest⟩ := InitContactAssignments_loop_cons_ok h
    obtain ⟨ct0, oid0, cid0, rid0, -, -, horph, -⟩ := InitContactAssignments_step_ok hst
    rw [ih hrest, horph]
    simp only [List.mem_cons, exists_eq_or_imp]
    by_cases ht : hasSsotTag ssot r.Tags = true
    · have ho : Owned ssot r.toNetboxObject := (hasSsotTag_iff _ _).mp ht
      by_cases hid : id = r.Id
      · subst hid; simp [ht, ho, GoMap.has]
      · have hid2 : r.Id ≠ id := fun e => hid e.symm
        simp [ht, GoMap.has, GoMap.set_of_ne _ _ hid, hid2]
    · have ho : ¬ Owned ssot r.toNetboxObject := fun h => ht ((hasSsotTag_iff _ _).mpr h)
      simp [ht, ho]

/-! ## The orphan sets the loaders build -/

theorem InitDevices_ok_loop {nbi : NetboxInventory} {recs : List Device}
    (h : (InitDevices nbi (Except.ok recs)).2 = Outcome.ok) :
    (index2Loop nbi.SsotTag (fun (d : Device) => some d.Name)
      (fun d => d.Site.map (fun s => s.Id)) (fun d => d.toNetboxObject) recs
      (GoMap.empty, GoMap.empty)).2 = Outcome.ok := h

theorem InitInterfaces_ok_loop {nbi : NetboxInventory} {recs : List Interface}
    (h : (InitInterfaces nbi (Except.ok recs)).2 = Outcome.ok) :
    (index2Loop nbi.SsotTag (fun (i : Interface) => i.Device.map (fun d => d.Id))
      (fun i => some i.Name) (fun i => i.toNetboxObject) recs
      (GoMap.empty, GoMap.empty)).2 = Outcome.ok := h

theorem InitVMInterfaces_ok_loop {nbi : NetboxInventory} {recs : List VMInterface}
    (h : (InitVMInterfaces nbi (Except.ok recs)).2 = Outcome.ok) :
    (index2Loop nbi.SsotTag (fun (i : VMInterface) => i.VM.map (fun v => v.Id))
      (fun i => some i.Name) (fun i => i.toNetboxObject) recs
      (GoMap.empty, GoMap.empty)).2 = Outcome.ok := h

theorem InitContactAssignments_ok_loop {nbi : NetboxInventory} {recs : List ContactAssignment}
    (h : (InitContactAssignments nbi (Except.ok recs)).2 = Outcome.ok) :
    InitContactAssignments.loop nbi.SsotTag recs CAState.init
      = ((InitContactAssignments.loop nbi.SsotTag recs CAState.init).1, Outcome.ok) := by
  have h2 : (InitContactAssignments.loop nbi.SsotTag recs CAState.init).2 = Outcome.ok := h
  rw [← h2]

theorem loaders_track_owned :
    TracksOwned InitManufacturers (fun r => r.toNetboxObject) ApiPath.ManufacturersApiPath ∧
    TracksOwned InitDevices (fun r => r.toNetboxObject) ApiPath.DevicesApiPath ∧
    TracksOwned InitContacts (fun r => r.toNetboxObject) ApiPath.ContactsApiPath ∧
    TracksOwned InitContactAssignments (fun r => r.toNetboxObject)
      ApiPath.ContactAssignmentsApiPath ∧
    TracksOwned InitPlatforms (fun r => r.toNetboxObject) ApiPath.PlatformsApiPath ∧
    TracksOwned InitDeviceRoles (fun r => r.toNetboxObject) ApiPath.DeviceRolesApiPath ∧
    TracksOwned InitClusterGroups (fun r => r.toNetboxObject) ApiPath.ClusterGroupsApiPath ∧
    TracksOwned InitClusterTypes (fun r => r.toNetboxObject) ApiPath.ClusterTypesApiPath ∧
    TracksOwned InitClusters (fun r => r.toNetboxObject) ApiPath.ClustersApiPath ∧
    TracksOwned InitDeviceTypes (fun r => r.toNetboxObject) ApiPath.DeviceTypesApiPath ∧
    TracksOwned InitInterfaces (fun r => r.toNetboxObject) ApiPath.InterfacesApiPath ∧
    TracksOwned InitVlanGroups (fun r => r.toNetboxObject) ApiPath.VlanGroupsApiPath ∧
    TracksOwned InitVMs (fun r => r.toNetboxObject) ApiPath.VirtualMachinesApiPath ∧
    TracksOwned InitVMInterfaces (fun r => r.toNetboxObject) ApiPath.VMInterfacesApiPath ∧
    TracksOwned InitIPAddresses (fun r => r.toNetboxObject) ApiPath.IpAddressesApiPath ∧
    TracksOwned InitPrefixes (fun r => r.toNetboxObject) ApiPath.PrefixesApiPath := by
  refine ⟨?_, ?_, ?_, ?_, ?_, ?_, ?_, ?_, ?_, ?_, ?_, ?_, ?_, ?_, ?_, ?_⟩
  · intro nbi recs _
    simp only [InitManufacturers, orphanSet, GoMap.inner_set_self]
    exact indexLoop_orphanExact _ _ _ _
  · intro nbi recs h
    simp only [InitDevices, orphanSet, GoMap.inner_set_self]
    exact index2Loop_orphanExact (InitDevices_ok_loop h)
  · intro nbi recs _
    simp only [InitContacts, orphanSet, GoMap.inner_set_self]
    exact indexLoop_orphanExact _ _ _ _
  · intro nbi recs h id
    simp only [InitContactAssignments, orphanSet, GoMap.inner_set_self]
    rw [InitContactAssignments_loop_ok_orph (InitContactAssignments_ok_loop h)]
    simp [CAState.init, GoMap.has]
  · intro nbi recs _
    simp only [InitPlatforms, orphanSet, GoMap.inner_set_self]
    exact indexLoop_orphanExact _ _ _ _
  · intro nbi recs _
    simp only [InitDeviceRoles, orphanSet, GoMap.inner_set_self]
    exact indexLoop_orphanExact _ _ _ _
  · intro nbi recs _
    simp only [InitClusterGroups, orphanSet, GoMap.inner_set_self]
    exact indexLoop_orphanExact _ _ _ _
  · intro nbi recs _
    simp only [InitClusterTypes, orphanSet, GoMap.inner_set_self]
    exact indexLoop_orphanExact _ _ _ _
  · intro nbi recs _
    simp only [InitClusters, orphanSet, GoMap.inner_set_self]
    exact indexLoop_orphanExact _ _ _ _
  · intro nbi recs _
    simp only [InitDeviceTypes, orphanSet, GoMap.inner_set_self]
    exact indexLoop_orphanExact _ _ _ _
  · intro nbi recs h
    simp only [InitInterfaces, orphanSet, GoMap.inner_set_self]
    exact index2Loop_orphanExact (InitInterfaces_ok_loop h)
  · intro nbi recs _
    simp only [InitVlanGroups, orphanSet, GoMap.inner_set_self]
    exact indexLoop_orphanExact _ _ _ _
  · intro nbi recs _
    simp only [InitVMs, orphanSet, GoMap.inner_set_self]
    exact indexLoop_orphanExact _ _ _ _
  · intro nbi recs h
    simp only [InitVMInterfaces, orphanSet, GoMap.inner_set_self]
    exact index2Loop_orphanExact (InitVMInterfaces_ok_loop h)
  · intro nbi recs _
    simp only [InitIPAddresses, orphanSet, GoMap.inner_set_self]
    exact indexLoop_orphanExact _ _ _ _
  · intro nbi recs _
    simp only [InitPrefixes, orphanSet, GoMap.inner_set_self]
    exact indexLoop_orphanExact _ _ _ _

theorem InitVlans_store_orphans (run : InvRun) (v : Vlan) (grp : VlanGroup)
    (h : v.Group = some grp) :
    (InitVlans.store run v).2 = Outcome.ok ∧
    (InitVlans.store run v).1.calls = run.calls ∧
    (InitVlans.store run v).1.nbi.SsotTag = run.nbi.SsotTag ∧
    ∀ id, GoMap.has (orphanSet (InitVlans.store run v).1.nbi ApiPath.VlansApiPath) id = true ↔
      (GoMap.has (orphanSet run.nbi ApiPath.VlansApiPath) id = true ∨
        (v.Id = id ∧ Owned run.nbi.SsotTag v.toNetboxObject)) := by
  unfold InitVlans.store
  simp only [h]
  refine ⟨trivial, trivial, trivial, ?_⟩
  intro id
  by_cases ht : hasSsotTag run.nbi.SsotTag v.Tags = true
  · have ho : Owned run.nbi.SsotTag v.toNetboxObject := (hasSsotTag_iff _ _).mp ht
    simp only [ht, if_true, orphanSet, GoMap.inner_set_self, GoMap.has, GoMap.set_apply]
    by_cases hid : id = v.Id
    · subst hid; simp [ho]
    · have hid2 : ¬ v.Id = id := fun e => hid e.symm
      simp [hid, hid2]
  · have ho : ¬ Owned run.nbi.SsotTag v.toNetboxObject := fun o => ht ((hasSsotTag_iff _ _).mpr o)
    simp [ht, ho, orphanSet]

theorem InitVlans_loop_grouped (names : ObjectNames) (e : Engine) (vlans : List Vlan)
    (run : InvRun) (hg : ∀ v ∈ vlans, v.Group ≠ none) :
    (InitVlans.loop names e vlans run).2 = Outcome.ok ∧
    (InitVlans.loop names e vlans run).1.calls = run.calls ∧
    (InitVlans.loop names e vlans run).1.nbi.SsotTag = run.nbi.SsotTag ∧
    ∀ id, GoMap.has (orphanSet (InitVlans.loop names e vlans run).1.nbi
        ApiPath.VlansApiPath) id = true ↔
      (GoMap.has (orphanSet run.nbi ApiPath.VlansApiPath) id = true ∨
        ∃ r ∈ vlans, r.Id = id ∧ Owned run.nbi.SsotTag r.toNetboxObject) := by
  induction vlans generalizing run with
  | nil => simp [InitVlans.loop]
  | cons v rest ih =>
    have hv := hg v (List.mem_cons_self _ _)
    cases hgrp : v.Group with
    | none => exact absurd hgrp hv
    | some grp =>
      obtain ⟨s1, s2, s3, s4⟩ := InitVlans_store_orphans run v grp hgrp
      have hstep : InitVlans.step names e run v = InitVlans.store run v := by
        simp [InitVlans.step, hgrp]
      obtain ⟨i1, i2, i3, i4⟩ :=
        ih (InitVlans.store run v).1 (fun w hw => hg w (List.mem_cons_of_mem _ hw))
      have hloop : InitVlans.loop names e (v :: rest) run
          = InitVlans.loop names e rest (InitVlans.store run v).1 := by
        rw [InitVlans.loop, hstep]
        rcases hst : InitVlans.store run v with ⟨run1, o⟩
        rw [hst] at s1
        simp only at s1
        subst s1
        rfl
      rw [hloop]
      refine ⟨i1, i2.trans s2, i3.trans s3, ?_⟩
      intro id
      rw [i4 id, s4 id, s3]
      simp only [List.mem_cons, exists_eq_or_imp]
      tauto

theorem InitVlans_step_ungrouped (names : ObjectNames) (e : Engine) (run : InvRun)
    (vlan : Vlan) (nbi1 : NetboxInventory) (vlan2 : Vlan)
    (hgroup : vlan.Group = none)
    (hadd : e.AddVlan run.nbi
      { vlan with Group := run.nbi.VlanGroupsIndexByName names.DefaultVlanGroupName }
      = (nbi1, Except.ok vlan2)) :
    InitVlans.step names e run vlan = InitVlans.store
      { nbi := nbi1, calls := run.calls ++ [EngineCall.AddVlan
        { vlan with Group := run.nbi.VlanGroupsIndexByName names.DefaultVlanGroupName }] }
      vlan2 := by
  unfold InitVlans.step
  simp only [hgroup]
  rw [hadd]

/-- C1, as the code has it. For the sixteen loaders that index what was fetched, after a
successful load an identifier is in the type's orphan set if and only if some fetched record
with that identifier carries a tag whose slug is the ownership tag's slug. InitVlans does
likewise, calling no operation, when every fetched VLAN has a group. For a fetched VLAN
without a group InitVlans goes on with the VLAN that AddVlan returned: the pass leaves the
orphan set AddVlan left, with the identifier of the returned VLAN added if and only if the
returned VLAN carries such a tag. -/
theorem C1_orphan_set_iff_owned :
    (TracksOwned InitManufacturers (fun r => r.toNetboxObject) ApiPath.ManufacturersApiPath ∧
     TracksOwned InitDevices (fun r => r.toNetboxObject) ApiPath.DevicesApiPath ∧
     TracksOwned InitContacts (fun r => r.toNetboxObject) ApiPath.ContactsApiPath ∧
     TracksOwned InitContactAssignments (fun r => r.toNetboxObject)
       ApiPath.ContactAssignmentsApiPath ∧
     TracksOwned InitPlatforms (fun r => r.toNetboxObject) ApiPath.PlatformsApiPath ∧
     TracksOwned InitDeviceRoles (fun r => r.toNetboxObject) ApiPath.DeviceRolesApiPath ∧
     TracksOwned InitClusterGroups (fun r => r.toNetboxObject) ApiPath.ClusterGroupsApiPath ∧
     TracksOwned InitClusterTypes (fun r => r.toNetboxObject) ApiPath.ClusterTypesApiPath ∧
     TracksOwned InitClusters (fun r => r.toNetboxObject) ApiPath.ClustersApiPath ∧
     TracksOwned InitDeviceTypes (fun r => r.toNetboxObject) ApiPath.DeviceTypesApiPath ∧
     TracksOwned InitInterfaces (fun r => r.toNetboxObject) ApiPath.InterfacesApiPath ∧
     TracksOwned InitVlanGroups (fun r => r.toNetboxObject) ApiPath.VlanGroupsApiPath ∧
     TracksOwned InitVMs (fun r => r.toNetboxObject) ApiPath.VirtualMachinesApiPath ∧
     TracksOwned InitVMInterfaces (fun r => r.toNetboxObject) ApiPath.VMInterfacesApiPath ∧
     TracksOwned InitIPAddresses (fun r => r.toNetboxObject) ApiPath.IpAddressesApiPath ∧
     TracksOwned InitPrefixes (fun r => r.toNetboxObject) ApiPath.PrefixesApiPath) ∧
    (∀ (names : ObjectNames) (e : Engine) (nbi : NetboxInventory) (vlans : List Vlan),
      (∀ v ∈ vlans, v.Group ≠ none) →
      (InitVlans names e nbi (Except.ok vlans)).2 = Outcome.ok ∧
      (InitVlans names e nbi (Except.ok vlans)).1.calls = [] ∧
      OrphanExact nbi.SsotTag (fun r => r.toNetboxObject) vlans
        (orphanSet (InitVlans names e nbi (Except.ok vlans)).1.nbi ApiPath.VlansApiPath)) ∧
    (∀ (names : ObjectNames) (e : Engine) (run : InvRun) (vlan : Vlan),
      vlan.Group = none →
      (∀ err, (e.AddVlan run.nbi { vlan with
            Group := run.nbi.VlanGroupsIndexByName names.DefaultVlanGroupName }).2
          = Except.error err →
        (InitVlans.step names e run vlan).2 = Outcome.error err) ∧
      (∀ vlan2, (e.AddVlan run.nbi { vlan with
            Group := run.nbi.VlanGroupsIndexByName names.DefaultVlanGroupName }).2
          = Except.ok vlan2 →
        vlan2.Group ≠ none →
        (InitVlans.step names e run vlan).2 = Outcome.ok ∧
        (InitVlans.step names e run vlan).1.calls = run.calls ++ [EngineCall.AddVlan
          { vlan with Group := run.nbi.VlanGroupsIndexByName names.DefaultVlanGroupName }] ∧
        ∀ id, GoMap.has (orphanSet (InitVlans.step names e run vlan).1.nbi
            ApiPath.VlansApiPath) id = true ↔
          (GoMap.has (orphanSet (e.AddVlan run.nbi { vlan with
              Group := run.nbi.VlanGroupsIndexByName names.DefaultVlanGroupName }).1
            ApiPath.VlansApiPath) id = true ∨
           (vlan2.Id = id ∧ Owned (e.AddVlan run.nbi { vlan with
              Group := run.nbi.VlanGroupsIndexByName names.DefaultVlanGroupName }).1.SsotTag
            vlan2.toNetboxObject)))) := by
  refine ⟨loaders_track_owned, ?_, ?_⟩
  · intro names e nbi vlans hg
    obtain ⟨l1, l2, l3, l4⟩ := InitVlans_loop_grouped names e vlans
      { nbi := { nbi with
          VlansIndexByVlanGroupIdAndVid := GoMap.empty
          OrphanManager := GoMap.set nbi.OrphanManager ApiPath.VlansApiPath GoMap.empty }
        calls := [] } hg
    refine ⟨l1, l2, ?_⟩
    intro id
    have := l4 id
    simp only [orphanSet, GoMap.inner_set_self] at this
    simp only [InitVlans, orphanSet]
    rw [this]
    simp [GoMap.has]
  · intro names e run vlan hgroup
    constructor
    · intro err herr
      rcases hadd : e.AddVlan run.nbi { vlan with
        Group := run.nbi.VlanGroupsIndexByName names.DefaultVlanGroupName } with ⟨nbi1, r⟩
      rw [hadd] at herr
      simp only at herr
      subst herr
      unfold InitVlans.step
      simp only [hgroup]
      rw [hadd]
    · intro vlan2 hok hgrp2
      rcases hadd : e.AddVlan run.nbi { vlan with
        Group := run.nbi.VlanGroupsIndexByName names.DefaultVlanGroupName } with ⟨nbi1, r⟩
      rw [hadd] at hok
      simp only at hok
      subst hok
      rw [InitVlans_step_ungrouped names e run vlan nbi1 vlan2 hgroup hadd]
      cases hg2 : vlan2.Group with
      | none => exact absurd hg2 hgrp2
      | some grp =>
        obtain ⟨s1, s2, s3, s4⟩ := InitVlans_store_orphans
          { nbi := nbi1, calls := run.calls ++ [EngineCall.AddVlan
            { vlan with Group := run.nbi.VlanGroupsIndexByName names.DefaultVlanGroupName }] }
          vlan2 grp hg2
        exact ⟨s1, s2, s4⟩

/-- C1 at a concrete fetch: of two devices, the tagged one (id 7) is in the orphan set and
the untagged one (id 8) is not. -/
theorem C1_orphan_set_iff_owned_witness :
    (InitDevices (NetboxInventory.fresh exSsot) (Except.ok
      [exDevice 7 "h1" (some (exSite 1 "s1")) [exOtherTag, exSsot],
       exDevice 8 "h2" (some (exSite 1 "s1")) [exOtherTag]])).2 = Outcome.ok ∧
    GoMap.has (orphanSet (InitDevices (NetboxInventory.fresh exSsot) (Except.ok
      [exDevice 7 "h1" (some (exSite 1 "s1")) [exOtherTag, exSsot],
       exDevice 8 "h2" (some (exSite 1 "s1")) [exOtherTag]])).1 ApiPath.DevicesApiPath) 7 = true ∧
    ¬ GoMap.has (orphanSet (InitDevices (NetboxInventory.fresh exSsot) (Except.ok
      [exDevice 7 "h1" (some (exSite 1 "s1")) [exOtherTag, exSsot],
       exDevice 8 "h2" (some (exSite 1 "s1")) [exOtherTag]])).1 ApiPath.DevicesApiPath) 8 = true := by
  have hok : (InitDevices (NetboxInventory.fresh exSsot) (Except.ok
      [exDevice 7 "h1" (some (exSite 1 "s1")) [exOtherTag, exSsot],
       exDevice 8 "h2" (some (exSite 1 "s1")) [exOtherTag]])).2 = Outcome.ok := by decide
  refine ⟨hok, ?_, ?_⟩
  · rw [C1_orphan_set_iff_owned.1.2.1 _ _ hok 7]
    exact ⟨_, List.mem_cons_self _ _, rfl, exSsot, by decide, rfl⟩
  · rw [C1_orphan_set_iff_owned.1.2.1 _ _ hok 8]
    rintro ⟨r, hr, hid, t, ht, hs⟩
    simp only [List.mem_cons, List.mem_singleton, List.not_mem_nil, or_false] at hr
    rcases hr with rfl | rfl
    · revert hid; decide
    · simp only [exDevice, List.mem_singleton] at ht
      subst ht
      revert hs; decide

/-- C1 fails for InitVlans: the fetch holds one VLAN, id 5, with no tag and no group. AddVlan
returns it with the ssot tag added, the load succeeds, and 5 is in the orphan set of VLANs
although no fetched record with identifier 5 carries a tag with the ssot tag's slug. -/
theorem C1_counterexample :
    (InitVlans exNames exEngineTagging exInventoryWithDefaultGroup
      (Except.ok [exVlan 5 100 none])).2 = Outcome.ok ∧
    GoMap.has (orphanSet (InitVlans exNames exEngineTagging exInventoryWithDefaultGroup
      (Except.ok [exVlan 5 100 none])).1.nbi ApiPath.VlansApiPath) 5 = true ∧
    ¬ ∃ r ∈ [exVlan 5 100 none],
      r.Id = 5 ∧ Owned exInventoryWithDefaultGroup.SsotTag r.toNetboxObject := by
  refine ⟨by decide, by decide, ?_⟩
  rintro ⟨r, hr, -, t, ht, -⟩
  simp only [List.mem_singleton] at hr
  subst hr
  simp [exVlan] at ht

theorem TracksOwned.covers {α : Type}
    {load : NetboxInventory → Except Error (List α) → NetboxInventory × Outcome}
    {obj : α → NetboxObject} {path : ApiPath} (h : TracksOwned load obj path) :
    CoversOwned load obj path :=
  fun nbi recs hok r hr ho => (h nbi recs hok (obj r).Id).mpr ⟨r, hr, rfl, ho⟩

/-- C2, as the code has it: for every entity type whose loader keeps an orphan set, after
the load succeeds every fetched record that carries the ownership tag has its identifier
in that type's orphan set; the loaders of tenants, sites, contact roles, contact groups
and custom fields keep no orphan set and leave the OrphanManager as it was. -/
theorem C2_owned_records_tracked_where_kept :
    (CoversOwned InitManufacturers (fun r => r.toNetboxObject) ApiPath.ManufacturersApiPath ∧
     CoversOwned InitDevices (fun r => r.toNetboxObject) ApiPath.DevicesApiPath ∧
     CoversOwned InitContacts (fun r => r.toNetboxObject) ApiPath.ContactsApiPath ∧
     CoversOwned InitContactAssignments (fun r => r.toNetboxObject)
       ApiPath.ContactAssignmentsApiPath ∧
     CoversOwned InitPlatforms (fun r => r.toNetboxObject) ApiPath.PlatformsApiPath ∧
     CoversOwned InitDeviceRoles (fun r => r.toNetboxObject) ApiPath.DeviceRolesApiPath ∧
     CoversOwned InitClusterGroups (fun r => r.toNetboxObject) ApiPath.ClusterGroupsApiPath ∧
     CoversOwned InitClusterTypes (fun r => r.toNetboxObject) ApiPath.ClusterTypesApiPath ∧
     CoversOwned InitClusters (fun r => r.toNetboxObject) ApiPath.ClustersApiPath ∧
     CoversOwned InitDeviceTypes (fun r => r.toNetboxObject) ApiPath.DeviceTypesApiPath ∧
     CoversOwned InitInterfaces (fun r => r.toNetboxObject) ApiPath.InterfacesApiPath ∧
     CoversOwned InitVlanGroups (fun r => r.toNetboxObject) ApiPath.VlanGroupsApiPath ∧
     CoversOwned InitVMs (fun r => r.toNetboxObject) ApiPath.VirtualMachinesApiPath ∧
     CoversOwned InitVMInterfaces (fun r => r.toNetboxObject) ApiPath.VMInterfacesApiPath ∧
     CoversOwned InitIPAddresses (fun r => r.toNetboxObject) ApiPath.IpAddressesApiPath ∧
     CoversOwned InitPrefixes (fun r => r.toNetboxObject) ApiPath.PrefixesApiPath) ∧
    (KeepsNoOrphanSet InitTenants ∧ KeepsNoOrphanSet InitSites ∧
     KeepsNoOrphanSet InitContactRoles ∧ KeepsNoOrphanSet InitContactGroups ∧
     KeepsNoOrphanSet InitCustomFields) := by
  obtain ⟨h1, h2, h3, h4, h5, h6, h7, h8, h9, h10, h11, h12, h13, h14, h15, h16⟩ :=
    loaders_track_owned
  exact ⟨⟨h1.covers, h2.covers, h3.covers, h4.covers, h5.covers, h6.covers, h7.covers,
    h8.covers, h9.covers, h10.covers, h11.covers, h12.covers, h13.covers, h14.covers,
    h15.covers, h16.covers⟩,
    fun _ _ => ⟨rfl, rfl⟩, fun _ _ => ⟨rfl, rfl⟩, fun _ _ => ⟨rfl, rfl⟩,
    fun _ _ => ⟨rfl, rfl⟩, fun _ _ => ⟨rfl, rfl⟩⟩

/-- C2 fails for tenants: InitTenants succeeds on a fetch holding a tenant (id 5) that
carries the ownership tag, and afterwards no orphan set of the OrphanManager holds 5. -/
theorem C2_counterexample :
    (InitTenants (NetboxInventory.fresh exSsot)
      (Except.ok [exTenant 5 "t1" [exSsot]])).2 = Outcome.ok ∧
    Owned exSsot (exTenant 5 "t1" [exSsot]).toNetboxObject ∧
    ¬ ∃ path : ApiPath, GoMap.has (orphanSet (InitTenants (NetboxInventory.fresh exSsot)
      (Except.ok [exTenant 5 "t1" [exSsot]])).1 path) 5 = true := by
  refine ⟨rfl, ⟨exSsot, by decide, rfl⟩, ?_⟩
  rintro ⟨path, h⟩
  simp [InitTenants, orphanSet, NetboxInventory.fresh, GoMap.inner, GoMap.has] at h

/-! ## Duplicated identifiers in InitContactAssignments -/

theorem dropSeen_subset (recs : List ContactAssignment) (seen : List Int) :
    ∀ x ∈ dropSeen recs seen, x ∈ recs := by
  induction recs generalizing seen with
  | nil => simp [dropSeen]
  | cons r rest ih =>
    intro x hx
    rw [dropSeen] at hx
    by_cases h : r.Id ∈ seen
    · rw [if_pos h] at hx
      exact List.mem_cons_of_mem _ (ih _ x hx)
    · rw [if_neg h] at hx
      rcases List.mem_cons.mp hx with rfl | hx
      · exact List.mem_cons_self _ _
      · exact List.mem_cons_of_mem _ (ih _ x hx)

theorem dropSeen_covers (recs : List ContactAssignment) (seen : List Int) :
    ∀ x ∈ recs, x.Id ∈ seen ∨ ∃ y ∈ dropSeen recs seen, y.Id = x.Id := by
  induction recs generalizing seen with
  | nil => simp
  | cons r rest ih =>
    intro x hx
    rw [dropSeen]
    by_cases h : r.Id ∈ seen
    · rw [if_pos h]
      rcases List.mem_cons.mp hx with rfl | hx
      · exact Or.inl h
      · exact ih seen x hx
    · rw [if_neg h]
      rcases List.mem_cons.mp hx with rfl | hx
      · exact Or.inr ⟨x, List.mem_cons_self _ _, rfl⟩
      · rcases ih (r.Id :: seen) x hx with hs | ⟨y, hy, hid⟩
        · rcases List.mem_cons.mp hs with he | hs
          · exact Or.inr ⟨r, List.mem_cons_self _ _, he.symm⟩
          · exact Or.inl hs
        · exact Or.inr ⟨y, List.mem_cons_of_mem _ hy, hid⟩

theorem mem_dedupById {recs : List ContactAssignment}
    (hid : ∀ a ∈ recs, ∀ b ∈ recs, a.Id = b.Id → a = b) (x : ContactAssignment) :
    x ∈ dedupById recs ↔ x ∈ recs := by
  constructor
  · exact dropSeen_subset recs [] x
  · intro hx
    rcases dropSeen_covers recs [] x hx with h | ⟨y, hy, hyx⟩
    · simp at h
    · have : y = x := hid y (dropSeen_subset recs [] y hy) x hx hyx
      exact this ▸ hy

theorem lastWith_eq_of_unique {α : Type} {p : α → Bool} {l1 l2 : List α}
    (hmem : ∀ x, x ∈ l1 ↔ x ∈ l2)
    (huniq : ∀ a ∈ l2, ∀ b ∈ l2, p a = true → p b = true → a = b) :
    lastWith p l1 = lastWith p l2 := by
  cases h1 : lastWith p l1 with
  | none =>
    cases h2 : lastWith p l2 with
    | none => rfl
    | some b =>
      obtain ⟨hb, hpb⟩ := lastWith_some h2
      have := lastWith_none h1 b ((hmem b).mpr hb)
      rw [hpb] at this
      cases this
  | some a =>
    obtain ⟨ha, hpa⟩ := lastWith_some h1
    cases h2 : lastWith p l2 with
    | none =>
      have := lastWith_none h2 a ((hmem a).mp ha)
      rw [hpa] at this
      cases this
    | some b =>
      obtain ⟨hb, hpb⟩ := lastWith_some h2
      rw [huniq a ((hmem a).mp ha) b hb hpa hpb]

theorem InitContactAssignments_loop_ok_printed {ssot : Tag} {recs : List ContactAssignment}
    {s s2 : CAState} (h : InitContactAssignments.loop ssot recs s = (s2, Outcome.ok))
    (seen : List Int) (hseen : ∀ id, GoMap.has s.debugIds id = true ↔ id ∈ seen) :
    s2.printed = s.printed ++
      (laterDuplicates recs seen).map (fun cA => "Already been here: " ++ toString cA.Id) := by
  induction recs generalizing s seen with
  | nil =>
    simp only [InitContactAssignments.loop, Prod.mk.injEq, and_true] at h
    subst h
    simp [laterDuplicates]
  | cons r rest ih =>
    obtain ⟨s1, hst, hrest⟩ := InitContactAssignments_loop_cons_ok h
    obtain ⟨ct0, oid0, cid0, rid0, -, -, -, hdbg, hpr⟩ := InitContactAssignments_step_ok hst
    rw [laterDuplicates]
    by_cases hin : r.Id ∈ seen
    · have hhas : GoMap.has s.debugIds r.Id = true := (hseen _).mpr hin
      rw [if_pos hin, ih hrest seen, hpr, if_pos hhas]
      · simp
      · intro id
        rw [hdbg]
        by_cases hid : id = r.Id
        · subst hid; simp [GoMap.has, hin]
        · simp only [GoMap.has, GoMap.set_of_ne _ _ hid]
          exact hseen id
    · have hhas : ¬ GoMap.has s.debugIds r.Id = true := fun e => hin ((hseen _).mp e)
      rw [if_neg hin, ih hrest (r.Id :: seen), hpr, if_neg hhas]
      intro id
      rw [hdbg]
      by_cases hid : id = r.Id
      · subst hid; simp [GoMap.has]
      · simp only [GoMap.has, GoMap.set_of_ne _ _ hid, List.mem_cons, hid, false_or]
        exact hseen id

theorem InitContactAssignments_ok_of_keys (nbi : NetboxInventory)
    {recs : List ContactAssignment} (hkeys : ∀ cA ∈ recs, ∃ k, caKey cA = some k) :
    (InitContactAssignments nbi (Except.ok recs)).2 = Outcome.ok :=
  InitContactAssignments_loop_of_keys nbi.SsotTag CAState.init hkeys

theorem InitContactAssignments_get4 {nbi : NetboxInventory} {recs : List ContactAssignment}
    (hok : (InitContactAssignments nbi (Except.ok recs)).2 = Outcome.ok)
    (ct : String) (oid cid rid : Int) :
    CAIndex.get4 (InitContactAssignments nbi (Except.ok recs)).1.ContactAssignmentsIndexByContentTypeAndObjectIdAndContactIdAndRoleId
        ct oid cid rid
      = lastWith (fun cA => decide (caKey cA = some (ct, oid, cid, rid))) recs := by
  simp only [InitContactAssignments]
  rw [InitContactAssignments_loop_ok_get4 (InitContactAssignments_ok_loop hok)]
  simp [CAState.init, CAIndex.get4, GoMap.inner, GoMap.get2]

theorem InitContactAssignments_orph {nbi : NetboxInventory} {recs : List ContactAssignment}
    (hok : (InitContactAssignments nbi (Except.ok recs)).2 = Outcome.ok) :
    OrphanExact nbi.SsotTag (fun r => r.toNetboxObject) recs
      (orphanSet (InitContactAssignments nbi (Except.ok recs)).1
        ApiPath.ContactAssignmentsApiPath) :=
  loaders_track_owned.2.2.2.1 nbi recs hok

/-- C3, as the code has it: InitContactAssignments does not skip a record whose identifier
occurred earlier. On a fetched list whose records all have a contact and a role it returns
no error, prints one line for every such record and inserts every record like any other:
each index slot holds the last fetched record with that key, and the orphan set holds the
identifiers of all fetched records that carry the ownership tag. The index and the orphan
set are those of the list with the later duplicates removed when records with the same
identifier are equal and records with the same natural key are equal. -/
theorem C3_duplicates_printed_not_skipped (nbi : NetboxInventory)
    (recs : List ContactAssignment) (hkeys : ∀ cA ∈ recs, ∃ k, caKey cA = some k) :
    (InitContactAssignments nbi (Except.ok recs)).2 = Outcome.ok ∧
    InitContactAssignments.printed nbi recs
      = (laterDuplicates recs []).map (fun cA => "Already been here: " ++ toString cA.Id) ∧
    (∀ (ct : String) (oid cid rid : Int),
      CAIndex.get4 (InitContactAssignments nbi (Except.ok recs)).1.ContactAssignmentsIndexByContentTypeAndObjectIdAndContactIdAndRoleId
          ct oid cid rid
        = lastWith (fun cA => decide (caKey cA = some (ct, oid, cid, rid))) recs) ∧
    OrphanExact nbi.SsotTag (fun r => r.toNetboxObject) recs
      (orphanSet (InitContactAssignments nbi (Except.ok recs)).1
        ApiPath.ContactAssignmentsApiPath) ∧
    ((∀ a ∈ recs, ∀ b ∈ recs, a.Id = b.Id → a = b) →
     (∀ a ∈ recs, ∀ b ∈ recs, caKey a = caKey b → a = b) →
      (InitContactAssignments nbi (Except.ok (dedupById recs))).2 = Outcome.ok ∧
      (∀ (ct : String) (oid cid rid : Int),
        CAIndex.get4 (InitContactAssignments nbi (Except.ok recs)).1.ContactAssignmentsIndexByContentTypeAndObjectIdAndContactIdAndRoleId
            ct oid cid rid
          = CAIndex.get4 (InitContactAssignments nbi (Except.ok (dedupById recs))).1.ContactAssignmentsIndexByContentTypeAndObjectIdAndContactIdAndRoleId
            ct oid cid rid) ∧
      (∀ id : Int,
        GoMap.has (orphanSet (InitContactAssignments nbi (Except.ok recs)).1
            ApiPath.ContactAssignmentsApiPath) id = true
          ↔ GoMap.has (orphanSet (InitContactAssignments nbi (Except.ok (dedupById recs))).1
            ApiPath.ContactAssignmentsApiPath) id = true)) := by
  have hok := InitContactAssignments_ok_of_keys nbi hkeys
  refine ⟨hok, ?_, InitContactAssignments_get4 hok, InitContactAssignments_orph hok, ?_⟩
  · unfold InitContactAssignments.printed
    rw [InitContactAssignments_loop_ok_printed (InitContactAssignments_ok_loop hok) []]
    · simp [CAState.init]
    · intro id; simp [CAState.init, GoMap.has]
  · intro hid hkey
    have hmem := mem_dedupById hid
    have hkeys2 : ∀ cA ∈ dedupById recs, ∃ k, caKey cA = some k :=
      fun cA h => hkeys cA ((hmem cA).mp h)
    have hok2 := InitContactAssignments_ok_of_keys nbi hkeys2
    refine ⟨hok2, ?_, ?_⟩
    · intro ct oid cid rid
      rw [InitContactAssignments_get4 hok, InitContactAssignments_get4 hok2]
      apply lastWith_eq_of_unique (fun x => (hmem x).symm)
      intro a ha b hb hpa hpb
      apply hkey a ((hmem a).mp ha) b ((hmem b).mp hb)
      rw [of_decide_eq_true hpa, of_decide_eq_true hpb]
    · intro id
      rw [InitContactAssignments_orph hok id, InitContactAssignments_orph hok2 id]
      constructor
      · rintro ⟨r, hr, h⟩; exact ⟨r, (hmem r).mpr hr, h⟩
      · rintro ⟨r, hr, h⟩; exact ⟨r, (hmem r).mp hr, h⟩

/-- C3 at a concrete fetch: the same record fetched twice is printed once and the load
still succeeds. -/
theorem C3_duplicates_printed_not_skipped_witness :
    (InitContactAssignments (NetboxInventory.fresh exSsot)
      (Except.ok [exCA 1 "dcim.device" 10 20 30 [exSsot],
        exCA 1 "dcim.device" 10 20 30 [exSsot]])).2 = Outcome.ok ∧
    InitContactAssignments.printed (NetboxInventory.fresh exSsot)
      [exCA 1 "dcim.device" 10 20 30 [exSsot], exCA 1 "dcim.device" 10 20 30 [exSsot]]
      = ["Already been here: 1"] :=
  have h := C3_duplicates_printed_not_skipped (NetboxInventory.fresh exSsot)
    [exCA 1 "dcim.device" 10 20 30 [exSsot], exCA 1 "dcim.device" 10 20 30 [exSsot]]
    (fun cA h => by
      simp only [List.mem_cons, List.mem_singleton, List.not_mem_nil, or_false, or_self] at h
      subst h
      exact ⟨_, rfl⟩)
  ⟨h.1, h.2.1.trans (by decide)⟩

/-- C3 fails: of two fetched records with identifier 1, the later one is not skipped. The
load prints a line for it, stores it in the index under its own key and puts 1 into the
orphan set; on the list with the later duplicate removed that slot is empty and 1 is not
in the orphan set. -/
theorem C3_counterexample :
    dedupById [exCA 1 "dcim.device" 10 20 30 [], exCA 1 "dcim.device" 11 20 30 [exSsot]]
      = [exCA 1 "dcim.device" 10 20 30 []] ∧
    (InitContactAssignments (NetboxInventory.fresh exSsot)
      (Except.ok [exCA 1 "dcim.device" 10 20 30 [],
        exCA 1 "dcim.device" 11 20 30 [exSsot]])).2 = Outcome.ok ∧
    InitContactAssignments.printed (NetboxInventory.fresh exSsot)
      [exCA 1 "dcim.device" 10 20 30 [], exCA 1 "dcim.device" 11 20 30 [exSsot]]
      = ["Already been here: 1"] ∧
    CAIndex.get4 (InitContactAssignments (NetboxInventory.fresh exSsot)
      (Except.ok [exCA 1 "dcim.device" 10 20 30 [],
        exCA 1 "dcim.device" 11 20 30 [exSsot]])).1.ContactAssignmentsIndexByContentTypeAndObjectIdAndContactIdAndRoleId
      "dcim.device" 11 20 30 = some (exCA 1 "dcim.device" 11 20 30 [exSsot]) ∧
    GoMap.has (orphanSet (InitContactAssignments (NetboxInventory.fresh exSsot)
      (Except.ok [exCA 1 "dcim.device" 10 20 30 [],
        exCA 1 "dcim.device" 11 20 30 [exSsot]])).1 ApiPath.ContactAssignmentsApiPath) 1 = true ∧
    CAIndex.get4 (InitContactAssignments (NetboxInventory.fresh exSsot)
      (Except.ok (dedupById [exCA 1 "dcim.device" 10 20 30 [],
        exCA 1 "dcim.device" 11 20 30 [exSsot]]))).1.ContactAssignmentsIndexByContentTypeAndObjectIdAndContactIdAndRoleId
      "dcim.device" 11 20 30 = none ∧
    GoMap.has (orphanSet (InitContactAssignments (NetboxInventory.fresh exSsot)
      (Except.ok (dedupById [exCA 1 "dcim.device" 10 20 30 [],
        exCA 1 "dcim.device" 11 20 30 [exSsot]]))).1 ApiPath.ContactAssignmentsApiPath) 1
      = false := by
  refine ⟨by decide, by decide, by decide, by decide, by decide, by decide, by decide⟩

/-! ## What the composite-key indexes hold -/

theorem eq_of_key_eq_of_pairwise {α κ : Type} {key : α → κ} {l : List α}
    (h : l.Pairwise (fun a b => key a ≠ key b)) :
    ∀ a ∈ l, ∀ b ∈ l, key a = key b → a = b := by
  induction l with
  | nil => simp
  | cons x xs ih =>
    rw [List.pairwise_cons] at h
    intro a ha b hb hk
    rcases List.mem_cons.mp ha with hax | ha
    · rcases List.mem_cons.mp hb with hbx | hb
      · rw [hax, hbx]
      · rw [hax] at hk
        exact absurd hk (h.1 b hb)
    · rcases List.mem_cons.mp hb with hbx | hb
      · rw [hbx] at hk
        exact absurd hk.symm (h.1 a ha)
      · exact ih h.2 a ha b hb hk

theorem lastWith_eq_some_of_unique {α : Type} {p : α → Bool} {l : List α} {d : α}
    (hd : d ∈ l) (hp : p d = true) (huniq : ∀ a ∈ l, p a = true → a = d) :
    lastWith p l = some d := by
  cases h : lastWith p l with
  | none =>
    have := lastWith_none h d hd
    rw [hp] at this
    cases this
  | some b =>
    obtain ⟨hb, hpb⟩ := lastWith_some h
    rw [huniq b hb hpb]

theorem index2Loop_ok_eq {K J α : Type} [DecidableEq K] [DecidableEq J] {ssot : Tag}
    {k1 : α → Option K} {k2 : α → Option J} {obj : α → NetboxObject} {recs : List α}
    {s : GoMap K (GoMap J α) × GoMap Int Bool}
    (h : (index2Loop ssot k1 k2 obj recs s).2 = Outcome.ok) :
    index2Loop ssot k1 k2 obj recs s = ((index2Loop ssot k1 k2 obj recs s).1, Outcome.ok) := by
  rw [← h]

theorem InitDevices_get2 {nbi : NetboxInventory} {recs : List Device}
    (hok : (InitDevices nbi (Except.ok recs)).2 = Outcome.ok) (name : String) (siteId : Int) :
    GoMap.get2 (InitDevices nbi (Except.ok recs)).1.DevicesIndexByNameAndSiteId name siteId
      = lastWith (fun d => decide (deviceKey d = some (name, siteId))) recs := by
  simp only [InitDevices]
  rw [index2Loop_ok_get2 (index2Loop_ok_eq (InitDevices_ok_loop hok))]
  simp [deviceKey]

/-- C4: on a fetched list of devices that all have a site and whose (name, site id) pairs
are pairwise distinct, InitDevices succeeds, each device is the value stored under its name
and site id, and the index has no other entry; likewise InitContactAssignments with the
key (content type, object id, contact id, role id). -/
theorem C4_index_holds_exactly_the_fetched (nbi : NetboxInventory) (devs : List Device)
    (cas : List ContactAssignment)
    (hsite : ∀ d ∈ devs, ∃ a b, deviceKey d = some (a, b))
    (hdev : devs.Pairwise (fun a b => deviceKey a ≠ deviceKey b))
    (hparts : ∀ cA ∈ cas, ∃ k, caKey cA = some k)
    (hca : cas.Pairwise (fun a b => caKey a ≠ caKey b)) :
    ((InitDevices nbi (Except.ok devs)).2 = Outcome.ok ∧
     (∀ d ∈ devs, ∀ name siteId, deviceKey d = some (name, siteId) →
        GoMap.get2 (InitDevices nbi (Except.ok devs)).1.DevicesIndexByNameAndSiteId
          name siteId = some d) ∧
     (∀ name siteId d,
        GoMap.get2 (InitDevices nbi (Except.ok devs)).1.DevicesIndexByNameAndSiteId
          name siteId = some d → d ∈ devs ∧ deviceKey d = some (name, siteId))) ∧
    ((InitContactAssignments nbi (Except.ok cas)).2 = Outcome.ok ∧
     (∀ cA ∈ cas, ∀ ct oid cid rid, caKey cA = some (ct, oid, cid, rid) →
        CAIndex.get4 (InitContactAssignments nbi (Except.ok cas)).1.ContactAssignmentsIndexByContentTypeAndObjectIdAndContactIdAndRoleId
          ct oid cid rid = some cA) ∧
     (∀ ct oid cid rid cA,
        CAIndex.get4 (InitContactAssignments nbi (Except.ok cas)).1.ContactAssignmentsIndexByContentTypeAndObjectIdAndContactIdAndRoleId
          ct oid cid rid = some cA → cA ∈ cas ∧ caKey cA = some (ct, oid, cid, rid))) := by
  have hdok : (InitDevices nbi (Except.ok devs)).2 = Outcome.ok :=
    index2Loop_of_keys nbi.SsotTag _ _ hsite
  have hcok := InitContactAssignments_ok_of_keys nbi hparts
  refine ⟨⟨hdok, ?_, ?_⟩, ⟨hcok, ?_, ?_⟩⟩
  · intro d hd name siteId hk
    rw [InitDevices_get2 hdok]
    apply lastWith_eq_some_of_unique hd (by simp [hk])
    intro a ha hpa
    exact eq_of_key_eq_of_pairwise hdev a ha d hd ((of_decide_eq_true hpa).trans hk.symm)
  · intro name siteId d h
    rw [InitDevices_get2 hdok] at h
    obtain ⟨hd, hp⟩ := lastWith_some h
    exact ⟨hd, of_decide_eq_true hp⟩
  · intro cA hc ct oid cid rid hk
    rw [InitContactAssignments_get4 hcok]
    apply lastWith_eq_some_of_unique hc (by simp [hk])
    intro a ha hpa
    exact eq_of_key_eq_of_pairwise hca a ha cA hc ((of_decide_eq_true hpa).trans hk.symm)
  · intro ct oid cid rid cA h
    rw [InitContactAssignments_get4 hcok] at h
    obtain ⟨hc, hp⟩ := lastWith_some h
    exact ⟨hc, of_decide_eq_true hp⟩

theorem index2Step_get2 {K J α : Type} [DecidableEq K] [DecidableEq J] (ssot : Tag)
    (k1 : α → Option K) (k2 : α → Option J) (obj : α → NetboxObject)
    (s : GoMap K (GoMap J α) × GoMap Int Bool) (r : α) (k : K) (j : J) :
    GoMap.get2 (index2Step ssot k1 k2 obj s r).1.1 k j
      = if key2 k1 k2 r = some (k, j) then some r else GoMap.get2 s.1 k j := by
  unfold index2Step key2
  cases h1 : k1 r with
  | none => simp
  | some a =>
    cases h2 : k2 r with
    | none => simp [GoMap.get2_ensure]
    | some b =>
      simp only [GoMap.get2_set2, GoMap.get2_ensure, Option.some.injEq, Prod.mk.injEq]
      by_cases hkj : k = a ∧ j = b
      · obtain ⟨rfl, rfl⟩ := hkj; simp
      · have hkj2 : ¬ (a = k ∧ b = j) := fun e => hkj ⟨e.1.symm, e.2.symm⟩
        simp [hkj, hkj2]

theorem index2Loop_key_sound {K J α : Type} [DecidableEq K] [DecidableEq J] (ssot : Tag)
    (k1 : α → Option K) (k2 : α → Option J) (obj : α → NetboxObject) (recs : List α)
    (s : GoMap K (GoMap J α) × GoMap Int Bool)
    (hs : ∀ k j e, GoMap.get2 s.1 k j = some e → key2 k1 k2 e = some (k, j)) :
    ∀ k j e, GoMap.get2 (index2Loop ssot k1 k2 obj recs s).1.1 k j = some e →
      key2 k1 k2 e = some (k, j) := by
  induction recs generalizing s with
  | nil => exact hs
  | cons r rest ih =>
    have hstep : ∀ k j e, GoMap.get2 (index2Step ssot k1 k2 obj s r).1.1 k j = some e →
        key2 k1 k2 e = some (k, j) := by
      intro k j e h
      rw [index2Step_get2] at h
      by_cases hk : key2 k1 k2 r = some (k, j)
      · rw [if_pos hk] at h
        cases h
        exact hk
      · rw [if_neg hk] at h
        exact hs k j e h
    rw [index2Loop]
    rcases hst : index2Step ssot k1 k2 obj s r with ⟨s1, o⟩
    rw [hst] at hstep
    cases o with
    | ok => exact ih s1 hstep
    | error e => exact hstep
    | fault => exact hstep

/-- C5: after InitInterfaces, InitVMInterfaces or InitDevices on any fetched list, every
entry stored in the index under a two-part key holds an entity whose own natural key is
that key; and one pass of the loop, which may create the inner map of a new first key
part, leaves every slot other than the record's own as it was. -/
theorem C5_entries_sit_under_their_own_key (nbi : NetboxInventory) :
    (∀ (recs : List Interface) (deviceId : Int) (name : String) (e : Interface),
      GoMap.get2 (InitInterfaces nbi (Except.ok recs)).1.InterfacesIndexByDeviceIdAndName
        deviceId name = some e → interfaceKey e = some (deviceId, name)) ∧
    (∀ (recs : List VMInterface) (vmId : Int) (name : String) (e : VMInterface),
      GoMap.get2 (InitVMInterfaces nbi (Except.ok recs)).1.VMInterfacesIndexByVMIdAndName
        vmId name = some e → vmInterfaceKey e = some (vmId, name)) ∧
    (∀ (recs : List Device) (name : String) (siteId : Int) (e : Device),
      GoMap.get2 (InitDevices nbi (Except.ok recs)).1.DevicesIndexByNameAndSiteId
        name siteId = some e → deviceKey e = some (name, siteId)) ∧
    (∀ (s : GoMap Int (GoMap String Interface) × GoMap Int Bool) (r : Interface)
        (deviceId : Int) (name : String), interfaceKey r ≠ some (deviceId, name) →
      GoMap.get2 (index2Step nbi.SsotTag (fun (i : Interface) => i.Device.map (fun d => d.Id))
        (fun i => some i.Name) (fun i => i.toNetboxObject) s r).1.1 deviceId name
        = GoMap.get2 s.1 deviceId name) ∧
    (∀ (s : GoMap Int (GoMap String VMInterface) × GoMap Int Bool) (r : VMInterface)
        (vmId : Int) (name : String), vmInterfaceKey r ≠ some (vmId, name) →
      GoMap.get2 (index2Step nbi.SsotTag (fun (i : VMInterface) => i.VM.map (fun v => v.Id))
        (fun i => some i.Name) (fun i => i.toNetboxObject) s r).1.1 vmId name
        = GoMap.get2 s.1 vmId name) ∧
    (∀ (s : GoMap String (GoMap Int Device) × GoMap Int Bool) (r : Device)
        (name : String) (siteId : Int), deviceKey r ≠ some (name, siteId) →
      GoMap.get2 (index2Step nbi.SsotTag (fun (d : Device) => some d.Name)
        (fun d => d.Site.map (fun s => s.Id)) (fun d => d.toNetboxObject) s r).1.1 name siteId
        = GoMap.get2 s.1 name siteId) := by
  refine ⟨?_, ?_, ?_, ?_, ?_, ?_⟩
  · intro recs deviceId name e h
    exact index2Loop_key_sound nbi.SsotTag _ _ _ recs (GoMap.empty, GoMap.empty)
      (by intro k j e h; simp at h) deviceId name e h
  · intro recs vmId name e h
    exact index2Loop_key_sound nbi.SsotTag _ _ _ recs (GoMap.empty, GoMap.empty)
      (by intro k j e h; simp at h) vmId name e h
  · intro recs name siteId e h
    exact index2Loop_key_sound nbi.SsotTag _ _ _ recs (GoMap.empty, GoMap.empty)
      (by intro k j e h; simp at h) name siteId e h
  · intro s r deviceId name hne
    rw [index2Step_get2]
    exact if_neg hne
  · intro s r vmId name hne
    rw [index2Step_get2]
    exact if_neg hne
  · intro s r name siteId hne
    rw [index2Step_get2]
    exact if_neg hne

/-- C4 at a concrete fetch: two devices of one name on two sites, and two contact
assignments that differ in the object id, are each stored under their own key. -/
theorem C4_index_holds_exactly_the_fetched_witness :
    GoMap.get2 (InitDevices (NetboxInventory.fresh exSsot) (Except.ok
      [exDevice 7 "h1" (some (exSite 1 "s1")) [], exDevice 8 "h1" (some (exSite 2 "s2")) []])).1.DevicesIndexByNameAndSiteId
      "h1" 2 = some (exDevice 8 "h1" (some (exSite 2 "s2")) []) ∧
    CAIndex.get4 (InitContactAssignments (NetboxInventory.fresh exSsot) (Except.ok
      [exCA 1 "dcim.device" 10 20 30 [], exCA 2 "dcim.device" 11 20 30 []])).1.ContactAssignmentsIndexByContentTypeAndObjectIdAndContactIdAndRoleId
      "dcim.device" 10 20 30 = some (exCA 1 "dcim.device" 10 20 30 []) :=
  have h := C4_index_holds_exactly_the_fetched (NetboxInventory.fresh exSsot)
    [exDevice 7 "h1" (some (exSite 1 "s1")) [], exDevice 8 "h1" (some (exSite 2 "s2")) []]
    [exCA 1 "dcim.device" 10 20 30 [], exCA 2 "dcim.device" 11 20 30 []]
    (fun d hd => by
      simp only [List.mem_cons, List.mem_singleton, List.not_mem_nil, or_false] at hd
      rcases hd with rfl | rfl
      · exact ⟨"h1", 1, rfl⟩
      · exact ⟨"h1", 2, rfl⟩)
    (by decide)
    (fun cA hc => by
      simp only [List.mem_cons, List.mem_singleton, List.not_mem_nil, or_false] at hc
      rcases hc with rfl | rfl
      · exact ⟨_, rfl⟩
      · exact ⟨_, rfl⟩)
    (by decide)
  ⟨h.1.2.1 _ (List.mem_cons_of_mem _ (List.mem_cons_self _ _)) "h1" 2 rfl,
   h.2.2.1 _ (List.mem_cons_self _ _) "dcim.device" 10 20 30 rfl⟩

/-- C5 at a concrete fetch: the device stored under ("h1", 2) has that key, and loading a
second device of the same name on another site left the first one under ("h1", 1). -/
theorem C5_entries_sit_under_their_own_key_witness :
    deviceKey (exDevice 8 "h1" (some (exSite 2 "s2")) []) = some ("h1", 2) ∧
    GoMap.get2 (InitDevices (NetboxInventory.fresh exSsot) (Except.ok
      [exDevice 7 "h1" (some (exSite 1 "s1")) [], exDevice 8 "h1" (some (exSite 2 "s2")) []])).1.DevicesIndexByNameAndSiteId
      "h1" 1 = some (exDevice 7 "h1" (some (exSite 1 "s1")) []) :=
  ⟨(C5_entries_sit_under_their_own_key (NetboxInventory.fresh exSsot)).2.2.1
      [exDevice 7 "h1" (some (exSite 1 "s1")) [], exDevice 8 "h1" (some (exSite 2 "s2")) []]
      "h1" 2 _ (by decide),
   by decide⟩

/-! ## Relation resolution in syncClusters and syncHosts -/

theorem SameSitesAndTenants.trans {a b c : NetboxInventory} (h1 : SameSitesAndTenants a b)
    (h2 : SameSitesAndTenants b c) : SameSitesAndTenants a c :=
  ⟨h1.1.trans h2.1, h1.2.trans h2.2⟩

theorem calls_append3 {α : Type} (a : List α) (x y z : α) :
    a ++ [x] ++ [y] ++ [z] = a ++ [x, y, z] := by simp

theorem calls_append4 {α : Type} (a : List α) (x y z w : α) :
    a ++ [x] ++ [y] ++ [z] ++ [w] = a ++ [x, y, z, w] := by simp

theorem calls_append5 {α : Type} (a : List α) (x y z w v : α) :
    a ++ [x] ++ [y] ++ [z] ++ [w] ++ [v] = a ++ [x, y, z, w, v] := by simp

theorem readCluster_eq_none {vc : VmwareSource} {k : String}
    (h : vc.readCluster k = none) :
    vc.Clusters.lookup k = none ∧ vc.Elems = MapElems.pointers := by
  unfold VmwareSource.readCluster at h
  cases hl : vc.Clusters.lookup k with
  | some c => simp [hl] at h
  | none =>
    cases he : vc.Elems with
    | pointers => exact ⟨rfl, rfl⟩
    | values => simp [hl, he] at h

theorem readDatacenter_of_lookup {vc : VmwareSource} {k : String} {dc : Datacenter}
    (h : vc.DataCenters.lookup k = some dc) : vc.readDatacenter k = some dc := by
  simp [VmwareSource.readDatacenter, h]

theorem readCluster_of_lookup {vc : VmwareSource} {k : String} {c : ClusterComputeResource}
    (h : vc.Clusters.lookup k = some c) : vc.readCluster k = some c := by
  simp [VmwareSource.readCluster, h]

theorem resolveRelation_of_noOverride {α : Type} {u : Utils} {relations : Option RegexPairs}
    {name : String} (index : GoMap String α) (errMatch : Error → Error)
    (errMissing : String → Error) (h : NoOverride u relations name) :
    resolveRelation u relations name index errMatch errMissing = Except.ok none := by
  rcases h with h | ⟨rel, hrel, hm⟩
  · simp [resolveRelation, h]
  · simp [resolveRelation, hrel, hm]

theorem syncClusters_body_submit (u : Utils) (up : Upsert) (vc : VmwareSource)
    (clusterType : ClusterType) (run : Run) (clusterId : String)
    (cluster : ClusterComputeResource) {dc : Datacenter} {site : Option Site}
    {tenant : Option Tenant}
    (hdc : vc.readDatacenter ((vc.Cluster2Datacenter clusterId).getD "") = some dc)
    (hs : clusterSiteOf u vc run.nbi cluster.Name = Except.ok site)
    (ht : clusterTenantOf u vc run.nbi cluster.Name = Except.ok tenant) :
    (syncClusters.body u up vc clusterType run clusterId cluster).1.calls
      = run.calls ++ [Call.AddCluster (nbClusterOf vc clusterType cluster.Name
          (run.nbi.ClusterGroupsIndexByName dc.Name) site tenant)] ∧
    ((syncClusters.body u up vc clusterType run clusterId cluster).2 = Outcome.ok
      ↔ (up.AddCluster run.nbi (nbClusterOf vc clusterType cluster.Name
          (run.nbi.ClusterGroupsIndexByName dc.Name) site tenant)).2 = none) := by
  unfold syncClusters.body nbClusterOf
  simp only [hdc, hs, ht]
  split
  next nbi1 err h => simp [h]
  next nbi1 h => simp [h]

theorem syncClusters_body_calls (u : Utils) (up : Upsert) (vc : VmwareSource)
    (clusterType : ClusterType) (run : Run) (clusterId : String)
    (cluster : ClusterComputeResource) :
    ∃ new, (syncClusters.body u up vc clusterType run clusterId cluster).1.calls
        = run.calls ++ new ∧
      ∀ cand, Call.AddCluster cand ∈ new → RelationsAsResolved u vc cand := by
  cases hdc : vc.readDatacenter ((vc.Cluster2Datacenter clusterId).getD "") with
  | none => exact ⟨[], by simp [syncClusters.body, hdc], by simp⟩
  | some dc =>
    cases hs : clusterSiteOf u vc run.nbi cluster.Name with
    | error e => exact ⟨[], by simp [syncClusters.body, hdc, hs], by simp⟩
    | ok site =>
      cases ht : clusterTenantOf u vc run.nbi cluster.Name with
      | error e => exact ⟨[], by simp [syncClusters.body, hdc, hs, ht], by simp⟩
      | ok tenant =>
        refine ⟨_, (syncClusters_body_submit u up vc clusterType run clusterId cluster
          hdc hs ht).1, ?_⟩
        intro cand hc
        simp only [List.mem_singleton, Call.AddCluster.injEq] at hc
        subst hc
        exact ⟨run.nbi, hs, ht⟩

theorem syncClusters_loop_calls (u : Utils) (up : Upsert) (vc : VmwareSource)
    (clusterType : ClusterType) (clusters : List (String × ClusterComputeResource))
    (run : Run) :
    ∃ new, (syncClusters.loop u up vc clusterType clusters run).1.calls = run.calls ++ new ∧
      ∀ cand, Call.AddCluster cand ∈ new → RelationsAsResolved u vc cand := by
  induction clusters generalizing run with
  | nil => exact ⟨[], by simp [syncClusters.loop], by simp⟩
  | cons p rest ih =>
    obtain ⟨clusterId, cluster⟩ := p
    obtain ⟨new1, b1, b2⟩ := syncClusters_body_calls u up vc clusterType run clusterId cluster
    rw [syncClusters.loop]
    rcases hb : syncClusters.body u up vc clusterType run clusterId cluster with ⟨run1, o⟩
    rw [hb] at b1
    simp only at b1
    cases o with
    | ok =>
      obtain ⟨new2, i1, i2⟩ := ih run1
      refine ⟨new1 ++ new2, ?_, ?_⟩
      · rw [i1, b1, List.append_assoc]
      · intro cand hc
        rcases List.mem_append.mp hc with hc | hc
        · exact b2 cand hc
        · exact i2 cand hc
    | error e => exact ⟨new1, b1, b2⟩
    | fault => exact ⟨new1, b1, b2⟩

theorem syncClusters_calls (u : Utils) (up : Upsert) (vc : VmwareSource) (nbi : NetboxInventory)
    (cand : Cluster) (hc : Call.AddCluster cand ∈ (syncClusters u up vc nbi).1.calls) :
    RelationsAsResolved u vc cand := by
  unfold syncClusters at hc
  simp only [] at hc
  split at hc
  next nbi1 err h => simp at hc
  next nbi1 clusterType1 h =>
    obtain ⟨new, l1, l2⟩ := syncClusters_loop_calls u up vc clusterType1 vc.Clusters
      { nbi := nbi1, calls := [Call.AddClusterType
        { Id := 0, Tags := vc.SourceTags, Description := "", Name := "vmware",
          Slug := "vmware" }] }
    rw [l1] at hc
    simp only [List.singleton_append, List.mem_cons, reduceCtorEq, false_or] at hc
    exact l2 cand hc

/-- C8: in syncClusters, when the rule collection of a relation is unset or the matcher
returns the empty label with no error, the relation block gives no error and leaves the
relation nil; one pass of the loop whose datacenter read, site block and tenant block all
succeed submits exactly one candidate, carrying the site and tenant the blocks gave, and
fails only if AddCluster fails; and every cluster candidate syncClusters submits has its
site (tenant) unset when the site (tenant) relation has no override for its name. -/
theorem C8_no_override_leaves_relation_unset (u : Utils) (up : Upsert) (vc : VmwareSource) :
    (∀ (nbi : NetboxInventory) (name : String),
      NoOverride u vc.ClusterSiteRelations name →
        clusterSiteOf u vc nbi name = Except.ok none) ∧
    (∀ (nbi : NetboxInventory) (name : String),
      NoOverride u vc.ClusterTenantRelations name →
        clusterTenantOf u vc nbi name = Except.ok none) ∧
    (∀ (clusterType : ClusterType) (run : Run) (clusterId : String)
        (cluster : ClusterComputeResource) (dc : Datacenter) (site : Option Site)
        (tenant : Option Tenant),
      vc.readDatacenter ((vc.Cluster2Datacenter clusterId).getD "") = some dc →
      clusterSiteOf u vc run.nbi cluster.Name = Except.ok site →
      clusterTenantOf u vc run.nbi cluster.Name = Except.ok tenant →
        (syncClusters.body u up vc clusterType run clusterId cluster).1.calls
          = run.calls ++ [Call.AddCluster (nbClusterOf vc clusterType cluster.Name
              (run.nbi.ClusterGroupsIndexByName dc.Name) site tenant)] ∧
        ((syncClusters.body u up vc clusterType run clusterId cluster).2 = Outcome.ok
          ↔ (up.AddCluster run.nbi (nbClusterOf vc clusterType cluster.Name
              (run.nbi.ClusterGroupsIndexByName dc.Name) site tenant)).2 = none)) ∧
    (∀ (nbi : NetboxInventory) (cand : Cluster),
      Call.AddCluster cand ∈ (syncClusters u up vc nbi).1.calls →
        (NoOverride u vc.ClusterSiteRelations cand.Name → cand.Site = none) ∧
        (NoOverride u vc.ClusterTenantRelations cand.Name → cand.Tenant = none)) := by
  refine ⟨?_, ?_, ?_, ?_⟩
  · intro nbi name h
    exact resolveRelation_of_noOverride _ _ _ h
  · intro nbi name h
    exact resolveRelation_of_noOverride _ _ _ h
  · intro clusterType run clusterId cluster dc site tenant hdc hs ht
    exact syncClusters_body_submit u up vc clusterType run clusterId cluster hdc hs ht
  · intro nbi cand hc
    obtain ⟨nbiX, hs, ht⟩ := syncClusters_calls u up vc nbi cand hc
    constructor
    · intro h
      have h2 : clusterSiteOf u vc nbiX cand.Name = Except.ok none :=
        resolveRelation_of_noOverride _ _ _ h
      rw [h2] at hs
      exact (Option.some.inj (congrArg Except.toOption hs)).symm
    · intro h
      have h2 : clusterTenantOf u vc nbiX cand.Name = Except.ok none :=
        resolveRelation_of_noOverride _ _ _ h
      rw [h2] at ht
      exact (Option.some.inj (congrArg Except.toOption ht)).symm

/-- C8 at a concrete source whose cluster rule collections are unset: syncClusters returns
no error and submits the cluster `web-cl` with neither site nor tenant. -/
theorem C8_no_override_leaves_relation_unset_witness :
    (syncClusters exUtils exUpsert exSourcePlain (NetboxInventory.fresh exSsot)).2 = Outcome.ok ∧
    Call.AddCluster (nbClusterOf exSourcePlain
        { Id := 0, Tags := [exSsot], Description := "", Name := "vmware", Slug := "vmware" }
        "web-cl" none none none)
      ∈ (syncClusters exUtils exUpsert exSourcePlain (NetboxInventory.fresh exSsot)).1.calls ∧
    (nbClusterOf exSourcePlain
        { Id := 0, Tags := [exSsot], Description := "", Name := "vmware", Slug := "vmware" }
        "web-cl" none none none).Site = none :=
  have hmem : Call.AddCluster (nbClusterOf exSourcePlain
        { Id := 0, Tags := [exSsot], Description := "", Name := "vmware", Slug := "vmware" }
        "web-cl" none none none)
      ∈ (syncClusters exUtils exUpsert exSourcePlain (NetboxInventory.fresh exSsot)).1.calls :=
    by decide
  ⟨by decide, hmem,
   ((C8_no_override_leaves_relation_unset exUtils exUpsert exSourcePlain).2.2.2
      (NetboxInventory.fresh exSsot) _ hmem).1 (Or.inl rfl)⟩

/-! ## The relation matcher and the rule collections -/

theorem regexpMatch_examples :
    regexpMatch "^web-.*" "web-01" = true ∧ regexpMatch "^web-.*" "db-01" = false ∧
    regexpMatch ".*" "db-01" = true ∧ regexpMatch ".*" "web-01" = true ∧
    regexpMatch "web" "my-web-01" = true ∧ regexpMatch "^web$" "web-01" = false := by
  decide

theorem ConvertStringsToRegexPairs_apply (rules : List Rule) (p : String) :
    ConvertStringsToRegexPairs rules p
      = (lastWith (fun r => decide (r.1 = p)) rules).map Prod.snd := by
  have gen : ∀ (l : List Rule) (m : RegexPairs),
      l.foldl (fun m r => GoMap.set m r.1 r.2) m p
        = ((lastWith (fun r => decide (r.1 = p)) l).map Prod.snd).or (m p) := by
    intro l
    induction l with
    | nil => intro m; simp [lastWith_nil]
    | cons r rest ih =>
      intro m
      rw [List.foldl_cons, ih, lastWith_cons]
      cases lastWith (fun r => decide (r.1 = p)) rest with
      | some x => simp
      | none =>
        by_cases h : r.1 = p
        · simp [h]
        · have h2 : p ≠ r.1 := fun e => h e.symm
          simp [h, GoMap.set_of_ne _ _ h2]
  unfold ConvertStringsToRegexPairs
  rw [gen]
  simp

theorem ConvertStringsToRegexPairs_perm {rules rules2 : List Rule} (hp : rules.Perm rules2)
    (hnd : (rules2.map Prod.fst).Nodup) :
    ConvertStringsToRegexPairs rules = ConvertStringsToRegexPairs rules2 := by
  funext p
  rw [ConvertStringsToRegexPairs_apply, ConvertStringsToRegexPairs_apply]
  congr 1
  apply lastWith_eq_of_unique (fun x => hp.mem_iff)
  intro a ha b hb hpa hpb
  have hab : a.1 = b.1 := (of_decide_eq_true hpa).trans (of_decide_eq_true hpb).symm
  exact List.inj_on_of_nodup_map hnd ha hb hab

theorem MatchStringToValue_first (rx : String → String → Bool) (name : String)
    (pre post : List Rule) (p l : String) (hpre : ∀ r ∈ pre, rx r.1 name = false)
    (hp : rx p name = true) : MatchStringToValue rx name (pre ++ (p, l) :: post) = l := by
  induction pre with
  | nil => simp [MatchStringToValue, hp]
  | cons r rest ih =>
    obtain ⟨q, k⟩ := r
    have hq : rx q name = false := hpre (q, k) (List.mem_cons_self _ _)
    simp only [List.cons_append, MatchStringToValue, hq, Bool.false_eq_true, if_false]
    exact ih (fun r hr => hpre r (List.mem_cons_of_mem _ hr))

theorem MatchStringToValue_none (rx : String → String → Bool) (name : String)
    (visited : List Rule) (h : ∀ r ∈ visited, rx r.1 name = false) :
    MatchStringToValue rx name visited = "" := by
  induction visited with
  | nil => rfl
  | cons r rest ih =>
    obtain ⟨q, k⟩ := r
    have hq : rx q name = false := h (q, k) (List.mem_cons_self _ _)
    simp only [MatchStringToValue, hq, Bool.false_eq_true, if_false]
    exact ih (fun r hr => h r (List.mem_cons_of_mem _ hr))

theorem MatchStringToValue_some (rx : String → String → Bool) (name : String)
    (visited : List Rule) (h : ∃ r ∈ visited, rx r.1 name = true) :
    ∃ r ∈ visited, rx r.1 name = true ∧ MatchStringToValue rx name visited = r.2 := by
  induction visited with
  | nil => simp at h
  | cons r rest ih =>
    obtain ⟨q, k⟩ := r
    by_cases hq : rx q name = true
    · exact ⟨(q, k), List.mem_cons_self _ _, hq, by simp [MatchStringToValue, hq]⟩
    · obtain ⟨x, hx, hrx⟩ := h
      rcases List.mem_cons.mp hx with rfl | hx
      · exact absurd hrx hq
      · obtain ⟨y, hy, hry, hres⟩ := ih ⟨x, hx, hrx⟩
        refine ⟨y, List.mem_cons_of_mem _ hy, hry, ?_⟩
        simp only [MatchStringToValue, hq, if_false]
        exact hres

theorem exRules_map (p : String) :
    ConvertStringsToRegexPairs exRules p
      = if p = ".*" then some "B" else if p = "^web-.*" then some "A" else none := by
  simp [ConvertStringsToRegexPairs, exRules, GoMap.set]

/-- C6, as the code has it: a source keeps the rules of a relation in a map from pattern
to label, which is the same map for every order of rules with distinct patterns, so the
configured order is not kept. The matcher decides by the first rule it visits whose
pattern matches. Whatever the order in which the map is visited, a name that no pattern
matches gets the empty label, and a name whose matching patterns all carry one label gets
that label; with the rules ("^web-.*", "A"), (".*", "B") the name "db-01" resolves to "B"
on every run and "web-01" resolves to "A" or to "B". -/
theorem C6_first_visited_match_decides :
    (∀ (rules rules2 : List Rule), rules.Perm rules2 → (rules2.map Prod.fst).Nodup →
      ConvertStringsToRegexPairs rules = ConvertStringsToRegexPairs rules2) ∧
    (∀ (rx : String → String → Bool) (name : String) (pre post : List Rule) (p l : String),
      (∀ r ∈ pre, rx r.1 name = false) → rx p name = true →
        MatchStringToValue rx name (pre ++ (p, l) :: post) = l) ∧
    (∀ (rx : String → String → Bool) (m : RegexPairs) (visited : List Rule) (name : String),
      IsRangeOf m visited → (∀ p l, m p = some l → rx p name = false) →
        MatchStringToValue rx name visited = "") ∧
    (∀ (rx : String → String → Bool) (m : RegexPairs) (visited : List Rule)
        (name label : String),
      IsRangeOf m visited → (∃ p, m p = some label ∧ rx p name = true) →
      (∀ p l, m p = some l → rx p name = true → l = label) →
        MatchStringToValue rx name visited = label) ∧
    (∀ visited : List Rule,
      IsRangeOf (OVirtSource.InitRelations exConfig).ClusterSiteRelations visited →
        MatchStringToValue regexpMatch "db-01" visited = "B" ∧
        (MatchStringToValue regexpMatch "web-01" visited = "A" ∨
         MatchStringToValue regexpMatch "web-01" visited = "B")) := by
  have hsome : ∀ (rx : String → String → Bool) (m : RegexPairs) (visited : List Rule)
      (name label : String), IsRangeOf m visited →
      (∃ p, m p = some label ∧ rx p name = true) →
      (∀ p l, m p = some l → rx p name = true → l = label) →
      MatchStringToValue rx name visited = label := by
    intro rx m visited name label hr ⟨p, hp, hrx⟩ hall
    obtain ⟨r, hrmem, hrr, hres⟩ := MatchStringToValue_some rx name visited
      ⟨(p, label), (hr.2 p label).mpr hp, hrx⟩
    rw [hres]
    exact hall r.1 r.2 ((hr.2 r.1 r.2).mp hrmem) hrr
  refine ⟨fun _ _ hp hnd => ConvertStringsToRegexPairs_perm hp hnd,
    MatchStringToValue_first, ?_, hsome, ?_⟩
  · intro rx m visited name hr hnone
    apply MatchStringToValue_none
    intro r hr2
    exact hnone r.1 r.2 ((hr.2 r.1 r.2).mp hr2)
  · intro visited hr
    have hr2 : IsRangeOf (ConvertStringsToRegexPairs exRules) visited := hr
    constructor
    · apply hsome regexpMatch _ visited "db-01" "B" hr2
      · exact ⟨".*", by rw [exRules_map]; simp, by decide⟩
      · intro p l hm hrx
        rw [exRules_map] at hm
        split_ifs at hm with h1 h2
        · exact (Option.some.inj hm).symm
        · subst h2
          exact absurd hrx (by decide)
    · obtain ⟨r, hrmem, -, hres⟩ := MatchStringToValue_some regexpMatch "web-01" visited
        ⟨(".*", "B"), (hr2.2 ".*" "B").mpr (by rw [exRules_map]; simp), by decide⟩
      have hm := (hr2.2 r.1 r.2).mp hrmem
      rw [exRules_map] at hm
      rw [hres]
      split_ifs at hm with h1 h2
      · exact Or.inr (Option.some.inj hm).symm
      · exact Or.inl (Option.some.inj hm).symm

theorem exRules_range_swapped :
    IsRangeOf (OVirtSource.InitRelations exConfig).ClusterSiteRelations
      [(".*", "B"), ("^web-.*", "A")] := by
  refine ⟨by decide, ?_⟩
  intro p l
  show _ ↔ ConvertStringsToRegexPairs exRules p = some l
  rw [exRules_map]
  simp only [List.mem_cons, Prod.mk.injEq, List.mem_singleton, List.not_mem_nil, or_false]
  constructor
  · rintro (⟨rfl, rfl⟩ | ⟨rfl, rfl⟩)
    · simp
    · simp
  · intro h
    split_ifs at h with h1 h2
    · exact Or.inl ⟨h1, (Option.some.inj h).symm⟩
    · exact Or.inr ⟨h2, (Option.some.inj h).symm⟩

/-- C6 at a concrete visit: when the map of the example rules is visited catch-all first,
"db-01" still resolves to "B". -/
theorem C6_first_visited_match_decides_witness :
    MatchStringToValue regexpMatch "db-01" [(".*", "B"), ("^web-.*", "A")] = "B" :=
  (C6_first_visited_match_decides.2.2.2.2 [(".*", "B"), ("^web-.*", "A")]
    exRules_range_swapped).1

/-- C6 fails: the collection a source holds for the rules ("^web-.*", "A"), (".*", "B") is
the collection it holds for the same rules in the other order, though the first matching
rule for "web-01" is "A" in one order and "B" in the other; and the map can be visited
catch-all first, in which case "web-01" resolves to "B", not to "A". -/
theorem C6_counterexample :
    (OVirtSource.InitRelations exConfig).ClusterSiteRelations
      = (OVirtSource.InitRelations exConfigSwapped).ClusterSiteRelations ∧
    MatchStringToValue regexpMatch "web-01" exConfig.ClusterSiteRelations = "A" ∧
    MatchStringToValue regexpMatch "web-01" exConfigSwapped.ClusterSiteRelations = "B" ∧
    IsRangeOf (OVirtSource.InitRelations exConfig).ClusterSiteRelations
      [(".*", "B"), ("^web-.*", "A")] ∧
    MatchStringToValue regexpMatch "web-01" [(".*", "B"), ("^web-.*", "A")] = "B" := by
  refine ⟨?_, by decide, by decide, exRules_range_swapped, by decide⟩
  exact ConvertStringsToRegexPairs_perm (List.Perm.swap _ _ _) (by decide)

/-! ## The run of main over the sources -/

theorem main_loop_ends_after_last_sync {Src : Type} (env : Env Src)
    (sources : List SourceConfig) (last : SourceConfig) (nbi : NetboxInventory)
    (calls : List Event)
    (h : (main.loop env (sources ++ [last]) nbi calls).failed = none) :
    ∃ src nbiBefore,
      (main.loop env (sources ++ [last]) nbi calls).inventory
        = some (env.SourceSync src nbiBefore).1 ∧
      (main.loop env (sources ++ [last]) nbi calls).calls.getLast?
        = some (Event.SourceSync last.Name) := by
  induction sources generalizing nbi calls with
  | nil =>
    simp only [List.nil_append, main.loop] at h ⊢
    split at h
    next nbi1 err h1 => simp at h
    next nbi1 source h1 =>
      try simp only [h1]
      split at h
      next s1 nbi2 err h2 => simp at h
      next source1 nbi2 h2 =>
        try simp only [h2]
        split at h
        next nbi3 err h3 => simp at h
        next nbi3 h3 =>
          try simp only [h3]
          exact ⟨source1, nbi2, by rw [h3], by simp⟩
  | cons sc rest ih =>
    simp only [List.cons_append, main.loop] at h ⊢
    split at h
    next nbi1 err h1 => simp at h
    next nbi1 source h1 =>
      try simp only [h1]
      split at h
      next s1 nbi2 err h2 => simp at h
      next source1 nbi2 h2 =>
        try simp only [h2]
        split at h
        next nbi3 err h3 => simp at h
        next nbi3 h3 =>
          try simp only [h3]
          exact ih nbi3 _ h

/-- C9, as the code has it: when every configured source has been synced without error,
main ends right after the last sync and performs no orphan sweep. The inventory it leaves,
index and orphan sets alike, is the one the last SourceSync returned, and that sync is the
last call main made; with no source configured it is the inventory Init returned. -/
theorem C9_run_ends_after_last_sync {Src : Type} (env : Env Src) (config : Config)
    (hcfg : env.ParseConfig = Except.ok config) (hok : (main env).failed = none) :
    (config.Sources = [] →
      (main env).inventory = some (env.Init (env.NewNetboxInventory config)).1 ∧
      (main env).calls.getLast? = some Event.InventoryInit) ∧
    (∀ (sources : List SourceConfig) (last : SourceConfig),
      config.Sources = sources ++ [last] →
      ∃ src nbiBefore,
        (main env).inventory = some (env.SourceSync src nbiBefore).1 ∧
        (main env).calls.getLast? = some (Event.SourceSync last.Name)) := by
  unfold main at hok ⊢
  simp only [hcfg] at hok ⊢
  split at hok
  next err h1 => simp at hok
  next h1 =>
    try simp only [h1]
    split at hok
    next nbi1 err h2 => simp at hok
    next nbi1 h2 =>
      try simp only [h2]
      constructor
      · intro hs
        rw [hs]
        simp [main.loop, h2]
      · intro sources last hs
        rw [hs] at hok ⊢
        exact main_loop_ends_after_last_sync env sources last nbi1 _ hok

/-- C9 at a concrete run: both sources sync without error, and main leaves the inventory
the last sync returned, the last call being the sync of `vmware-2`. -/
theorem C9_run_ends_after_last_sync_witness :
    ∃ src nbiBefore,
      (main (exEnv "")).inventory = some ((exEnv "").SourceSync src nbiBefore).1 ∧
      (main (exEnv "")).calls.getLast? = some (Event.SourceSync "vmware-2") :=
  (C9_run_ends_after_last_sync (exEnv "")
    { Sources := [exSourceConfig "vmware-1", exSourceConfig "vmware-2"] } rfl rfl).2
    [exSourceConfig "vmware-1"] (exSourceConfig "vmware-2") rfl

/-- C9 fails: every configured source is synced without error, the manufacturer with id 7
is still in the orphan set when the last sync returns, and main ends there: its last call
is that sync, 7 is still in the orphan set and the manufacturer is still in the index. -/
theorem C9_counterexample :
    (main (exEnv "")).failed = none ∧
    (main (exEnv "")).calls
      = [Event.ParseConfig, Event.NewLogger, Event.NewNetboxInventory, Event.InventoryInit,
         Event.NewSource "vmware-1", Event.SourceInit "vmware-1", Event.SourceSync "vmware-1",
         Event.NewSource "vmware-2", Event.SourceInit "vmware-2", Event.SourceSync "vmware-2"] ∧
    (main (exEnv "")).inventory.map
      (fun nbi => GoMap.has (orphanSet nbi ApiPath.ManufacturersApiPath) 7) = some true ∧
    (main (exEnv "")).inventory.map (fun nbi => nbi.ManufacturersIndexByName "Dell")
      = some (some (exManufacturer 7 "Dell" [exSsot])) := by
  refine ⟨by decide, by decide, by decide, by decide⟩

theorem main_loop_stops_at_error {Src : Type} (env : Env Src) (sources post : List SourceConfig)
    (nbi : NetboxInventory) (calls : List Event)
    (h : (main.loop env sources nbi calls).failed ≠ none) :
    main.loop env (sources ++ post) nbi calls = main.loop env sources nbi calls := by
  induction sources generalizing nbi calls with
  | nil => simp [main.loop] at h
  | cons sc rest ih =>
    simp only [List.cons_append, main.loop] at h ⊢
    split
    next nbi1 err h1 => rfl
    next nbi1 source h1 =>
      try simp only [h1] at h
      split
      next s1 nbi2 err h2 => rfl
      next source1 nbi2 h2 =>
        try simp only [h2] at h
        split
        next nbi3 err h3 => rfl
        next nbi3 h3 =>
          try simp only [h3] at h
          exact ih nbi3 _ h

/-- C10, as the code has it: in main's loop over the configured sources, when creating,
initialising or syncing one source returns an error, main ends: that source's remaining
work is abandoned and no source configured after it is processed, so the run is the same
whatever sources follow. -/
theorem C10_error_ends_the_run {Src : Type} (env : Env Src)
    (sources post : List SourceConfig) (nbi : NetboxInventory) (calls : List Event)
    (h : (main.loop env sources nbi calls).failed ≠ none) :
    main.loop env (sources ++ post) nbi calls = main.loop env sources nbi calls ∧
    (main.loop env (sources ++ post) nbi calls).failed ≠ none :=
  ⟨main_loop_stops_at_error env sources post nbi calls h,
   by rw [main_loop_stops_at_error env sources post nbi calls h]; exact h⟩

/-- C10 at a concrete run: the sync of `vmware-1` fails, and the run over `vmware-1`
followed by `vmware-2` makes the calls of the run over `vmware-1` alone. -/
theorem C10_error_ends_the_run_witness :
    (main.loop (exEnv "vmware-1") ([exSourceConfig "vmware-1"] ++ [exSourceConfig "vmware-2"])
      (NetboxInventory.fresh exSsot) []).calls
      = [Event.NewSource "vmware-1", Event.SourceInit "vmware-1", Event.SourceSync "vmware-1"] :=
  ((C10_error_ends_the_run (exEnv "vmware-1") [exSourceConfig "vmware-1"]
    [exSourceConfig "vmware-2"] (NetboxInventory.fresh exSsot) [] (by decide)).1 ▸
    (by decide :
      (main.loop (exEnv "vmware-1") [exSourceConfig "vmware-1"]
        (NetboxInventory.fresh exSsot) []).calls
        = [Event.NewSource "vmware-1", Event.SourceInit "vmware-1",
           Event.SourceSync "vmware-1"]))

/-- C10 fails: the sync of the first source `vmware-1` returns an error, and main makes no
call for the source `vmware-2` configured after it. -/
theorem C10_counterexample :
    (main (exEnv "vmware-1")).failed = some "sync failed" ∧
    (main (exEnv "vmware-1")).calls
      = [Event.ParseConfig, Event.NewLogger, Event.NewNetboxInventory, Event.InventoryInit,
         Event.NewSource "vmware-1", Event.SourceInit "vmware-1", Event.SourceSync "vmware-1"] ∧
    Event.NewSource "vmware-2" ∉ (main (exEnv "vmware-1")).calls ∧
    Event.SourceSync "vmware-2" ∉ (main (exEnv "vmware-1")).calls := by
  refine ⟨by decide, by decide, by decide, by decide⟩

/-! ## syncDatacenters -/

theorem syncDatacenters_loop_stops (u : Utils) (e : Engine) (vc : VmwareSource)
    (hostname : String) (dcs post : List (String × Datacenter)) (run : InvRun)
    (h : (syncDatacenters.loop u e vc hostname dcs run).2 ≠ Outcome.ok) :
    syncDatacenters.loop u e vc hostname (dcs ++ post) run
      = syncDatacenters.loop u e vc hostname dcs run := by
  induction dcs generalizing run with
  | nil => simp [syncDatacenters.loop] at h
  | cons p rest ih =>
    obtain ⟨id, dc⟩ := p
    simp only [List.cons_append, syncDatacenters.loop] at h ⊢
    split
    next nbi1 err h1 => rfl
    next nbi1 g h1 =>
      try simp only [h1] at h
      exact ih _ h

theorem syncDatacenters_loop_calls (u : Utils) (e : Engine) (vc : VmwareSource)
    (hostname : String) (dcs : List (String × Datacenter)) (run : InvRun) :
    ∃ new, (syncDatacenters.loop u e vc hostname dcs run).1.calls = run.calls ++ new ∧
      ∀ c ∈ new, ∃ p ∈ dcs, c = EngineCall.AddClusterGroup (nbClusterGroupOf u vc hostname p.2) := by
  induction dcs generalizing run with
  | nil => exact ⟨[], by simp [syncDatacenters.loop], by simp⟩
  | cons p rest ih =>
    obtain ⟨id, dc⟩ := p
    simp only [syncDatacenters.loop]
    split
    next nbi1 err h1 =>
      refine ⟨_, rfl, ?_⟩
      intro c hc
      simp only [List.mem_singleton] at hc
      exact ⟨(id, dc), List.mem_cons_self _ _, hc⟩
    next nbi1 g h1 =>
      obtain ⟨new, i1, i2⟩ := ih
        { nbi := nbi1, calls := run.calls
            ++ [EngineCall.AddClusterGroup (nbClusterGroupOf u vc hostname dc)] }
      refine ⟨EngineCall.AddClusterGroup (nbClusterGroupOf u vc hostname dc) :: new, ?_, ?_⟩
      · rw [i1]; simp
      · intro c hc
        rcases List.mem_cons.mp hc with rfl | hc
        · exact ⟨(id, dc), List.mem_cons_self _ _, rfl⟩
        · obtain ⟨p, hp, hcp⟩ := i2 c hc
          exact ⟨p, List.mem_cons_of_mem _ hp, hcp⟩

/-- C11, as the code has it: in syncDatacenters, when AddClusterGroup fails for one
datacenter the function returns an error at once. The run over the datacenters visited up
to the failing one is the whole run: the datacenters visited after it are not submitted
to AddClusterGroup. -/
theorem C11_cluster_group_failure_ends_the_sync (u : Utils) (e : Engine) (vc : VmwareSource)
    (hostname : String) (nbi : NetboxInventory) (dcs post : List (String × Datacenter))
    (hsplit : vc.DataCenters = dcs ++ post)
    (hfail : (syncDatacenters.loop u e vc hostname dcs { nbi := nbi, calls := [] }).2
      ≠ Outcome.ok) :
    syncDatacenters u e vc hostname nbi
      = syncDatacenters.loop u e vc hostname dcs { nbi := nbi, calls := [] } ∧
    (syncDatacenters u e vc hostname nbi).2 ≠ Outcome.ok ∧
    (∀ c ∈ (syncDatacenters u e vc hostname nbi).1.calls,
      ∃ p ∈ dcs, c = EngineCall.AddClusterGroup (nbClusterGroupOf u vc hostname p.2)) := by
  have heq : syncDatacenters u e vc hostname nbi
      = syncDatacenters.loop u e vc hostname dcs { nbi := nbi, calls := [] } := by
    unfold syncDatacenters
    rw [hsplit]
    exact syncDatacenters_loop_stops u e vc hostname dcs post _ hfail
  refine ⟨heq, by rw [heq]; exact hfail, ?_⟩
  rw [heq]
  obtain ⟨new, h1, h2⟩ := syncDatacenters_loop_calls u e vc hostname dcs
    { nbi := nbi, calls := [] }
  intro c hc
  rw [h1] at hc
  exact h2 c (by simpa using hc)

/-- C11 at a concrete source: AddClusterGroup rejects `DC1`, the first of two datacenters,
and the run over both datacenters is the run over `DC1` alone. -/
theorem C11_cluster_group_failure_ends_the_sync_witness :
    syncDatacenters exUtils (exEngine "DC1") exSourceTwoDatacenters "vcenter.local"
        (NetboxInventory.fresh exSsot)
      = syncDatacenters.loop exUtils (exEngine "DC1") exSourceTwoDatacenters "vcenter.local"
          [("dc-1", { Name := "DC1" })] { nbi := NetboxInventory.fresh exSsot, calls := [] } :=
  (C11_cluster_group_failure_ends_the_sync exUtils (exEngine "DC1") exSourceTwoDatacenters
    "vcenter.local" (NetboxInventory.fresh exSsot) [("dc-1", { Name := "DC1" })]
    [("dc-2", { Name := "DC2" })] rfl (by decide)).1

/-- C11 fails: AddClusterGroup rejects the datacenter `DC1`, visited first; syncDatacenters
returns an error and the datacenter `DC2` is never submitted to AddClusterGroup. -/
theorem C11_counterexample :
    (syncDatacenters exUtils (exEngine "DC1") exSourceTwoDatacenters "vcenter.local"
      (NetboxInventory.fresh exSsot)).2
      = Outcome.error "failed to add vmware datacenter DC1 as Netbox ClusterGroup: rejected" ∧
    (syncDatacenters exUtils (exEngine "DC1") exSourceTwoDatacenters "vcenter.local"
      (NetboxInventory.fresh exSsot)).1.calls
      = [EngineCall.AddClusterGroup
          (nbClusterGroupOf exUtils exSourceTwoDatacenters "vcenter.local" { Name := "DC1" })] ∧
    EngineCall.AddClusterGroup
        (nbClusterGroupOf exUtils exSourceTwoDatacenters "vcenter.local" { Name := "DC2" })
      ∉ (syncDatacenters exUtils (exEngine "DC1") exSourceTwoDatacenters "vcenter.local"
          (NetboxInventory.fresh exSsot)).1.calls := by
  refine ⟨by decide, by decide, by decide⟩

/-! ## Init and its order of steps -/

theorem runSteps_append (run : InitStep → NetboxInventory → NetboxInventory × Option Error)
    (pre rest : List InitStep) (nbi : NetboxInventory) (ran : List InitStep)
    (h : (runSteps run pre nbi ran).2 = none) :
    runSteps run (pre ++ rest) nbi ran
      = runSteps run rest (runSteps run pre nbi ran).1.1 (ran ++ pre) := by
  induction pre generalizing nbi ran with
  | nil => simp [runSteps]
  | cons s more ih =>
    simp only [List.cons_append, runSteps] at h ⊢
    split
    next nbi1 err h1 =>
      simp only [h1] at h
      simp at h
    next nbi1 h1 =>
      simp only [h1] at h
      have := ih nbi1 _ h
      simp only [List.append_assoc, List.singleton_append] at this
      exact this

/-- C12: if a step of Init returns an error after the steps before it returned none, Init
returns that error, has called the steps up to that one and no later step; and when the
inventory Init returns an error, main ends with that error, its last call being the
inventory Init: no source is created, initialised or synced. -/
theorem C12_init_error_is_fatal {Src : Type}
    (run : InitStep → NetboxInventory → NetboxInventory × Option Error) (env : Env Src)
    (config : Config) (nbi : NetboxInventory) (pre post : List InitStep) (step : InitStep)
    (err initErr : Error)
    (hsplit : NetBoxInventory.Init.steps = pre ++ step :: post)
    (hpre : (runSteps run pre nbi []).2 = none)
    (hstep : (run step (runSteps run pre nbi []).1.1).2 = some err)
    (hcfg : env.ParseConfig = Except.ok config) (hlog : env.NewLogger config = none)
    (hinit : (env.Init (env.NewNetboxInventory config)).2 = some initErr) :
    ((NetBoxInventory.Init run nbi).2 = some err ∧
     (NetBoxInventory.Init run nbi).1.2 = pre ++ [step] ∧
     (NetBoxInventory.Init run nbi).1.1 = (run step (runSteps run pre nbi []).1.1).1) ∧
    ((main env).failed = some initErr ∧
     (main env).calls = [Event.ParseConfig, Event.NewLogger, Event.NewNetboxInventory,
       Event.InventoryInit]) := by
  constructor
  · unfold NetBoxInventory.Init
    rw [hsplit, runSteps_append run pre _ nbi [] hpre]
    simp only [runSteps, List.nil_append]
    rcases hr : run step (runSteps run pre nbi []).1.1 with ⟨nbi2, r⟩
    rw [hr] at hstep
    simp only at hstep
    subst hstep
    simp
  · unfold main
    simp only [hcfg, hlog]
    rcases hr : env.Init (env.NewNetboxInventory config) with ⟨nbi2, r⟩
    rw [hr] at hinit
    simp only at hinit
    subst hinit
    simp

/-- C12 at a concrete run: the load of the sites fails; Init has called the first three
steps only, and main ends after the inventory Init. -/
theorem C12_init_error_is_fatal_witness :
    (NetBoxInventory.Init (exSteps (some InitStep.InitSites)) (NetboxInventory.fresh exSsot)).1.2
      = [InitStep.InitTags, InitStep.InitTenants] ++ [InitStep.InitSites] ∧
    (main (exEnvInit (some InitStep.InitSites))).calls
      = [Event.ParseConfig, Event.NewLogger, Event.NewNetboxInventory, Event.InventoryInit] :=
  have h := C12_init_error_is_fatal (exSteps (some InitStep.InitSites))
    (exEnvInit (some InitStep.InitSites))
    { Sources := [exSourceConfig "vmware-1", exSourceConfig "vmware-2"] }
    (NetboxInventory.fresh exSsot) [InitStep.InitTags, InitStep.InitTenants]
    [InitStep.InitDevices, InitStep.InitDeviceRoles, InitStep.InitServerDeviceRole,
     InitStep.InitCustomFields, InitStep.InitServerCustomFields, InitStep.InitClusterGroups,
     InitStep.InitClusterTypes, InitStep.InitClusters]
    InitStep.InitSites "load failed" "load failed" rfl rfl rfl rfl rfl rfl
  ⟨h.1.2.1, h.2.2⟩

/-- C13, as the code has it: Init loads the entity types in the fixed order tags, tenants,
sites, devices, device roles, custom fields, cluster groups, cluster types, clusters. Tags
come first, and every type other than devices is loaded only after every type its records
reference (clusters after cluster groups, cluster types, sites and tenants). Devices are
loaded after tags, sites and tenants, but before device roles and clusters, which device
records reference. -/
theorem C13_load_order :
    loadOrder = [EntityType.Tags, EntityType.Tenants, EntityType.Sites, EntityType.Devices,
      EntityType.DeviceRoles, EntityType.CustomFields, EntityType.ClusterGroups,
      EntityType.ClusterTypes, EntityType.Clusters] ∧
    loadOrder.head? = some EntityType.Tags ∧
    (∀ t ∈ loadOrder, t ≠ EntityType.Devices →
      ∀ r ∈ t.references, loadedBefore loadOrder r t = true) ∧
    loadedBefore loadOrder EntityType.Tags EntityType.Devices = true ∧
    loadedBefore loadOrder EntityType.Sites EntityType.Devices = true ∧
    loadedBefore loadOrder EntityType.Tenants EntityType.Devices = true ∧
    loadedBefore loadOrder EntityType.Devices EntityType.DeviceRoles = true ∧
    loadedBefore loadOrder EntityType.Devices EntityType.Clusters = true := by
  refine ⟨by decide, by decide, by decide, by decide, by decide, by decide, by decide,
    by decide⟩

/-- C13 fails: device records reference clusters and device roles, and Init loads the
devices before it loads either, so the sequence of loads is not in dependency order. -/
theorem C13_counterexample :
    EntityType.Clusters ∈ EntityType.Devices.references ∧
    loadedBefore loadOrder EntityType.Clusters EntityType.Devices = false ∧
    EntityType.DeviceRoles ∈ EntityType.Devices.references ∧
    loadedBefore loadOrder EntityType.DeviceRoles EntityType.Devices = false ∧
    ¬ DependencyOrdered loadOrder := by
  refine ⟨by decide, by decide, by decide, by decide, ?_⟩
  intro h
  exact absurd (h EntityType.Devices (by decide) EntityType.Clusters (by decide)) (by decide)

/-! ## InitVlans -/

theorem vlanKey_withDefaultGroup_none {dg : VlanGroup} {v : Vlan} (h : v.Group = none) :
    withDefaultGroup dg v = { v with Group := some dg } ∧
    vlanKey (withDefaultGroup dg v) = some (dg.Id, v.Vid) := by
  simp [withDefaultGroup, vlanKey, h]

theorem withDefaultGroup_some {dg grp : VlanGroup} {v : Vlan} (h : v.Group = some grp) :
    withDefaultGroup dg v = v ∧ vlanKey (withDefaultGroup dg v) = some (grp.Id, v.Vid) := by
  simp [withDefaultGroup, vlanKey, h]

theorem InitVlans_store_spec (run : InvRun) (v : Vlan) (grp : VlanGroup)
    (h : v.Group = some grp) :
    (InitVlans.store run v).2 = Outcome.ok ∧
    (InitVlans.store run v).1.calls = run.calls ∧
    (InitVlans.store run v).1.nbi.VlanGroupsIndexByName = run.nbi.VlanGroupsIndexByName ∧
    ∀ g vid, GoMap.get2 (InitVlans.store run v).1.nbi.VlansIndexByVlanGroupIdAndVid g vid
      = if vlanKey v = some (g, vid) then some v
        else GoMap.get2 run.nbi.VlansIndexByVlanGroupIdAndVid g vid := by
  unfold InitVlans.store
  simp only [h]
  refine ⟨trivial, trivial, trivial, ?_⟩
  intro g vid
  simp only [GoMap.get2_set2, GoMap.get2_ensure, vlanKey, h, Option.map_some',
    Option.some.injEq, Prod.mk.injEq]
  by_cases hk : g = grp.Id ∧ vid = v.Vid
  · obtain ⟨rfl, rfl⟩ := hk; simp
  · have hk2 : ¬ (grp.Id = g ∧ v.Vid = vid) := fun e => hk ⟨e.1.symm, e.2.symm⟩
    simp [hk, hk2]

theorem InitVlans_step_spec (names : ObjectNames) (e : Engine) (run : InvRun) (v : Vlan)
    (dg : VlanGroup)
    (hdg : run.nbi.VlanGroupsIndexByName names.DefaultVlanGroupName = some dg)
    (hret : e.AddVlanReturnsGiven) (hkeep : e.AddVlanKeepsOtherSlots) :
    (InitVlans.step names e run v).2 ≠ Outcome.fault ∧
    (InitVlans.step names e run v).1.nbi.VlanGroupsIndexByName
      = run.nbi.VlanGroupsIndexByName ∧
    ((InitVlans.step names e run v).2 = Outcome.ok →
      (InitVlans.step names e run v).1.calls = run.calls ++ upsertsOf dg [v] ∧
      ∀ g vid,
        GoMap.get2 (InitVlans.step names e run v).1.nbi.VlansIndexByVlanGroupIdAndVid g vid
          = if vlanKey (withDefaultGroup dg v) = some (g, vid)
            then some (withDefaultGroup dg v)
            else GoMap.get2 run.nbi.VlansIndexByVlanGroupIdAndVid g vid) := by
  cases hg : v.Group with
  | some grp =>
    obtain ⟨s1, s2, s3, s4⟩ := InitVlans_store_spec run v grp hg
    have hstep : InitVlans.step names e run v = InitVlans.store run v := by
      simp [InitVlans.step, hg]
    rw [hstep]
    refine ⟨by rw [s1]; simp, s3, fun _ => ⟨?_, ?_⟩⟩
    · rw [s2]; simp [upsertsOf, hg]
    · intro g vid
      rw [s4, (withDefaultGroup_some hg).1]
  | none =>
    obtain ⟨w1, w2⟩ := @vlanKey_withDefaultGroup_none dg _ hg
    have hv1 : ({ v with Group := run.nbi.VlanGroupsIndexByName names.DefaultVlanGroupName }
        : Vlan) = withDefaultGroup dg v := by
      rw [w1, hdg]
    obtain ⟨k1, k2⟩ := hkeep run.nbi (withDefaultGroup dg v)
    rcases hadd : e.AddVlan run.nbi (withDefaultGroup dg v) with ⟨nbi1, r⟩
    rw [hadd] at k1 k2
    simp only at k1 k2
    cases r with
    | error err =>
      have hstep : InitVlans.step names e run v
          = ({ nbi := nbi1, calls := run.calls
                ++ [EngineCall.AddVlan (withDefaultGroup dg v)] }, Outcome.error err) := by
        simp [InitVlans.step, hg, hv1, hadd]
      rw [hstep]
      exact ⟨by simp, k1, by simp⟩
    | ok w =>
      have hw : w = withDefaultGroup dg v := by
        apply hret run.nbi (withDefaultGroup dg v) w
        rw [hadd]
      subst hw
      have hgrp : (withDefaultGroup dg v).Group = some dg := by rw [w1]
      have hstep : InitVlans.step names e run v
          = InitVlans.store { nbi := nbi1, calls := run.calls
              ++ [EngineCall.AddVlan (withDefaultGroup dg v)] } (withDefaultGroup dg v) := by
        simp [InitVlans.step, hg, hv1, hadd]
      obtain ⟨s1, s2, s3, s4⟩ := InitVlans_store_spec
        { nbi := nbi1, calls := run.calls ++ [EngineCall.AddVlan (withDefaultGroup dg v)] }
        (withDefaultGroup dg v) dg hgrp
      rw [hstep]
      refine ⟨by rw [s1]; simp, s3.trans k1, fun _ => ⟨?_, ?_⟩⟩
      · rw [s2]; simp [upsertsOf, hg]
      · intro g vid
        rw [s4]
        by_cases hk : vlanKey (withDefaultGroup dg v) = some (g, vid)
        · simp [hk]
        · simp only [hk, if_false]
          exact k2 g vid hk

theorem upsertsOf_cons (dg : VlanGroup) (v : Vlan) (rest : List Vlan) :
    upsertsOf dg (v :: rest) = upsertsOf dg [v] ++ upsertsOf dg rest := by
  unfold upsertsOf
  cases h : v.Group.isNone <;> simp [List.filter_cons, h]

theorem InitVlans_loop_spec (names : ObjectNames) (e : Engine) (dg : VlanGroup)
    (hret : e.AddVlanReturnsGiven) (hkeep : e.AddVlanKeepsOtherSlots) (vlans : List Vlan)
    (run : InvRun)
    (hdg : run.nbi.VlanGroupsIndexByName names.DefaultVlanGroupName = some dg) :
    (InitVlans.loop names e vlans run).2 ≠ Outcome.fault ∧
    ((InitVlans.loop names e vlans run).2 = Outcome.ok →
      (InitVlans.loop names e vlans run).1.calls = run.calls ++ upsertsOf dg vlans ∧
      ∀ g vid,
        GoMap.get2 (InitVlans.loop names e vlans run).1.nbi.VlansIndexByVlanGroupIdAndVid g vid
          = (lastWith (fun v => decide (vlanKey v = some (g, vid)))
              (vlans.map (withDefaultGroup dg))).or
            (GoMap.get2 run.nbi.VlansIndexByVlanGroupIdAndVid g vid)) := by
  induction vlans generalizing run with
  | nil =>
    simp [InitVlans.loop, upsertsOf, lastWith_nil]
  | cons v rest ih =>
    obtain ⟨s1, s2, s3⟩ := InitVlans_step_spec names e run v dg hdg hret hkeep
    rw [InitVlans.loop]
    rcases hst : InitVlans.step names e run v with ⟨run1, o⟩
    rw [hst] at s1 s2 s3
    simp only at s1 s2 s3
    cases o with
    | fault => exact absurd rfl s1
    | error err => simp
    | ok =>
      obtain ⟨c1, c2⟩ := s3 rfl
      obtain ⟨i1, i2⟩ := ih run1 (by rw [s2]; exact hdg)
      refine ⟨i1, fun hok => ?_⟩
      obtain ⟨j1, j2⟩ := i2 hok
      refine ⟨?_, ?_⟩
      · show (InitVlans.loop names e rest run1).1.calls = _
        rw [j1, c1, List.append_assoc, ← upsertsOf_cons]
      · intro g vid
        show GoMap.get2 (InitVlans.loop names e rest run1).1.nbi.VlansIndexByVlanGroupIdAndVid
          g vid = _
        rw [j2, List.map_cons, lastWith_cons, c2]
        cases lastWith (fun v => decide (vlanKey v = some (g, vid)))
            (rest.map (withDefaultGroup dg)) with
        | some x => simp
        | none =>
          by_cases hk : vlanKey (withDefaultGroup dg v) = some (g, vid)
          · simp [hk]
          · simp [hk]

/-- C14, as the code has it: let the default VLAN group be in the VLAN-group index and let
AddVlan return the VLAN it was given, leave the VLAN-group index as it is and change no
slot of the VLAN index but that VLAN's own. Then InitVlans does not fault, and after a
successful InitVlans every indexed VLAN has a group and sits under (its group's id, its
VID); each slot holds the last fetched VLAN with that key, the default group filled in when
the VLAN had none; AddVlan was called for the VLANs without a group and for no other; and
when the keys of the fetched VLANs are pairwise distinct, every fetched VLAN that had no
group is indexed under (default group's id, its VID) and every VLAN that had a group under
its own (group id, VID). -/
theorem C14_vlans_indexed_under_group_and_vid (names : ObjectNames) (e : Engine)
    (nbi : NetboxInventory) (vlans : List Vlan) (dg : VlanGroup)
    (hdg : nbi.VlanGroupsIndexByName names.DefaultVlanGroupName = some dg)
    (hret : e.AddVlanReturnsGiven) (hkeep : e.AddVlanKeepsOtherSlots) :
    (InitVlans names e nbi (Except.ok vlans)).2 ≠ Outcome.fault ∧
    ((InitVlans names e nbi (Except.ok vlans)).2 = Outcome.ok →
      (∀ g vid v,
        GoMap.get2 (InitVlans names e nbi (Except.ok vlans)).1.nbi.VlansIndexByVlanGroupIdAndVid
          g vid = some v →
        ∃ grp, v.Group = some grp ∧ grp.Id = g ∧ v.Vid = vid) ∧
      (∀ g vid,
        GoMap.get2 (InitVlans names e nbi (Except.ok vlans)).1.nbi.VlansIndexByVlanGroupIdAndVid
          g vid
          = lastWith (fun v => decide (vlanKey v = some (g, vid)))
              (vlans.map (withDefaultGroup dg))) ∧
      (InitVlans names e nbi (Except.ok vlans)).1.calls = upsertsOf dg vlans ∧
      ((vlans.map (withDefaultGroup dg)).Pairwise (fun a b => vlanKey a ≠ vlanKey b) →
        (∀ v ∈ vlans, v.Group = none →
          GoMap.get2
            (InitVlans names e nbi (Except.ok vlans)).1.nbi.VlansIndexByVlanGroupIdAndVid
            dg.Id v.Vid = some { v with Group := some dg }) ∧
        (∀ v ∈ vlans, ∀ grp, v.Group = some grp →
          GoMap.get2
            (InitVlans names e nbi (Except.ok vlans)).1.nbi.VlansIndexByVlanGroupIdAndVid
            grp.Id v.Vid = some v))) := by
  obtain ⟨l1, l2⟩ := InitVlans_loop_spec names e dg hret hkeep vlans
    { nbi := { nbi with
        VlansIndexByVlanGroupIdAndVid := GoMap.empty
        OrphanManager := GoMap.set nbi.OrphanManager ApiPath.VlansApiPath GoMap.empty }
      calls := [] } hdg
  refine ⟨l1, fun hok => ?_⟩
  obtain ⟨c, g2⟩ := l2 hok
  have hget : ∀ g vid,
      GoMap.get2 (InitVlans names e nbi (Except.ok vlans)).1.nbi.VlansIndexByVlanGroupIdAndVid
        g vid
        = lastWith (fun v => decide (vlanKey v = some (g, vid)))
            (vlans.map (withDefaultGroup dg)) := by
    intro g vid
    have := g2 g vid
    simp only [GoMap.get2_empty, Option.or_none] at this
    exact this
  refine ⟨?_, hget, by simpa using c, ?_⟩
  · intro g vid v hv
    rw [hget] at hv
    obtain ⟨-, hp⟩ := lastWith_some hv
    have hk : vlanKey v = some (g, vid) := of_decide_eq_true hp
    unfold vlanKey at hk
    cases hgr : v.Group with
    | none => simp [hgr] at hk
    | some grp =>
      simp only [hgr, Option.map_some', Option.some.injEq, Prod.mk.injEq] at hk
      exact ⟨grp, rfl, hk.1, hk.2⟩
  · intro hpair
    constructor
    · intro v hv hg
      obtain ⟨w1, w2⟩ := @vlanKey_withDefaultGroup_none dg _ hg
      rw [hget, ← w1]
      apply lastWith_eq_some_of_unique (List.mem_map_of_mem _ hv) (by simp [w2])
      intro a ha hpa
      exact eq_of_key_eq_of_pairwise hpair a ha _ (List.mem_map_of_mem _ hv)
        ((of_decide_eq_true hpa).trans w2.symm)
    · intro v hv grp hg
      obtain ⟨w1, w2⟩ := @withDefaultGroup_some dg _ _ hg
      rw [hget]
      have hmem : v ∈ vlans.map (withDefaultGroup dg) := by
        rw [← w1]; exact List.mem_map_of_mem _ hv
      have hkv : vlanKey v = some (grp.Id, v.Vid) := by simp [vlanKey, hg]
      apply lastWith_eq_some_of_unique hmem (by simp [hkv])
      intro a ha hpa
      exact eq_of_key_eq_of_pairwise hpair a ha v hmem ((of_decide_eq_true hpa).trans hkv.symm)

theorem exEngine_addVlan (failing : String) :
    (exEngine failing).AddVlanReturnsGiven ∧ (exEngine failing).AddVlanKeepsOtherSlots :=
  ⟨fun _ _ _ h => (Except.ok.inj h).symm, fun _ _ => ⟨rfl, fun _ _ _ => rfl⟩⟩

/-- C14 at a concrete fetch: of a VLAN without a group (VID 100) and a VLAN of group 5
(VID 200), the first is stored with the default group under (9, 100) and the second under
(5, 200). -/
theorem C14_vlans_indexed_under_group_and_vid_witness :
    GoMap.get2 (InitVlans exNames (exEngine "") exInventoryWithDefaultGroup
        (Except.ok [exVlan 1 100 none,
          exVlan 2 200 (some (exVlanGroup 5 "g5"))])).1.nbi.VlansIndexByVlanGroupIdAndVid
      9 100 = some (exVlan 1 100 (some (exVlanGroup 9 exNames.DefaultVlanGroupName))) ∧
    GoMap.get2 (InitVlans exNames (exEngine "") exInventoryWithDefaultGroup
        (Except.ok [exVlan 1 100 none,
          exVlan 2 200 (some (exVlanGroup 5 "g5"))])).1.nbi.VlansIndexByVlanGroupIdAndVid
      5 200 = some (exVlan 2 200 (some (exVlanGroup 5 "g5"))) :=
  have h := (C14_vlans_indexed_under_group_and_vid exNames (exEngine "")
    exInventoryWithDefaultGroup
    [exVlan 1 100 none, exVlan 2 200 (some (exVlanGroup 5 "g5"))]
    (exVlanGroup 9 exNames.DefaultVlanGroupName) (by decide) (exEngine_addVlan "").1
    (exEngine_addVlan "").2).2 (by decide)
  ⟨(h.2.2.2 (by decide)).1 (exVlan 1 100 none) (List.mem_cons_self _ _) rfl,
   (h.2.2.2 (by decide)).2 (exVlan 2 200 (some (exVlanGroup 5 "g5")))
     (List.mem_cons_of_mem _ (List.mem_cons_self _ _)) (exVlanGroup 5 "g5") rfl⟩

/-- C14 fails: the default group is in the index and AddVlan returns the VLAN it was
given, yet of two fetched VLANs without a group that share the VID 100, only the later one
is indexed under (default group's id, 100) after a successful InitVlans. -/
theorem C14_counterexample :
    exInventoryWithDefaultGroup.VlanGroupsIndexByName exNames.DefaultVlanGroupName
      = some (exVlanGroup 9 exNames.DefaultVlanGroupName) ∧
    (exEngine "").AddVlanReturnsGiven ∧
    (InitVlans exNames (exEngine "") exInventoryWithDefaultGroup
      (Except.ok [exVlan 1 100 none, exVlan 2 100 none])).2 = Outcome.ok ∧
    GoMap.get2 (InitVlans exNames (exEngine "") exInventoryWithDefaultGroup
        (Except.ok [exVlan 1 100 none, exVlan 2 100 none])).1.nbi.VlansIndexByVlanGroupIdAndVid
      9 100 = some (exVlan 2 100 (some (exVlanGroup 9 exNames.DefaultVlanGroupName))) ∧
    GoMap.get2 (InitVlans exNames (exEngine "") exInventoryWithDefaultGroup
        (Except.ok [exVlan 1 100 none, exVlan 2 100 none])).1.nbi.VlansIndexByVlanGroupIdAndVid
      9 100 ≠ some (exVlan 1 100 (some (exVlanGroup 9 exNames.DefaultVlanGroupName))) := by
  refine ⟨by decide, (exEngine_addVlan "").1, by decide, by decide, by decide⟩

/-! ## The bootstrap functions -/

theorem InitSsotCustomFields_spec (e : Engine) (nbi : NetboxInventory) :
    (InitSsotCustomFields e nbi).1.calls
        <+: [EngineCall.AddCustomField hostCpuCoresField,
          EngineCall.AddCustomField hostMemoryField, EngineCall.AddCustomField sourceIdField] ∧
    ((InitSsotCustomFields e nbi).2 = Outcome.ok →
      (InitSsotCustomFields e nbi).1.calls
        = [EngineCall.AddCustomField hostCpuCoresField,
          EngineCall.AddCustomField hostMemoryField, EngineCall.AddCustomField sourceIdField]) ∧
    (∀ err, (InitSsotCustomFields e nbi).2 = Outcome.error err ↔
      (e.AddCustomField nbi hostCpuCoresField).2 = some err ∨
      ((e.AddCustomField nbi hostCpuCoresField).2 = none ∧
        (e.AddCustomField (e.AddCustomField nbi hostCpuCoresField).1 hostMemoryField).2
          = some err) ∨
      ((e.AddCustomField nbi hostCpuCoresField).2 = none ∧
        (e.AddCustomField (e.AddCustomField nbi hostCpuCoresField).1 hostMemoryField).2
          = none ∧
        (e.AddCustomField
          (e.AddCustomField (e.AddCustomField nbi hostCpuCoresField).1 hostMemoryField).1
          sourceIdField).2 = some err)) ∧
    (InitSsotCustomFields e nbi).2 ≠ Outcome.fault := by
  unfold InitSsotCustomFields
  rcases h1 : e.AddCustomField nbi hostCpuCoresField with ⟨nbi1, r1⟩
  cases r1 with
  | some e1 =>
    refine ⟨⟨[_, _], rfl⟩, by simp, ?_, by simp⟩
    intro err
    simp
  | none =>
    simp only
    rcases h2 : e.AddCustomField nbi1 hostMemoryField with ⟨nbi2, r2⟩
    cases r2 with
    | some e2 =>
      refine ⟨⟨[_], rfl⟩, by simp, ?_, by simp⟩
      intro err
      simp
    | none =>
      simp only
      rcases h3 : e.AddCustomField nbi2 sourceIdField with ⟨nbi3, r3⟩
      cases r3 with
      | some e3 =>
        refine ⟨⟨[], rfl⟩, by simp, ?_, by simp⟩
        intro err
        simp
      | none =>
        refine ⟨⟨[], rfl⟩, by simp, ?_, by simp⟩
        intro err
        simp

/-- C15: each bootstrap function makes no create call of its own. InitServerDeviceRole,
InitDefaultVlanGroup and InitAdminContactRole make exactly one call, the AddDeviceRole,
AddVlanGroup or AddContactRole of their candidate, and return an error if and only if that
call fails; InitSsotCustomFields makes only AddCustomField calls, for its three definitions
in order up to the first that fails, and returns an error if and only if one of the calls
it makes fails. -/
theorem C15_bootstrap_goes_through_upsert (names : ObjectNames) (u : Utils) (e : Engine)
    (nbi : NetboxInventory) :
    ((InitServerDeviceRole e nbi).1.calls = [EngineCall.AddDeviceRole serverDeviceRole] ∧
     (∀ err, (InitServerDeviceRole e nbi).2 = Outcome.error err ↔
        (e.AddDeviceRole nbi serverDeviceRole).2 = Except.error err) ∧
     (InitServerDeviceRole e nbi).2 ≠ Outcome.fault) ∧
    ((InitDefaultVlanGroup names u e nbi).1.calls
        = [EngineCall.AddVlanGroup (defaultVlanGroup names u nbi)] ∧
     ((∃ err, (InitDefaultVlanGroup names u e nbi).2 = Outcome.error err) ↔
        ∃ err, (e.AddVlanGroup nbi (defaultVlanGroup names u nbi)).2 = Except.error err) ∧
     (InitDefaultVlanGroup names u e nbi).2 ≠ Outcome.fault) ∧
    ((InitAdminContactRole names u e nbi).1.calls
        = [EngineCall.AddContactRole (adminContactRole names u)] ∧
     ((∃ err, (InitAdminContactRole names u e nbi).2 = Outcome.error err) ↔
        ∃ err, (e.AddContactRole nbi (adminContactRole names u)).2 = Except.error err) ∧
     (InitAdminContactRole names u e nbi).2 ≠ Outcome.fault) ∧
    ((InitSsotCustomFields e nbi).1.calls
        <+: [EngineCall.AddCustomField hostCpuCoresField,
          EngineCall.AddCustomField hostMemoryField, EngineCall.AddCustomField sourceIdField] ∧
     (∀ err, (InitSsotCustomFields e nbi).2 = Outcome.error err ↔
        (e.AddCustomField nbi hostCpuCoresField).2 = some err ∨
        ((e.AddCustomField nbi hostCpuCoresField).2 = none ∧
          (e.AddCustomField (e.AddCustomField nbi hostCpuCoresField).1 hostMemoryField).2
            = some err) ∨
        ((e.AddCustomField nbi hostCpuCoresField).2 = none ∧
          (e.AddCustomField (e.AddCustomField nbi hostCpuCoresField).1 hostMemoryField).2
            = none ∧
          (e.AddCustomField
            (e.AddCustomField (e.AddCustomField nbi hostCpuCoresField).1 hostMemoryField).1
            sourceIdField).2 = some err)) ∧
     (InitSsotCustomFields e nbi).2 ≠ Outcome.fault) ∧
    (∀ c, (c ∈ (InitServerDeviceRole e nbi).1.calls ∨
           c ∈ (InitDefaultVlanGroup names u e nbi).1.calls ∨
           c ∈ (InitAdminContactRole names u e nbi).1.calls ∨
           c ∈ (InitSsotCustomFields e nbi).1.calls) → c.isCreate = false) := by
  have hcf := InitSsotCustomFields_spec e nbi
  have h1 : (InitServerDeviceRole e nbi).1.calls = [EngineCall.AddDeviceRole serverDeviceRole] := by
    unfold InitServerDeviceRole
    rcases e.AddDeviceRole nbi serverDeviceRole with ⟨n, r⟩
    cases r <;> rfl
  have h2 : (InitDefaultVlanGroup names u e nbi).1.calls
      = [EngineCall.AddVlanGroup (defaultVlanGroup names u nbi)] := by
    unfold InitDefaultVlanGroup
    rcases e.AddVlanGroup nbi (defaultVlanGroup names u nbi) with ⟨n, r⟩
    cases r <;> rfl
  have h3 : (InitAdminContactRole names u e nbi).1.calls
      = [EngineCall.AddContactRole (adminContactRole names u)] := by
    unfold InitAdminContactRole
    rcases e.AddContactRole nbi (adminContactRole names u) with ⟨n, r⟩
    cases r <;> rfl
  refine ⟨⟨h1, ?_, ?_⟩, ⟨h2, ?_, ?_⟩, ⟨h3, ?_, ?_⟩, ⟨hcf.1, hcf.2.2.1, hcf.2.2.2⟩, ?_⟩
  · intro err
    unfold InitServerDeviceRole
    rcases e.AddDeviceRole nbi serverDeviceRole with ⟨n, r⟩
    cases r <;> simp
  · unfold InitServerDeviceRole
    rcases e.AddDeviceRole nbi serverDeviceRole with ⟨n, r⟩
    cases r <;> simp
  · unfold InitDefaultVlanGroup
    rcases e.AddVlanGroup nbi (defaultVlanGroup names u nbi) with ⟨n, r⟩
    cases r <;> simp
  · unfold InitDefaultVlanGroup
    rcases e.AddVlanGroup nbi (defaultVlanGroup names u nbi) with ⟨n, r⟩
    cases r <;> simp
  · unfold InitAdminContactRole
    rcases e.AddContactRole nbi (adminContactRole names u) with ⟨n, r⟩
    cases r <;> simp
  · unfold InitAdminContactRole
    rcases e.AddContactRole nbi (adminContactRole names u) with ⟨n, r⟩
    cases r <;> simp
  · intro c hc
    rw [h1, h2, h3] at hc
    rcases hc with hc | hc | hc | hc
    · simp only [List.mem_singleton] at hc; subst hc; rfl
    · simp only [List.mem_singleton] at hc; subst hc; rfl
    · simp only [List.mem_singleton] at hc; subst hc; rfl
    · have := hcf.1.subset hc
      simp only [List.mem_cons, List.mem_singleton, List.not_mem_nil, or_false] at this
      rcases this with rfl | rfl | rfl <;> rfl

/-- C20: the candidate InitDefaultVlanGroup submits to AddVlanGroup, its only call, has the
ssot tag of the inventory as its one tag, so it carries the ownership tag, and the range
MinVid = 1, MaxVid = 4094; every VLAN id v with 1 ≤ v ≤ 4094 lies inside that range. -/
theorem C20_default_vlan_group_spans_all_vids (names : ObjectNames) (u : Utils) (e : Engine)
    (nbi : NetboxInventory) :
    (InitDefaultVlanGroup names u e nbi).1.calls
      = [EngineCall.AddVlanGroup (defaultVlanGroup names u nbi)] ∧
    (defaultVlanGroup names u nbi).Tags = [nbi.SsotTag] ∧
    Owned nbi.SsotTag (defaultVlanGroup names u nbi).toNetboxObject ∧
    hasSsotTag nbi.SsotTag (defaultVlanGroup names u nbi).Tags = true ∧
    (defaultVlanGroup names u nbi).Name = names.DefaultVlanGroupName ∧
    (defaultVlanGroup names u nbi).MinVid = 1 ∧
    (defaultVlanGroup names u nbi).MaxVid = 4094 ∧
    (∀ v : Int, 1 ≤ v → v ≤ 4094 →
      (defaultVlanGroup names u nbi).MinVid ≤ v ∧ v ≤ (defaultVlanGroup names u nbi).MaxVid) := by
  have hown : Owned nbi.SsotTag (defaultVlanGroup names u nbi).toNetboxObject :=
    ⟨nbi.SsotTag, List.mem_singleton.mpr rfl, rfl⟩
  refine ⟨?_, rfl, hown, (hasSsotTag_iff _ _).mpr hown, rfl, rfl, rfl, fun v h1 h2 => ⟨h1, h2⟩⟩
  unfold InitDefaultVlanGroup
  rcases e.AddVlanGroup nbi (defaultVlanGroup names u nbi) with ⟨n, r⟩
  cases r <;> rfl

/-! ## The calls of a sync and the inventory they are made in -/

theorem replay_nil (up : Upsert) (nbi : NetboxInventory) : replay up nbi [] = nbi := rfl

theorem replay_concat (up : Upsert) (nbi : NetboxInventory) (calls : List Call) (c : Call) :
    replay up nbi (calls ++ [c]) = Call.apply up (replay up nbi calls) c := by
  simp [replay, List.foldl_append]

theorem allAfter_nil (Q : List Call → Call → Prop) : AllAfter Q [] := by
  intro pre c post h
  simp at h

theorem allAfter_concat {Q : List Call → Call → Prop} {calls : List Call} {c : Call}
    (h : AllAfter Q calls) (hc : Q calls c) : AllAfter Q (calls ++ [c]) := by
  intro pre x post hsplit
  rcases List.eq_nil_or_concat post with rfl | ⟨post1, y, rfl⟩
  · have h1 := List.append_inj_left' hsplit rfl
    have h2 := List.append_inj_right' hsplit rfl
    simp only [List.cons.injEq, and_true] at h2
    subst h1
    subst h2
    exact hc
  · have hs : calls ++ [c] = (pre ++ x :: post1) ++ [y] := by
      rw [hsplit]; simp
    have h1 := List.append_inj_left' hs rfl
    exact h pre x post1 h1

theorem resolveRelation_fromIndex {α : Type} {u : Utils} {relations : Option RegexPairs}
    {name : String} {index : GoMap String α} {errMatch : Error → Error}
    {errMissing : String → Error} {x : Option α}
    (h : resolveRelation u relations name index errMatch errMissing = Except.ok x) :
    FromIndex index x := by
  unfold resolveRelation at h
  split at h
  · exact Or.inl (Option.some.inj (congrArg Except.toOption h)).symm
  · split at h
    · cases h
    · split at h
      · split at h
        · cases h
        · next label _ hne hhas =>
          have hx : index label = x := Option.some.inj (congrArg Except.toOption h)
          cases hv : index label with
          | none => exact Or.inl (by rw [← hx, hv])
          | some v => exact Or.inr ⟨label, v, hv, by rw [← hx, hv]⟩
      · exact Or.inl (Option.some.inj (congrArg Except.toOption h)).symm

theorem fromIndex_lookup {α : Type} (index : GoMap String α) (k : String) :
    FromIndex index (index k) := by
  cases hv : index k with
  | none => exact Or.inl rfl
  | some v => exact Or.inr ⟨k, v, hv, rfl⟩

theorem syncClusters_body_step (u : Utils) (up : Upsert) (vc : VmwareSource)
    (clusterType : ClusterType) (run : Run) (clusterId : String)
    (cluster : ClusterComputeResource) :
    (syncClusters.body u up vc clusterType run clusterId cluster).1 = run ∨
    ∃ c, (syncClusters.body u up vc clusterType run clusterId cluster).1.calls
        = run.calls ++ [Call.AddCluster c] ∧
      (syncClusters.body u up vc clusterType run clusterId cluster).1.nbi
        = (up.AddCluster run.nbi c).1 ∧
      c.Typ = some clusterType ∧
      FromIndex run.nbi.ClusterGroupsIndexByName c.Group ∧
      FromIndex run.nbi.SitesIndexByName c.Site ∧
      FromIndex run.nbi.TenantsIndexByName c.Tenant := by
  cases hdc : vc.readDatacenter ((vc.Cluster2Datacenter clusterId).getD "") with
  | none => exact Or.inl (by simp [syncClusters.body, hdc])
  | some dc =>
    cases hs : clusterSiteOf u vc run.nbi cluster.Name with
    | error e => exact Or.inl (by simp [syncClusters.body, hdc, hs])
    | ok site =>
      cases ht : clusterTenantOf u vc run.nbi cluster.Name with
      | error e => exact Or.inl (by simp [syncClusters.body, hdc, hs, ht])
      | ok tenant =>
        refine Or.inr ⟨nbClusterOf vc clusterType cluster.Name
          (run.nbi.ClusterGroupsIndexByName dc.Name) site tenant,
          (syncClusters_body_submit u up vc clusterType run clusterId cluster hdc hs ht).1,
          ?_, rfl, fromIndex_lookup _ _, resolveRelation_fromIndex hs,
          resolveRelation_fromIndex ht⟩
        unfold syncClusters.body nbClusterOf
        simp only [hdc, hs, ht]
        split
        next nbi1 err h => simp [h]
        next nbi1 h => simp [h]

theorem syncClusters_loop_fromIndex (u : Utils) (up : Upsert) (vc : VmwareSource)
    (nbi0 : NetboxInventory) (clusterType : ClusterType)
    (clusters : List (String × ClusterComputeResource)) (run : Run)
    (hnbi : run.nbi = replay up nbi0 run.calls)
    (hall : AllAfter (fun pre c => ∀ cl, c = Call.AddCluster cl →
      ClusterFromIndex up nbi0 clusterType pre cl) run.calls) :
    AllAfter (fun pre c => ∀ cl, c = Call.AddCluster cl →
      ClusterFromIndex up nbi0 clusterType pre cl)
      (syncClusters.loop u up vc clusterType clusters run).1.calls := by
  induction clusters generalizing run with
  | nil => simpa [syncClusters.loop] using hall
  | cons p rest ih =>
    obtain ⟨clusterId, cluster⟩ := p
    have hstep := syncClusters_body_step u up vc clusterType run clusterId cluster
    rw [syncClusters.loop]
    rcases hb : syncClusters.body u up vc clusterType run clusterId cluster with ⟨run1, o⟩
    rw [hb] at hstep
    simp only at hstep
    have hrun1 : run1.nbi = replay up nbi0 run1.calls ∧
        AllAfter (fun pre c => ∀ cl, c = Call.AddCluster cl →
          ClusterFromIndex up nbi0 clusterType pre cl) run1.calls := by
      rcases hstep with h | ⟨c, h1, h2, h3, h4, h5, h6⟩
      · rw [h]; exact ⟨hnbi, hall⟩
      · constructor
        · rw [h1, replay_concat, ← hnbi, h2]; rfl
        · rw [h1]
          refine allAfter_concat hall ?_
          intro cl hcl
          cases hcl
          exact ⟨h3, by rw [← hnbi]; exact h4, by rw [← hnbi]; exact h5,
            by rw [← hnbi]; exact h6⟩
    cases o with
    | ok => exact ih run1 hrun1.1 hrun1.2
    | error e => exact hrun1.2
    | fault => exact hrun1.2

/-- C16: every cluster candidate syncClusters submits has as its type the cluster type
AddClusterType returned, and has its group, its site and its tenant each unset or equal to
an entity stored in the index of the inventory in which the candidate is submitted (the
inventory the calls made before it have left); when AddClusterType fails, the call to
AddClusterType is the only call made and no cluster is submitted. -/
theorem C16_cluster_relations_come_from_the_index (u : Utils) (up : Upsert)
    (vc : VmwareSource) (nbi : NetboxInventory) :
    (∀ pre c post, (syncClusters u up vc nbi).1.calls = pre ++ Call.AddCluster c :: post →
      (∃ ct, (up.AddClusterType nbi (vmwareClusterType vc)).2 = Except.ok ct ∧
        c.Typ = some ct) ∧
      FromIndex (replay up nbi pre).ClusterGroupsIndexByName c.Group ∧
      FromIndex (replay up nbi pre).SitesIndexByName c.Site ∧
      FromIndex (replay up nbi pre).TenantsIndexByName c.Tenant) ∧
    ((∃ err, (up.AddClusterType nbi (vmwareClusterType vc)).2 = Except.error err) →
      (syncClusters u up vc nbi).1.calls = [Call.AddClusterType (vmwareClusterType vc)] ∧
      (∀ c, Call.AddCluster c ∉ (syncClusters u up vc nbi).1.calls) ∧
      (syncClusters u up vc nbi).2 ≠ Outcome.ok) := by
  constructor
  · intro pre c post hsplit
    unfold syncClusters at hsplit
    simp only [] at hsplit
    split at hsplit
    next nbi1 err h =>
      rcases pre with _ | ⟨x, pre⟩
      · simp at hsplit
      · simp at hsplit
    next nbi1 clusterType1 h =>
      have h : up.AddClusterType nbi (vmwareClusterType vc) = (nbi1, Except.ok clusterType1) := h
      have hall := syncClusters_loop_fromIndex u up vc nbi clusterType1 vc.Clusters
        { nbi := nbi1, calls := [Call.AddClusterType (vmwareClusterType vc)] }
        (by
          show nbi1 = replay up nbi [Call.AddClusterType (vmwareClusterType vc)]
          simp [replay, Call.apply, h])
        (by
          have := allAfter_concat (allAfter_nil (fun pre c => ∀ cl, c = Call.AddCluster cl →
            ClusterFromIndex up nbi clusterType1 pre cl))
            (c := Call.AddClusterType (vmwareClusterType vc)) (by intro cl hcl; cases hcl)
          simpa using this)
      obtain ⟨t1, t2, t3, t4⟩ := hall pre (Call.AddCluster c) post hsplit c rfl
      exact ⟨⟨clusterType1, by
        show (up.AddClusterType nbi (vmwareClusterType vc)).2 = _
        rw [h], t1⟩, t2, t3, t4⟩
  · rintro ⟨err, herr⟩
    have hc : (syncClusters u up vc nbi).1.calls = [Call.AddClusterType (vmwareClusterType vc)] ∧
        (syncClusters u up vc nbi).2 ≠ Outcome.ok := by
      unfold syncClusters
      simp only []
      rcases h : up.AddClusterType nbi (vmwareClusterType vc) with ⟨nbi1, r⟩
      rw [h] at herr
      simp only at herr
      subst herr
      have h2 : up.AddClusterType nbi
          { Id := 0, Tags := vc.SourceTags, Description := "", Name := "vmware",
            Slug := "vmware" } = (nbi1, Except.error err) := h
      simp only [h2]
      exact ⟨rfl, by simp⟩
    refine ⟨hc.1, ?_, hc.2⟩
    intro c hmem
    rw [hc.1] at hmem
    simp at hmem

/-- C16 at a concrete source: in an inventory that holds the site `dc-east` and the cluster
group `DC1`, syncClusters submits the cluster `web-cl` with that site and that group after
the cluster type, and both are entities of the indexes. -/
theorem C16_cluster_relations_come_from_the_index_witness :
    (syncClusters exUtils exUpsert exSource exInventoryLoaded).1.calls
      = [Call.AddClusterType (vmwareClusterType exSource),
         Call.AddCluster (nbClusterOf exSource (vmwareClusterType exSource) "web-cl"
          (some { Id := 4, Tags := [], Description := "", Name := "DC1", Slug := "dc1" })
          (some (exSite 3 "dc-east")) none)] ∧
    FromIndex exInventoryLoaded.ClusterGroupsIndexByName
      (some { Id := 4, Tags := [], Description := "", Name := "DC1", Slug := "dc1" }) ∧
    FromIndex exInventoryLoaded.SitesIndexByName (some (exSite 3 "dc-east")) :=
  have hcalls : (syncClusters exUtils exUpsert exSource exInventoryLoaded).1.calls
      = [Call.AddClusterType (vmwareClusterType exSource)]
        ++ Call.AddCluster (nbClusterOf exSource (vmwareClusterType exSource) "web-cl"
          (some { Id := 4, Tags := [], Description := "", Name := "DC1", Slug := "dc1" })
          (some (exSite 3 "dc-east")) none) :: [] := by decide
  have h := (C16_cluster_relations_come_from_the_index exUtils exUpsert exSource
    exInventoryLoaded).1 _ _ _ hcalls
  ⟨hcalls, h.2.1, h.2.2.1⟩

theorem replay_step {up : Upsert} {nbi0 nbi nbi1 : NetboxInventory} {calls : List Call}
    (c : Call) (hnbi : nbi = replay up nbi0 calls) (h : Call.apply up nbi c = nbi1) :
    nbi1 = replay up nbi0 (calls ++ [c]) := by
  rw [replay_concat, ← hnbi, h]

theorem chain_AddManufacturer {up : Upsert} {nbi0 nbi nbi1 : NetboxInventory}
    {calls : List Call} {m : Manufacturer} {r : Except Error Manufacturer}
    (hnbi : nbi = replay up nbi0 calls) (h : up.AddManufacturer nbi m = (nbi1, r))
    (hall : AllAfter (fun pre c => ∀ d, c = Call.AddDevice d →
      DeviceAfterChain up nbi0 pre d) calls) :
    nbi1 = replay up nbi0 (calls ++ [Call.AddManufacturer m]) ∧
    AllAfter (fun pre c => ∀ d, c = Call.AddDevice d → DeviceAfterChain up nbi0 pre d)
      (calls ++ [Call.AddManufacturer m]) :=
  ⟨replay_step _ hnbi (by simp [Call.apply, h]),
   allAfter_concat hall (by intro d hd; cases hd)⟩

theorem chain_AddDeviceType {up : Upsert} {nbi0 nbi nbi1 : NetboxInventory}
    {calls : List Call} {t : DeviceType} {r : Except Error DeviceType}
    (hnbi : nbi = replay up nbi0 calls) (h : up.AddDeviceType nbi t = (nbi1, r))
    (hall : AllAfter (fun pre c => ∀ d, c = Call.AddDevice d →
      DeviceAfterChain up nbi0 pre d) calls) :
    nbi1 = replay up nbi0 (calls ++ [Call.AddDeviceType t]) ∧
    AllAfter (fun pre c => ∀ d, c = Call.AddDevice d → DeviceAfterChain up nbi0 pre d)
      (calls ++ [Call.AddDeviceType t]) :=
  ⟨replay_step _ hnbi (by simp [Call.apply, h]),
   allAfter_concat hall (by intro d hd; cases hd)⟩

theorem chain_AddPlatform {up : Upsert} {nbi0 nbi nbi1 : NetboxInventory}
    {calls : List Call} {p : Platform} {r : Except Error Platform}
    (hnbi : nbi = replay up nbi0 calls) (h : up.AddPlatform nbi p = (nbi1, r))
    (hall : AllAfter (fun pre c => ∀ d, c = Call.AddDevice d →
      DeviceAfterChain up nbi0 pre d) calls) :
    nbi1 = replay up nbi0 (calls ++ [Call.AddPlatform p]) ∧
    AllAfter (fun pre c => ∀ d, c = Call.AddDevice d → DeviceAfterChain up nbi0 pre d)
      (calls ++ [Call.AddPlatform p]) :=
  ⟨replay_step _ hnbi (by simp [Call.apply, h]),
   allAfter_concat hall (by intro d hd; cases hd)⟩

theorem chain_syncHostNics {up : Upsert} {nbi0 nbi nbi1 : NetboxInventory}
    {calls : List Call} {host : HostSystem} {d0 : Device} {r : Option Error}
    (hnbi : nbi = replay up nbi0 calls) (h : up.syncHostNics nbi host d0 = (nbi1, r))
    (hall : AllAfter (fun pre c => ∀ d, c = Call.AddDevice d →
      DeviceAfterChain up nbi0 pre d) calls) :
    nbi1 = replay up nbi0 (calls ++ [Call.syncHostNics host d0]) ∧
    AllAfter (fun pre c => ∀ d, c = Call.AddDevice d → DeviceAfterChain up nbi0 pre d)
      (calls ++ [Call.syncHostNics host d0]) :=
  ⟨replay_step _ hnbi (by simp [Call.apply, h]),
   allAfter_concat hall (by intro d hd; cases hd)⟩

theorem replay_AddDevice {up : Upsert} {nbi0 nbi nbi1 : NetboxInventory}
    {calls : List Call} {d : Device} {r : Except Error Device}
    (hnbi : nbi = replay up nbi0 calls) (h : up.AddDevice nbi d = (nbi1, r)) :
    nbi1 = replay up nbi0 (calls ++ [Call.AddDevice d]) :=
  replay_step _ hnbi (by simp [Call.apply, h])

theorem chain_AddDevice {up : Upsert} {nbi0 nbi nbi1 nbi2 nbi3 : NetboxInventory}
    {pre0 : List Call} {m hm : Manufacturer} {t ht : DeviceType} {p hp : Platform} {d : Device}
    (hnbi : nbi = replay up nbi0 pre0)
    (h1 : up.AddManufacturer nbi m = (nbi1, Except.ok hm))
    (h2 : up.AddDeviceType nbi1 t = (nbi2, Except.ok ht))
    (h3 : up.AddPlatform nbi2 p = (nbi3, Except.ok hp))
    (a3 : AllAfter (fun pre c => ∀ d, c = Call.AddDevice d → DeviceAfterChain up nbi0 pre d)
      (pre0 ++ [Call.AddManufacturer m] ++ [Call.AddDeviceType t] ++ [Call.AddPlatform p]))
    (g0 : t.Manufacturer = some hm) (g1 : d.DeviceType = some ht)
    (g2 : d.Platform = some hp) (g3 : d.DeviceRole = nbi3.DeviceRolesIndexByName "Server")
    (g4 : d.CustomFields.map Prod.fst = ["host_cpu_cores", "host_memory"]) :
    AllAfter (fun pre c => ∀ d, c = Call.AddDevice d → DeviceAfterChain up nbi0 pre d)
      (pre0 ++ [Call.AddManufacturer m] ++ [Call.AddDeviceType t] ++ [Call.AddPlatform p]
        ++ [Call.AddDevice d]) := by
  have e1 : nbi1 = replay up nbi0 (pre0 ++ [Call.AddManufacturer m]) :=
    replay_step _ hnbi (by simp [Call.apply, h1])
  have e2 : nbi2 = replay up nbi0 (pre0 ++ [Call.AddManufacturer m] ++ [Call.AddDeviceType t]) :=
    replay_step _ e1 (by simp [Call.apply, h2])
  have e3 : nbi3 = replay up nbi0
      (pre0 ++ [Call.AddManufacturer m] ++ [Call.AddDeviceType t] ++ [Call.AddPlatform p]) :=
    replay_step _ e2 (by simp [Call.apply, h3])
  refine allAfter_concat a3 ?_
  intro d1 hd
  cases hd
  exact ⟨pre0, m, t, p, hm, ht, hp, rfl, by rw [← hnbi, h1], g0, by rw [← e1, h2],
    by rw [← e2, h3], g1, g2, by rw [← e3]; exact g3, g4⟩

theorem syncHosts_body_chain (u : Utils) (up : Upsert) (vc : VmwareSource)
    (nbi0 : NetboxInventory) (run : Run) (hostId : String) (host : HostSystem)
    (hnbi : run.nbi = replay up nbi0 run.calls)
    (hall : AllAfter (fun pre c => ∀ d, c = Call.AddDevice d →
      DeviceAfterChain up nbi0 pre d) run.calls) :
    (syncHosts.body u up vc run hostId host).1.nbi
      = replay up nbi0 (syncHosts.body u up vc run hostId host).1.calls ∧
    AllAfter (fun pre c => ∀ d, c = Call.AddDevice d → DeviceAfterChain up nbi0 pre d)
      (syncHosts.body u up vc run hostId host).1.calls := by
  unfold syncHosts.body
  simp only []
  split
  next hl => exact ⟨hnbi, hall⟩
  next cluster hl =>
    split
    next e hs => exact ⟨hnbi, hall⟩
    next hostSite hs =>
      split
      next e ht => exact ⟨hnbi, hall⟩
      next hostTenant ht =>
        split
        next nbi1 e h1 => exact chain_AddManufacturer hnbi h1 hall
        next nbi1 hostManufacturer h1 =>
          obtain ⟨e1, a1⟩ := chain_AddManufacturer hnbi h1 hall
          split
          next nbi2 e h2 => exact chain_AddDeviceType e1 h2 a1
          next nbi2 hostDeviceType h2 =>
            obtain ⟨e2, a2⟩ := chain_AddDeviceType e1 h2 a1
            split
            next nbi3 e h3 => exact chain_AddPlatform e2 h3 a2
            next nbi3 hostPlatform h3 =>
              obtain ⟨e3, a3⟩ := chain_AddPlatform e2 h3 a2
              split
              next nbi4 e h4 =>
                exact ⟨replay_AddDevice e3 h4, chain_AddDevice hnbi h1 h2 h3 a3 (by rfl) (by rfl)
                  (by rfl) (by rfl) (by rfl)⟩
              next nbi4 nbHost1 h4 =>
                have e4 := replay_AddDevice e3 h4
                split
                next nbi5 e h5 =>
                  exact chain_syncHostNics e4 h5 (chain_AddDevice hnbi h1 h2 h3 a3 (by rfl)
                    (by rfl) (by rfl) (by rfl) (by rfl))
                next nbi5 h5 =>
                  exact chain_syncHostNics e4 h5 (chain_AddDevice hnbi h1 h2 h3 a3 (by rfl)
                    (by rfl) (by rfl) (by rfl) (by rfl))

theorem syncHosts_loop_chain (u : Utils) (up : Upsert) (vc : VmwareSource)
    (nbi0 : NetboxInventory) (hosts : List (String × HostSystem)) (run : Run)
    (hnbi : run.nbi = replay up nbi0 run.calls)
    (hall : AllAfter (fun pre c => ∀ d, c = Call.AddDevice d →
      DeviceAfterChain up nbi0 pre d) run.calls) :
    AllAfter (fun pre c => ∀ d, c = Call.AddDevice d → DeviceAfterChain up nbi0 pre d)
      (syncHosts.loop u up vc hosts run).1.calls := by
  induction hosts generalizing run with
  | nil => simpa [syncHosts.loop] using hall
  | cons p rest ih =>
    obtain ⟨hostId, host⟩ := p
    have hstep := syncHosts_body_chain u up vc nbi0 run hostId host hnbi hall
    rw [syncHosts.loop]
    rcases hb : syncHosts.body u up vc run hostId host with ⟨run1, o⟩
    rw [hb] at hstep
    simp only at hstep
    cases o with
    | ok => exact ih run1 hstep.1 hstep.2
    | error e => exact hstep.2
    | fault => exact hstep.2

theorem syncHosts_chain (u : Utils) (up : Upsert) (vc : VmwareSource) (nbi : NetboxInventory)
    (pre : List Call) (d : Device) (post : List Call)
    (h : (syncHosts u up vc nbi).1.calls = pre ++ Call.AddDevice d :: post) :
    DeviceAfterChain up nbi pre d :=
  syncHosts_loop_chain u up vc nbi vc.Hosts { nbi := nbi, calls := [] } rfl
    (allAfter_nil _) pre (Call.AddDevice d) post h d rfl

theorem syncHosts_chain_of_mem (u : Utils) (up : Upsert) (vc : VmwareSource)
    (nbi : NetboxInventory) (d : Device)
    (h : Call.AddDevice d ∈ (syncHosts u up vc nbi).1.calls) :
    ∃ pre, DeviceAfterChain up nbi pre d := by
  obtain ⟨pre, post, hsplit⟩ := List.append_of_mem h
  exact ⟨pre, syncHosts_chain u up vc nbi pre d post hsplit⟩

/-! ## The custom fields and the role of a host -/

/-- C18: InitSsotCustomFields submits its definitions in the order host_cpu_cores,
host_memory, source_id, stopping at the first AddCustomField that fails, so that all three
and no other are submitted whenever the first two calls succeed, as in every run that
returns no error; host_cpu_cores and host_memory are defined for the content type
dcim.device and source_id for dcim.interface. Every device candidate syncHosts submits has
the custom-field keys host_cpu_cores and host_memory, and each key is the name of a
definition submitted for dcim.device. -/
theorem C18_custom_field_keys_are_defined (e : Engine) (nbi0 : NetboxInventory) (u : Utils)
    (up : Upsert) (vc : VmwareSource) (nbi : NetboxInventory) :
    ((InitSsotCustomFields e nbi0).1.calls
        <+: [EngineCall.AddCustomField hostCpuCoresField,
          EngineCall.AddCustomField hostMemoryField, EngineCall.AddCustomField sourceIdField]) ∧
    ((InitSsotCustomFields e nbi0).2 = Outcome.ok →
      (InitSsotCustomFields e nbi0).1.calls
        = [EngineCall.AddCustomField hostCpuCoresField,
          EngineCall.AddCustomField hostMemoryField, EngineCall.AddCustomField sourceIdField]) ∧
    ((e.AddCustomField nbi0 hostCpuCoresField).2 = none →
      (e.AddCustomField (e.AddCustomField nbi0 hostCpuCoresField).1 hostMemoryField).2 = none →
      (InitSsotCustomFields e nbi0).1.calls
        = [EngineCall.AddCustomField hostCpuCoresField,
          EngineCall.AddCustomField hostMemoryField, EngineCall.AddCustomField sourceIdField]) ∧
    (hostCpuCoresField.Name = "host_cpu_cores" ∧
      hostCpuCoresField.ContentTypes = ["dcim.device"]) ∧
    (hostMemoryField.Name = "host_memory" ∧ hostMemoryField.ContentTypes = ["dcim.device"]) ∧
    (sourceIdField.Name = "source_id" ∧ sourceIdField.ContentTypes = ["dcim.interface"]) ∧
    (∀ d, Call.AddDevice d ∈ (syncHosts u up vc nbi).1.calls →
      d.CustomFields.map Prod.fst = ["host_cpu_cores", "host_memory"] ∧
      ∀ k ∈ d.CustomFields.map Prod.fst,
        ∃ f ∈ [hostCpuCoresField, hostMemoryField, sourceIdField],
          f.ContentTypes = ["dcim.device"] ∧ f.Name = k) := by
  have hcf := InitSsotCustomFields_spec e nbi0
  refine ⟨hcf.1, hcf.2.1, ?_, ⟨rfl, rfl⟩, ⟨rfl, rfl⟩, ⟨rfl, rfl⟩, ?_⟩
  · intro h1 h2
    unfold InitSsotCustomFields
    rcases g1 : e.AddCustomField nbi0 hostCpuCoresField with ⟨n1, r1⟩
    rw [g1] at h1 h2
    simp only at h1 h2
    subst h1
    simp only
    rcases g2 : e.AddCustomField n1 hostMemoryField with ⟨n2, r2⟩
    rw [g2] at h2
    simp only at h2
    subst h2
    simp only
    rcases g3 : e.AddCustomField n2 sourceIdField with ⟨n3, r3⟩
    cases r3 <;> rfl
  · intro d hd
    obtain ⟨pre, pre0, m, t, p, hm, ht, hp, -, -, -, -, -, -, -, -, hkeys⟩ :=
      syncHosts_chain_of_mem u up vc nbi d hd
    refine ⟨hkeys, ?_⟩
    intro k hk
    rw [hkeys] at hk
    simp only [List.mem_cons, List.mem_singleton, List.not_mem_nil, or_false] at hk
    rcases hk with rfl | rfl
    · exact ⟨hostCpuCoresField, by simp, rfl, rfl⟩
    · exact ⟨hostMemoryField, by simp, rfl, rfl⟩

theorem replay_keeps_deviceRoles {up : Upsert}
    (hkeep : ∀ n c, (Call.apply up n c).DeviceRolesIndexByName = n.DeviceRolesIndexByName)
    (calls : List Call) (nbi : NetboxInventory) :
    (replay up nbi calls).DeviceRolesIndexByName = nbi.DeviceRolesIndexByName := by
  induction calls generalizing nbi with
  | nil => rfl
  | cons c rest ih =>
    have : replay up nbi (c :: rest) = replay up (Call.apply up nbi c) rest := rfl
    rw [this, ih, hkeep]

/-- C19: every device candidate syncHosts submits has as its role what the device-role
index holds under the name `Server` in the inventory in which the candidate is submitted
(the inventory the calls made before it have left), which is the entry of the inventory the
sync started in when no call of the sync writes the device-role index; and `Server` is the
name of the role InitServerDeviceRole submits to AddDeviceRole, its only call. -/
theorem C19_device_role_is_the_server_role (u : Utils) (up : Upsert) (vc : VmwareSource)
    (nbi : NetboxInventory) (e : Engine) (nbi0 : NetboxInventory) :
    (∀ pre d post, (syncHosts u up vc nbi).1.calls = pre ++ Call.AddDevice d :: post →
      d.DeviceRole = (replay up nbi pre).DeviceRolesIndexByName "Server") ∧
    ((∀ n c, (Call.apply up n c).DeviceRolesIndexByName = n.DeviceRolesIndexByName) →
      ∀ d, Call.AddDevice d ∈ (syncHosts u up vc nbi).1.calls →
        d.DeviceRole = nbi.DeviceRolesIndexByName "Server") ∧
    (InitServerDeviceRole e nbi0).1.calls = [EngineCall.AddDeviceRole serverDeviceRole] ∧
    serverDeviceRole.Name = "Server" := by
  refine ⟨?_, ?_, ?_, rfl⟩
  · intro pre d post h
    obtain ⟨pre0, m, t, p, hm, ht, hp, -, -, -, -, -, -, -, hrole, -⟩ :=
      syncHosts_chain u up vc nbi pre d post h
    exact hrole
  · intro hkeep d hd
    obtain ⟨pre, pre0, m, t, p, hm, ht, hp, -, -, -, -, -, -, -, hrole, -⟩ :=
      syncHosts_chain_of_mem u up vc nbi d hd
    rw [hrole, replay_keeps_deviceRoles hkeep]
  · unfold InitServerDeviceRole
    rcases e.AddDeviceRole nbi0 serverDeviceRole with ⟨n, r⟩
    cases r <;> rfl

/-! ## The calls of syncHosts at a concrete source -/

theorem exSyncHosts_calls :
    (syncHosts exUtils exUpsert exSource exInventoryLoaded).1.calls
      = [Call.AddManufacturer (hostManufacturerOf exUtils (exHost "web-01")),
         Call.AddDeviceType (hostDeviceTypeOf exUtils (exHost "web-01")
           (hostManufacturerOf exUtils (exHost "web-01"))),
         Call.AddPlatform (hostPlatformOf exUtils (exHost "web-01"))]
        ++ Call.AddDevice exHostCandidate
          :: [Call.syncHostNics (exHost "web-01") exHostCandidate] := by
  decide

/-- C18 at a concrete source: with an engine that accepts every definition,
InitSsotCustomFields submits the three definitions, and the device submitted for the host
`web-01` has the keys host_cpu_cores and host_memory. -/
theorem C18_custom_field_keys_are_defined_witness :
    (InitSsotCustomFields (exEngine "") exInventoryLoaded).1.calls
      = [EngineCall.AddCustomField hostCpuCoresField,
        EngineCall.AddCustomField hostMemoryField, EngineCall.AddCustomField sourceIdField] ∧
    exHostCandidate.CustomFields.map Prod.fst = ["host_cpu_cores", "host_memory"] :=
  have h := C18_custom_field_keys_are_defined (exEngine "") exInventoryLoaded exUtils exUpsert
    exSource exInventoryLoaded
  ⟨h.2.1 rfl,
   (h.2.2.2.2.2.2 exHostCandidate (by rw [exSyncHosts_calls]; simp)).1⟩

/-- C19 at a concrete source: the device submitted for the host `web-01` has the role that
the inventory holds under `Server`. -/
theorem C19_device_role_is_the_server_role_witness :
    exHostCandidate.DeviceRole = exInventoryLoaded.DeviceRolesIndexByName "Server" :=
  (C19_device_role_is_the_server_role exUtils exUpsert exSource exInventoryLoaded
    (exEngine "") exInventoryLoaded).1 _ _ _ exSyncHosts_calls

/-! ## The VM index and the VM orphan set -/

theorem InitVMs_index (nbi : NetboxInventory) (recs : List VM) (name : String) :
    (InitVMs nbi (Except.ok recs)).1.VMsIndexByName name
      = lastWith (fun v => decide (v.Name = name)) recs := by
  simp only [InitVMs, indexLoop]
  rw [foldl_indexStep_idx]
  simp [GoMap.empty]

theorem InitVMs_orphans (nbi : NetboxInventory) (recs : List VM) (id : Int) :
    GoMap.has (orphanSet (InitVMs nbi (Except.ok recs)).1 ApiPath.VirtualMachinesApiPath) id
        = true
      ↔ ∃ r ∈ recs, r.Id = id ∧ Owned nbi.SsotTag r.toNetboxObject := by
  simp only [InitVMs, orphanSet, GoMap.inner_set_self]
  exact indexLoop_orphanExact _ _ _ _ id

/-- C21, as the code has it: after InitVMs on any fetched list, which always succeeds, every
identifier in the VM orphan set is the identifier of a fetched VM that carries the
ownership tag, and the VM index holds under each name the last fetched VM of that name. A
tracked VM is therefore stored in the index exactly when no later fetched VM has its name;
when the names of the fetched VMs are pairwise distinct, every identifier in the orphan set
is the identifier of an entity stored in the index, under that entity's name. -/
theorem C21_tracked_vm_is_indexed_when_last_of_its_name (nbi : NetboxInventory)
    (recs : List VM) :
    (InitVMs nbi (Except.ok recs)).2 = Outcome.ok ∧
    (∀ id, GoMap.has
        (orphanSet (InitVMs nbi (Except.ok recs)).1 ApiPath.VirtualMachinesApiPath) id = true →
      ∃ r ∈ recs, r.Id = id ∧ Owned nbi.SsotTag r.toNetboxObject) ∧
    (∀ name, (InitVMs nbi (Except.ok recs)).1.VMsIndexByName name
      = lastWith (fun v => decide (v.Name = name)) recs) ∧
    (recs.Pairwise (fun a b => a.Name ≠ b.Name) →
      ∀ id, GoMap.has
          (orphanSet (InitVMs nbi (Except.ok recs)).1 ApiPath.VirtualMachinesApiPath) id = true →
        ∃ r ∈ recs, r.Id = id ∧
          (InitVMs nbi (Except.ok recs)).1.VMsIndexByName r.Name = some r ∧
          VMIndexed (InitVMs nbi (Except.ok recs)).1 id) := by
  refine ⟨rfl, fun id h => (InitVMs_orphans nbi recs id).mp h, InitVMs_index nbi recs, ?_⟩
  intro hpw id h
  obtain ⟨r, hr, hid, -⟩ := (InitVMs_orphans nbi recs id).mp h
  have hidx : (InitVMs nbi (Except.ok recs)).1.VMsIndexByName r.Name = some r := by
    rw [InitVMs_index]
    refine lastWith_eq_some_of_unique hr (by simp) ?_
    intro a ha hpa
    exact eq_of_key_eq_of_pairwise hpw a ha r hr (by simpa using hpa)
  exact ⟨r, hr, hid, hidx, r.Name, r, hidx, hid⟩

/-- C21 at a concrete fetch: of two tagged VMs with different names, both identifiers are
in the orphan set and both VMs are stored in the index. -/
theorem C21_tracked_vm_is_indexed_when_last_of_its_name_witness :
    VMIndexed (InitVMs (NetboxInventory.fresh exSsot)
      (Except.ok [exVM 1 "vm-a" [exSsot], exVM 2 "vm-b" [exSsot]])).1 1 ∧
    VMIndexed (InitVMs (NetboxInventory.fresh exSsot)
      (Except.ok [exVM 1 "vm-a" [exSsot], exVM 2 "vm-b" [exSsot]])).1 2 :=
  have h := (C21_tracked_vm_is_indexed_when_last_of_its_name (NetboxInventory.fresh exSsot)
    [exVM 1 "vm-a" [exSsot], exVM 2 "vm-b" [exSsot]]).2.2.2 (by decide)
  have h1 := h 1 (by decide)
  have h2 := h 2 (by decide)
  ⟨by obtain ⟨r, -, -, -, hv⟩ := h1; exact hv, by obtain ⟨r, -, -, -, hv⟩ := h2; exact hv⟩

/-- C21 fails: of two fetched VMs that carry the ownership tag and share the name `vm-a`,
both identifiers are in the orphan set after InitVMs, but the index holds only the later
VM, so the identifier 1 is the identifier of no entity stored in the index. -/
theorem C21_counterexample :
    (InitVMs (NetboxInventory.fresh exSsot)
      (Except.ok [exVM 1 "vm-a" [exSsot], exVM 2 "vm-a" [exSsot]])).2 = Outcome.ok ∧
    GoMap.has (orphanSet (InitVMs (NetboxInventory.fresh exSsot)
      (Except.ok [exVM 1 "vm-a" [exSsot], exVM 2 "vm-a" [exSsot]])).1
        ApiPath.VirtualMachinesApiPath) 1 = true ∧
    ¬ VMIndexed (InitVMs (NetboxInventory.fresh exSsot)
      (Except.ok [exVM 1 "vm-a" [exSsot], exVM 2 "vm-a" [exSsot]])).1 1 := by
  refine ⟨rfl, by decide, ?_⟩
  rintro ⟨name, v, hv, hid⟩
  rw [InitVMs_index] at hv
  by_cases hn : name = "vm-a"
  · subst hn
    have : v = exVM 2 "vm-a" [exSsot] := by
      have h2 : lastWith (fun v => decide (v.Name = "vm-a"))
          [exVM 1 "vm-a" [exSsot], exVM 2 "vm-a" [exSsot]] = some (exVM 2 "vm-a" [exSsot]) := by
        decide
      rw [h2] at hv
      exact (Option.some.inj hv).symm
    rw [this] at hid
    exact absurd hid (by decide)
  · have h2 : lastWith (fun v => decide (v.Name = name))
        [exVM 1 "vm-a" [exSsot], exVM 2 "vm-a" [exSsot]] = none := by
      have e1 : (exVM 1 "vm-a" [exSsot]).Name = "vm-a" := rfl
      have e2 : (exVM 2 "vm-a" [exSsot]).Name = "vm-a" := rfl
      have hn2 : ¬ "vm-a" = name := fun e => hn e.symm
      simp [lastWith, e1, e2, hn2]
    rw [h2] at hv
    cases hv

/-! ## The values of a device candidate -/

theorem syncHosts_body_candidate (u : Utils) (up : Upsert) (vc : VmwareSource) (run : Run)
    (hostId : String) (host : HostSystem) :
    ∃ new, (syncHosts.body u up vc run hostId host).1.calls = run.calls ++ new ∧
      ∀ d, Call.AddDevice d ∈ new → HostCandidate host d := by
  unfold syncHosts.body
  simp only []
  split
  next hl => exact ⟨[], by simp, by simp⟩
  next cluster hl =>
    split
    next e hs => exact ⟨[], by simp, by simp⟩
    next hostSite hs =>
      split
      next e ht => exact ⟨[], by simp, by simp⟩
      next hostTenant ht =>
        split
        next nbi1 e h1 => exact ⟨_, rfl, by simp⟩
        next nbi1 hostManufacturer h1 =>
          split
          next nbi2 e h2 => exact ⟨_, List.append_assoc _ _ _, by simp⟩
          next nbi2 hostDeviceType h2 =>
            split
            next nbi3 e h3 => exact ⟨_, calls_append3 _ _ _ _, by simp⟩
            next nbi3 hostPlatform h3 =>
              split
              next nbi4 e h4 =>
                refine ⟨_, calls_append4 _ _ _ _ _, ?_⟩
                intro d hd
                simp only [List.mem_cons, List.mem_singleton, Call.AddDevice.injEq,
                  List.not_mem_nil, or_false, false_or, reduceCtorEq] at hd
                subst hd
                exact ⟨rfl, rfl, rfl, rfl⟩
              next nbi4 nbHost1 h4 =>
                split
                next nbi5 e h5 =>
                  refine ⟨_, calls_append5 _ _ _ _ _ _, ?_⟩
                  intro d hd
                  simp only [List.mem_cons, List.mem_singleton, Call.AddDevice.injEq,
                    List.not_mem_nil, or_false, false_or, reduceCtorEq] at hd
                  subst hd
                  exact ⟨rfl, rfl, rfl, rfl⟩
                next nbi5 h5 =>
                  refine ⟨_, calls_append5 _ _ _ _ _ _, ?_⟩
                  intro d hd
                  simp only [List.mem_cons, List.mem_singleton, Call.AddDevice.injEq,
                    List.not_mem_nil, or_false, false_or, reduceCtorEq] at hd
                  subst hd
                  exact ⟨rfl, rfl, rfl, rfl⟩

theorem syncHosts_loop_candidate (u : Utils) (up : Upsert) (vc : VmwareSource)
    (hosts : List (String × HostSystem)) (run : Run) :
    ∃ new, (syncHosts.loop u up vc hosts run).1.calls = run.calls ++ new ∧
      ∀ d, Call.AddDevice d ∈ new → ∃ p ∈ hosts, HostCandidate p.2 d := by
  induction hosts generalizing run with
  | nil => exact ⟨[], by simp [syncHosts.loop], by simp⟩
  | cons p rest ih =>
    obtain ⟨hostId, host⟩ := p
    obtain ⟨new1, b1, b2⟩ := syncHosts_body_candidate u up vc run hostId host
    have hnew1 : ∀ d, Call.AddDevice d ∈ new1 →
        ∃ p ∈ (hostId, host) :: rest, HostCandidate p.2 d :=
      fun d hd => ⟨(hostId, host), List.mem_cons_self _ _, b2 d hd⟩
    rw [syncHosts.loop]
    rcases hb : syncHosts.body u up vc run hostId host with ⟨run1, o⟩
    rw [hb] at b1
    simp only at b1
    cases o with
    | ok =>
      obtain ⟨new2, i1, i2⟩ := ih run1
      refine ⟨new1 ++ new2, ?_, ?_⟩
      · rw [i1, b1, List.append_assoc]
      · intro d hd
        rcases List.mem_append.mp hd with hd | hd
        · exact hnew1 d hd
        · obtain ⟨q, hq, hc⟩ := i2 d hd
          exact ⟨q, List.mem_cons_of_mem _ hq, hc⟩
    | error e => exact ⟨new1, b1, hnew1⟩
    | fault => exact ⟨new1, b1, hnew1⟩

theorem syncHosts_candidate (u : Utils) (up : Upsert) (vc : VmwareSource)
    (nbi : NetboxInventory) (d : Device)
    (h : Call.AddDevice d ∈ (syncHosts u up vc nbi).1.calls) :
    ∃ p ∈ vc.Hosts, HostCandidate p.2 d := by
  obtain ⟨new, h1, h2⟩ := syncHosts_loop_candidate u up vc vc.Hosts { nbi := nbi, calls := [] }
  unfold syncHosts at h
  rw [h1] at h
  exact h2 d (by simpa using h)

theorem hostMemGBOf_of_nonneg (host : HostSystem)
    (h : 0 ≤ host.Summary.Hardware.MemorySize) :
    hostMemGBOf host = host.Summary.Hardware.MemorySize / 1073741824 := by
  unfold hostMemGBOf
  rw [Int.tdiv_eq_ediv h (by norm_num),
    Int.tdiv_eq_ediv (Int.ediv_nonneg h (by norm_num)) (by norm_num),
    Int.tdiv_eq_ediv (Int.ediv_nonneg (Int.ediv_nonneg h (by norm_num)) (by norm_num))
      (by norm_num)]
  omega

theorem toString_ediv_of_nonneg (m : Int) (h : 0 ≤ m) :
    toString (m / 1073741824) = toString (m.toNat / 1073741824) := by
  obtain ⟨n, rfl⟩ := Int.eq_ofNat_of_zero_le h
  have : (n : Int) / 1073741824 = ((n / 1073741824 : Nat) : Int) := by omega
  rw [this]
  rfl

/-- C23: for a host whose memory size m in bytes is not negative, the value syncHosts
computes by dividing by 1024 three times in Go's integer division is the floor of
m / 2^30, one integer division by 1073741824; and the host_memory custom field of every
device candidate syncHosts submits is the decimal rendering of that value for the
candidate's host, followed by " GB". -/
theorem C23_host_memory_is_whole_gibibytes (u : Utils) (up : Upsert) (vc : VmwareSource)
    (nbi : NetboxInventory) :
    (2 : Int) ^ 30 = 1073741824 ∧
    (∀ host : HostSystem, 0 ≤ host.Summary.Hardware.MemorySize →
      hostMemGBOf host = Int.fdiv host.Summary.Hardware.MemorySize 1073741824 ∧
      hostMemGBOf host = host.Summary.Hardware.MemorySize / 1073741824 ∧
      toString (hostMemGBOf host) ++ " GB"
        = toString (host.Summary.Hardware.MemorySize.toNat / 1073741824) ++ " GB") ∧
    (∀ d, Call.AddDevice d ∈ (syncHosts u up vc nbi).1.calls →
      ∃ p ∈ vc.Hosts, d.Name = p.2.Name ∧
        d.CustomFields.lookup "host_memory" = some (toString (hostMemGBOf p.2) ++ " GB") ∧
        (0 ≤ p.2.Summary.Hardware.MemorySize →
          d.CustomFields.lookup "host_memory"
            = some (toString (p.2.Summary.Hardware.MemorySize.toNat / 1073741824) ++ " GB"))) := by
  have hmem : ∀ host : HostSystem, 0 ≤ host.Summary.Hardware.MemorySize →
      toString (hostMemGBOf host) ++ " GB"
        = toString (host.Summary.Hardware.MemorySize.toNat / 1073741824) ++ " GB" := by
    intro host h
    rw [hostMemGBOf_of_nonneg host h, toString_ediv_of_nonneg _ h]
  refine ⟨by norm_num, ?_, ?_⟩
  · intro host h
    refine ⟨?_, hostMemGBOf_of_nonneg host h, hmem host h⟩
    rw [hostMemGBOf_of_nonneg host h, Int.fdiv_eq_ediv _ (by norm_num)]
  · intro d hd
    obtain ⟨p, hp, hname, -, -, hcf⟩ := syncHosts_candidate u up vc nbi d hd
    have hlook : d.CustomFields.lookup "host_memory"
        = some (toString (hostMemGBOf p.2) ++ " GB") := by
      rw [hcf]
      simp [hostCustomFieldsOf, List.lookup]
    refine ⟨p, hp, hname, hlook, ?_⟩
    intro h
    rw [hlook, hmem p.2 h]

/-- C23 at a concrete host: 68719476736 bytes are rendered as `64 GB`. -/
theorem C23_host_memory_is_whole_gibibytes_witness :
    exHostCandidate.CustomFields.lookup "host_memory" = some "64 GB" ∧
    ∃ p ∈ exSource.Hosts, exHostCandidate.Name = p.2.Name ∧
      exHostCandidate.CustomFields.lookup "host_memory"
        = some (toString (hostMemGBOf p.2) ++ " GB") ∧
      (0 ≤ p.2.Summary.Hardware.MemorySize →
        exHostCandidate.CustomFields.lookup "host_memory"
          = some (toString (p.2.Summary.Hardware.MemorySize.toNat / 1073741824) ++ " GB")) :=
  ⟨by decide,
   (C23_host_memory_is_whole_gibibytes exUtils exUpsert exSource exInventoryLoaded).2.2
     exHostCandidate (by rw [exSyncHosts_calls]; simp)⟩

/-! ## The serial number of a host -/

theorem hostSerialNumberOf_foldl (infos : List HostSystemIdentificationInfo) (acc : String) :
    infos.foldl (fun hostSerialNumber info =>
      if info.IdentifierKey ∈ serialInfoTypes then
        if info.IdentifierValue ≠ "" then info.IdentifierValue else hostSerialNumber
      else hostSerialNumber) acc
      = ((lastWith isSerialInfo infos).map (fun i => i.IdentifierValue)).getD acc := by
  induction infos generalizing acc with
  | nil => simp [lastWith_nil]
  | cons r rest ih =>
    rw [List.foldl_cons, ih, lastWith_cons]
    cases lastWith isSerialInfo rest with
    | some x => simp
    | none =>
      by_cases h1 : r.IdentifierKey ∈ serialInfoTypes
      · by_cases h2 : r.IdentifierValue = ""
        · simp [isSerialInfo, h1, h2]
        · simp [isSerialInfo, h1, h2]
      · simp [isSerialInfo, h1]

/-- C24: the serial number syncHosts finds in a host's OtherIdentifyingInfo is the
identifier value of the last entry whose type key is EnclosureSerialNumberTag, ServiceTag
or SerialNumberTag and whose value is not empty, and the empty string when there is no
such entry; every device candidate syncHosts submits carries that serial number of its
host. -/
theorem C24_serial_number_is_last_nonempty_tag (u : Utils) (up : Upsert) (vc : VmwareSource)
    (nbi : NetboxInventory) :
    serialInfoTypes = ["EnclosureSerialNumberTag", "ServiceTag", "SerialNumberTag"] ∧
    (∀ info, isSerialInfo info = true ↔
      info.IdentifierKey ∈ serialInfoTypes ∧ info.IdentifierValue ≠ "") ∧
    (∀ infos info, lastWith isSerialInfo infos = some info →
      hostSerialNumberOf infos = info.IdentifierValue) ∧
    (∀ infos, lastWith isSerialInfo infos = none → hostSerialNumberOf infos = "") ∧
    (∀ infos, (∀ info ∈ infos, isSerialInfo info = false) → hostSerialNumberOf infos = "") ∧
    (∀ d, Call.AddDevice d ∈ (syncHosts u up vc nbi).1.calls →
      ∃ p ∈ vc.Hosts, d.Name = p.2.Name ∧
        d.SerialNumber = hostSerialNumberOf p.2.Summary.Hardware.OtherIdentifyingInfo) := by
  have hfold : ∀ infos, hostSerialNumberOf infos
      = ((lastWith isSerialInfo infos).map (fun i => i.IdentifierValue)).getD "" :=
    fun infos => hostSerialNumberOf_foldl infos ""
  refine ⟨rfl, ?_, ?_, ?_, ?_, ?_⟩
  · intro info
    simp [isSerialInfo]
  · intro infos info h
    rw [hfold, h]; rfl
  · intro infos h
    rw [hfold, h]; rfl
  · intro infos h
    have hnone : lastWith isSerialInfo infos = none := by
      cases hl : lastWith isSerialInfo infos with
      | none => rfl
      | some x =>
        obtain ⟨hx, hp⟩ := lastWith_some hl
        rw [h x hx] at hp
        cases hp
    rw [hfold, hnone]; rfl
  · intro d hd
    obtain ⟨p, hp, hname, hser, -, -⟩ := syncHosts_candidate u up vc nbi d hd
    exact ⟨p, hp, hname, hser⟩

/-- C24 at concrete entries: of a service tag, an asset tag, a serial number tag and an
enclosure tag with an empty value, the serial number is the value of the serial number
tag, the last entry that counts. -/
theorem C24_serial_number_is_last_nonempty_tag_witness :
    hostSerialNumberOf exIdentifyingInfo = "SN-2" :=
  (C24_serial_number_is_last_nonempty_tag exUtils exUpsert exSource exInventoryLoaded).2.2.1
    exIdentifyingInfo { IdentifierKey := "SerialNumberTag", IdentifierValue := "SN-2" }
    (by decide)

/-! ## Repeated loads -/

theorem hasSsotTag_congr_slug {a b : Tag} (h : a.Slug = b.Slug) (tags : List Tag) :
    hasSsotTag a tags = hasSsotTag b tags := by
  unfold hasSsotTag
  rw [h]

theorem indexLoop_congr_slug {K α : Type} [DecidableEq K] {a b : Tag} (h : a.Slug = b.Slug)
    (key : α → K) (obj : α → NetboxObject) (recs : List α) :
    indexLoop a key obj recs = indexLoop b key obj recs := by
  have hstep : indexStep a key obj = indexStep b key obj := by
    funext s r
    simp only [indexStep, hasSsotTag_congr_slug h]
  unfold indexLoop
  rw [hstep]

theorem LoadsAfresh.idempotent {K α : Type}
    {load : NetboxInventory → Except Error (List α) → NetboxInventory × Outcome}
    {index : NetboxInventory → GoMap K α} {path : ApiPath}
    (h : LoadsAfresh load index path) : LoadIsIdempotent load index path := by
  intro nbi first recs
  have h1 := h (load nbi (Except.ok recs)).1 nbi recs
    (by rw [(h nbi nbi recs rfl).2.1])
  have h2 := h (load nbi (Except.ok first)).1 nbi recs
    (by rw [(h nbi nbi first rfl).2.1])
  exact ⟨h1.2.2.1, h1.2.2.2, h2.2.2.1, h2.2.2.2⟩

theorem loaders_load_afresh :
    LoadsAfresh InitClusters (fun n => n.ClustersIndexByName) ApiPath.ClustersApiPath ∧
    LoadsAfresh InitIPAddresses (fun n => n.IPAdressesIndexByAddress)
      ApiPath.IpAddressesApiPath ∧
    LoadsAfresh InitContacts (fun n => n.ContactsIndexByName) ApiPath.ContactsApiPath ∧
    LoadsAfresh InitManufacturers (fun n => n.ManufacturersIndexByName)
      ApiPath.ManufacturersApiPath ∧
    LoadsAfresh InitPlatforms (fun n => n.PlatformsIndexByName) ApiPath.PlatformsApiPath ∧
    LoadsAfresh InitDeviceRoles (fun n => n.DeviceRolesIndexByName)
      ApiPath.DeviceRolesApiPath ∧
    LoadsAfresh InitClusterGroups (fun n => n.ClusterGroupsIndexByName)
      ApiPath.ClusterGroupsApiPath ∧
    LoadsAfresh InitClusterTypes (fun n => n.ClusterTypesIndexByName)
      ApiPath.ClusterTypesApiPath ∧
    LoadsAfresh InitDeviceTypes (fun n => n.DeviceTypesIndexByModel)
      ApiPath.DeviceTypesApiPath ∧
    LoadsAfresh InitVlanGroups (fun n => n.VlanGroupsIndexByName) ApiPath.VlanGroupsApiPath ∧
    LoadsAfresh InitVMs (fun n => n.VMsIndexByName) ApiPath.VirtualMachinesApiPath ∧
    LoadsAfresh InitPrefixes (fun n => n.PrefixesIndexByPrefix) ApiPath.PrefixesApiPath := by
  refine ⟨?_, ?_, ?_, ?_, ?_, ?_, ?_, ?_, ?_, ?_, ?_, ?_⟩ <;>
  · intro a b recs h
    simp only [InitClusters, InitIPAddresses, InitContacts, InitManufacturers, InitPlatforms,
      InitDeviceRoles, InitClusterGroups, InitClusterTypes, InitDeviceTypes, InitVlanGroups,
      InitVMs, InitPrefixes, orphanSet, GoMap.inner_set_self, indexLoop_congr_slug h]
    exact ⟨trivial, trivial, trivial, trivial⟩

/-- C25: for InitClusters, InitIPAddresses and every other loader that builds an index by
one key and an orphan set, a load of a fetched list succeeds and leaves an index and an
orphan set that are the same whatever the inventory held before, given the slug of the
ownership tag; so loading the same records twice leaves what loading them once leaves,
and a load after an earlier load leaves what it leaves alone, no entry of the earlier
load surviving. -/
theorem C25_load_is_idempotent_and_fresh :
    (LoadsAfresh InitClusters (fun n => n.ClustersIndexByName) ApiPath.ClustersApiPath ∧
     LoadsAfresh InitIPAddresses (fun n => n.IPAdressesIndexByAddress)
       ApiPath.IpAddressesApiPath ∧
     LoadsAfresh InitContacts (fun n => n.ContactsIndexByName) ApiPath.ContactsApiPath ∧
     LoadsAfresh InitManufacturers (fun n => n.ManufacturersIndexByName)
       ApiPath.ManufacturersApiPath ∧
     LoadsAfresh InitPlatforms (fun n => n.PlatformsIndexByName) ApiPath.PlatformsApiPath ∧
     LoadsAfresh InitDeviceRoles (fun n => n.DeviceRolesIndexByName)
       ApiPath.DeviceRolesApiPath ∧
     LoadsAfresh InitClusterGroups (fun n => n.ClusterGroupsIndexByName)
       ApiPath.ClusterGroupsApiPath ∧
     LoadsAfresh InitClusterTypes (fun n => n.ClusterTypesIndexByName)
       ApiPath.ClusterTypesApiPath ∧
     LoadsAfresh InitDeviceTypes (fun n => n.DeviceTypesIndexByModel)
       ApiPath.DeviceTypesApiPath ∧
     LoadsAfresh InitVlanGroups (fun n => n.VlanGroupsIndexByName)
       ApiPath.VlanGroupsApiPath ∧
     LoadsAfresh InitVMs (fun n => n.VMsIndexByName) ApiPath.VirtualMachinesApiPath ∧
     LoadsAfresh InitPrefixes (fun n => n.PrefixesIndexByPrefix) ApiPath.PrefixesApiPath) ∧
    (LoadIsIdempotent InitClusters (fun n => n.ClustersIndexByName) ApiPath.ClustersApiPath ∧
     LoadIsIdempotent InitIPAddresses (fun n => n.IPAdressesIndexByAddress)
       ApiPath.IpAddressesApiPath ∧
     LoadIsIdempotent InitContacts (fun n => n.ContactsIndexByName) ApiPath.ContactsApiPath ∧
     LoadIsIdempotent InitManufacturers (fun n => n.ManufacturersIndexByName)
       ApiPath.ManufacturersApiPath ∧
     LoadIsIdempotent InitPlatforms (fun n => n.PlatformsIndexByName)
       ApiPath.PlatformsApiPath ∧
     LoadIsIdempotent InitDeviceRoles (fun n => n.DeviceRolesIndexByName)
       ApiPath.DeviceRolesApiPath ∧
     LoadIsIdempotent InitClusterGroups (fun n => n.ClusterGroupsIndexByName)
       ApiPath.ClusterGroupsApiPath ∧
     LoadIsIdempotent InitClusterTypes (fun n => n.ClusterTypesIndexByName)
       ApiPath.ClusterTypesApiPath ∧
     LoadIsIdempotent InitDeviceTypes (fun n => n.DeviceTypesIndexByModel)
       ApiPath.DeviceTypesApiPath ∧
     LoadIsIdempotent InitVlanGroups (fun n => n.VlanGroupsIndexByName)
       ApiPath.VlanGroupsApiPath ∧
     LoadIsIdempotent InitVMs (fun n => n.VMsIndexByName) ApiPath.VirtualMachinesApiPath ∧
     LoadIsIdempotent InitPrefixes (fun n => n.PrefixesIndexByPrefix)
       ApiPath.PrefixesApiPath) := by
  obtain ⟨h1, h2, h3, h4, h5, h6, h7, h8, h9, h10, h11, h12⟩ := loaders_load_afresh
  exact ⟨⟨h1, h2, h3, h4, h5, h6, h7, h8, h9, h10, h11, h12⟩,
    h1.idempotent, h2.idempotent, h3.idempotent, h4.idempotent, h5.idempotent, h6.idempotent,
    h7.idempotent, h8.idempotent, h9.idempotent, h10.idempotent, h11.idempotent,
    h12.idempotent⟩

/-- C25 at concrete loads: after a load of the tagged cluster `old` (id 1), a load of the
cluster `new` alone leaves no entry under `old` and does not have the id 1 in the orphan
set. -/
theorem C25_load_is_idempotent_and_fresh_witness :
    (InitClusters (InitClusters (NetboxInventory.fresh exSsot)
        (Except.ok [exCluster 1 "old" [exSsot]])).1
      (Except.ok [exCluster 2 "new" []])).1.ClustersIndexByName "old" = none ∧
    GoMap.has (orphanSet (InitClusters (InitClusters (NetboxInventory.fresh exSsot)
        (Except.ok [exCluster 1 "old" [exSsot]])).1
      (Except.ok [exCluster 2 "new" []])).1 ApiPath.ClustersApiPath) 1 = false :=
  have h := C25_load_is_idempotent_and_fresh.2.1 (NetboxInventory.fresh exSsot)
    [exCluster 1 "old" [exSsot]] [exCluster 2 "new" []]
  ⟨(congrFun h.2.2.1 "old").trans (by decide),
   (congrArg (fun s => GoMap.has s 1) h.2.2.2).trans (by decide)⟩

/-! ## A fetch that fails -/

/-- C26: when the fetch of all records fails, InitDevices, InitVMInterfaces and every other
loader with a single fetch returns an error, the fetch error itself or, in
InitVMInterfaces, the fetch error after the words `Init vm interfaces: `, and leaves the
whole inventory as it was, so the type's index and orphan set are unchanged; InitVlans
does the same and makes no call. -/
theorem C26_failed_fetch_leaves_the_inventory :
    FailsClean InitDevices id ∧
    FailsClean InitVMInterfaces (fun err => "Init vm interfaces: " ++ err) ∧
    FailsClean InitTenants id ∧ FailsClean InitContacts id ∧ FailsClean InitContactRoles id ∧
    FailsClean InitContactAssignments id ∧ FailsClean InitContactGroups id ∧
    FailsClean InitSites id ∧ FailsClean InitManufacturers id ∧ FailsClean InitPlatforms id ∧
    FailsClean InitDeviceRoles id ∧ FailsClean InitCustomFields id ∧
    FailsClean InitClusterGroups id ∧ FailsClean InitClusterTypes id ∧
    FailsClean InitClusters id ∧ FailsClean InitDeviceTypes id ∧ FailsClean InitInterfaces id ∧
    FailsClean InitVlanGroups id ∧ FailsClean InitVMs id ∧ FailsClean InitIPAddresses id ∧
    FailsClean InitPrefixes id ∧
    (∀ (names : ObjectNames) (e : Engine) (nbi : NetboxInventory) (err : Error),
      InitVlans names e nbi (Except.error err)
        = ({ nbi := nbi, calls := [] }, Outcome.error err)) ∧
    (∀ (nbi : NetboxInventory) (err : Error),
      (InitDevices nbi (Except.error err)).1.DevicesIndexByNameAndSiteId
        = nbi.DevicesIndexByNameAndSiteId ∧
      orphanSet (InitDevices nbi (Except.error err)).1 ApiPath.DevicesApiPath
        = orphanSet nbi ApiPath.DevicesApiPath ∧
      (InitVMInterfaces nbi (Except.error err)).1.VMInterfacesIndexByVMIdAndName
        = nbi.VMInterfacesIndexByVMIdAndName ∧
      orphanSet (InitVMInterfaces nbi (Except.error err)).1 ApiPath.VMInterfacesApiPath
        = orphanSet nbi ApiPath.VMInterfacesApiPath) := by
  refine ⟨fun _ _ => rfl, fun _ _ => rfl, fun _ _ => rfl, fun _ _ => rfl, fun _ _ => rfl,
    fun _ _ => rfl, fun _ _ => rfl, fun _ _ => rfl, fun _ _ => rfl, fun _ _ => rfl,
    fun _ _ => rfl, fun _ _ => rfl, fun _ _ => rfl, fun _ _ => rfl, fun _ _ => rfl,
    fun _ _ => rfl, fun _ _ => rfl, fun _ _ => rfl, fun _ _ => rfl, fun _ _ => rfl,
    fun _ _ => rfl, fun _ _ _ _ => rfl, fun _ _ => ⟨rfl, rfl, rfl, rfl⟩⟩

/-- C26 at a concrete load: after a load of one device, a load whose fetch fails returns the
error and the device is still in the index. -/
theorem C26_failed_fetch_leaves_the_inventory_witness :
    InitDevices (InitDevices (NetboxInventory.fresh exSsot)
        (Except.ok [exDevice 7 "web-01" (some (exSite 3 "dc-east")) [exSsot]])).1
      (Except.error "timeout")
      = ((InitDevices (NetboxInventory.fresh exSsot)
        (Except.ok [exDevice 7 "web-01" (some (exSite 3 "dc-east")) [exSsot]])).1,
        Outcome.error "timeout") ∧
    GoMap.get2 (InitDevices (NetboxInventory.fresh exSsot)
        (Except.ok [exDevice 7 "web-01"
          (some (exSite 3 "dc-east")) [exSsot]])).1.DevicesIndexByNameAndSiteId "web-01" 3
      = some (exDevice 7 "web-01" (some (exSite 3 "dc-east")) [exSsot]) :=
  ⟨C26_failed_fetch_leaves_the_inventory.1 _ _, by decide⟩

/-! ## InitTags -/

/-- C27, as the code has it: after a successful InitTags the tag list of the inventory is
the result of the fetch of all tags, and the ownership tag is set: it is the first tag of
the name-filtered fetch, found without any create call, or, when that fetch returned no
tag, the tag the one create call returned. The ownership tag is among the tags of the
list exactly when the fetch of all tags returned it; a created tag is not added to the
list. -/
theorem C27_ownership_tag_is_found_or_created (e : Engine) (nbi : NetboxInventory)
    (getAll getSsot : Except Error (List Tag))
    (hok : (InitTags e nbi getAll getSsot).2 = Outcome.ok) :
    ∃ nbTags ssotTags, getAll = Except.ok nbTags ∧ getSsot = Except.ok ssotTags ∧
      (InitTags e nbi getAll getSsot).1.nbi.Tags = nbTags ∧
      (ssotTags = [] →
        ∃ created, e.Create newSsotTag = Except.ok created ∧
          (InitTags e nbi getAll getSsot).1.nbi.SsotTag = created ∧
          (InitTags e nbi getAll getSsot).1.calls = [EngineCall.Create newSsotTag]) ∧
      (∀ found rest, ssotTags = found :: rest →
        (InitTags e nbi getAll getSsot).1.nbi.SsotTag = found ∧
        (InitTags e nbi getAll getSsot).1.calls = []) ∧
      ((InitTags e nbi getAll getSsot).1.nbi.SsotTag
          ∈ (InitTags e nbi getAll getSsot).1.nbi.Tags
        ↔ (InitTags e nbi getAll getSsot).1.nbi.SsotTag ∈ nbTags) := by
  cases getAll with
  | error err => simp [InitTags] at hok
  | ok nbTags =>
    cases getSsot with
    | error err => simp [InitTags] at hok
    | ok ssotTags =>
      refine ⟨nbTags, ssotTags, rfl, rfl, ?_⟩
      cases ssotTags with
      | nil =>
        cases hc : e.Create newSsotTag with
        | error err => simp [InitTags, hc] at hok
        | ok created =>
          have hres : InitTags e nbi (Except.ok nbTags) (Except.ok [])
              = ({ nbi := { nbi with Tags := nbTags, SsotTag := created },
                   calls := [EngineCall.Create newSsotTag] }, Outcome.ok) := by
            simp [InitTags, hc]
          rw [hres]
          exact ⟨rfl, fun _ => ⟨created, rfl, rfl, rfl⟩, fun _ _ h => (by cases h),
            Iff.rfl⟩
      | cons found rest =>
        have hres : InitTags e nbi (Except.ok nbTags) (Except.ok (found :: rest))
            = ({ nbi := { nbi with Tags := nbTags, SsotTag := found }, calls := [] },
               Outcome.ok) := by
          simp [InitTags]
        rw [hres]
        refine ⟨rfl, fun h => (by cases h), ?_, Iff.rfl⟩
        intro f r h
        cases h
        exact ⟨rfl, rfl⟩

/-- C27 at a concrete run: the fetch of all tags returns the ownership tag and one other
tag, the name-filtered fetch returns the ownership tag, and after InitTags the ownership
tag is that tag and is in the tag list. -/
theorem C27_ownership_tag_is_found_or_created_witness :
    (InitTags (exEngine "") (NetboxInventory.fresh exOtherTag)
      (Except.ok [exOtherTag, exSsot]) (Except.ok [exSsot])).1.nbi.SsotTag = exSsot ∧
    (InitTags (exEngine "") (NetboxInventory.fresh exOtherTag)
      (Except.ok [exOtherTag, exSsot]) (Except.ok [exSsot])).1.nbi.Tags
      = [exOtherTag, exSsot] :=
  have h := C27_ownership_tag_is_found_or_created (exEngine "")
    (NetboxInventory.fresh exOtherTag) (Except.ok [exOtherTag, exSsot]) (Except.ok [exSsot])
    rfl
  ⟨by decide, by obtain ⟨a, b, h1, -, h3, -⟩ := h; cases h1; exact h3⟩

/-- C27 fails: NetBox holds one tag, `prod`, so the name-filtered fetch returns no tag and
the ownership tag is created; InitTags succeeds and the ownership tag is set, but it is not
among the tags of the inventory's tag list, which holds `prod` alone. -/
theorem C27_counterexample :
    [exOtherTag].filter (fun t => t.Name == "netbox-ssot") = [] ∧
    (InitTags (exEngine "") (NetboxInventory.fresh exOtherTag)
      (Except.ok [exOtherTag]) (Except.ok [])).2 = Outcome.ok ∧
    (InitTags (exEngine "") (NetboxInventory.fresh exOtherTag)
      (Except.ok [exOtherTag]) (Except.ok [])).1.nbi.SsotTag = newSsotTag ∧
    (InitTags (exEngine "") (NetboxInventory.fresh exOtherTag)
      (Except.ok [exOtherTag]) (Except.ok [])).1.nbi.Tags = [exOtherTag] ∧
    (InitTags (exEngine "") (NetboxInventory.fresh exOtherTag)
      (Except.ok [exOtherTag]) (Except.ok [])).1.nbi.SsotTag
      ∉ (InitTags (exEngine "") (NetboxInventory.fresh exOtherTag)
        (Except.ok [exOtherTag]) (Except.ok [])).1.nbi.Tags := by
  refine ⟨by decide, rfl, by decide, by decide, by decide⟩

/-! ## syncVlans, syncVms and syncVmInterfaces -/

theorem syncVlans_body_calls (e : Engine) (vc : VmwareSource) (run : InvRun)
    (dvpg : DistributedVirtualPortgroup) :
    (syncVlans.body e vc run dvpg).calls
      = run.calls ++ ((vlanIdOf dvpg).map
          (fun vid => EngineCall.AddVlan (vlanOfPortgroup vc dvpg vid))).toList := by
  unfold syncVlans.body vlanIdOf vlanOfPortgroup
  cases dvpg.Config.DefaultPortConfig with
  | OtherPortSetting => simp
  | VMwareDVSPortSetting dvsVlan =>
    cases dvsVlan with
    | OtherVlanSpec => simp
    | VmwareDistributedVirtualSwitchVlanIdSpec vlanId => simp

theorem syncVlans_foldl_calls (e : Engine) (vc : VmwareSource)
    (dvpgs : List (String × DistributedVirtualPortgroup)) (run : InvRun) :
    (dvpgs.foldl (fun run p => syncVlans.body e vc run p.2) run).calls
      = run.calls ++ (vlanCandidatesOf vc dvpgs).map EngineCall.AddVlan := by
  induction dvpgs generalizing run with
  | nil => simp [vlanCandidatesOf]
  | cons p rest ih =>
    rw [List.foldl_cons, ih, syncVlans_body_calls]
    cases h : vlanIdOf p.2 with
    | none => simp [vlanCandidatesOf, h]
    | some vid => simp [vlanCandidatesOf, h]

theorem vlanCandidatesOf_length (vc : VmwareSource)
    (dvpgs : List (String × DistributedVirtualPortgroup)) :
    (vlanCandidatesOf vc dvpgs).length
      = (dvpgs.filter (fun p => (vlanIdOf p.2).isSome)).length := by
  induction dvpgs with
  | nil => rfl
  | cons p rest ih =>
    cases h : vlanIdOf p.2 with
    | none =>
      have : vlanCandidatesOf vc (p :: rest) = vlanCandidatesOf vc rest := by
        simp [vlanCandidatesOf, h]
      rw [this, ih]
      simp [List.filter, h]
    | some vid =>
      have : vlanCandidatesOf vc (p :: rest)
          = vlanOfPortgroup vc p.2 vid :: vlanCandidatesOf vc rest := by
        simp [vlanCandidatesOf, h]
      rw [this, List.length_cons, ih]
      simp [List.filter, h]

/-- C28: syncVlans returns no error for every input, whatever AddVlan returns. Its calls
are the AddVlan calls of one candidate for each distributed port group whose default port
config carries a VLAN-id spec, in the order of the port groups, and every other port
group is passed over without a call; the candidate has the port group's name, the VLAN id
of the spec as its VID, the status active, the tags of the source and no group. -/
theorem C28_syncVlans_submits_per_vlan_id_portgroup (e : Engine) (vc : VmwareSource)
    (nbi : NetboxInventory) :
    (syncVlans e vc nbi).2 = Outcome.ok ∧
    (syncVlans e vc nbi).1.calls
      = (vlanCandidatesOf vc vc.DistributedVirtualPortgrups).map EngineCall.AddVlan ∧
    (vlanCandidatesOf vc vc.DistributedVirtualPortgrups).length
      = (vc.DistributedVirtualPortgrups.filter (fun p => (vlanIdOf p.2).isSome)).length ∧
    (∀ dvpg vid, vlanIdOf dvpg = some vid ↔
      dvpg.Config.DefaultPortConfig = DVPortSetting.VMwareDVSPortSetting
        (VlanSpec.VmwareDistributedVirtualSwitchVlanIdSpec vid)) ∧
    (∀ run dvpg, vlanIdOf dvpg = none → syncVlans.body e vc run dvpg = run) ∧
    (∀ run dvpg vid, vlanIdOf dvpg = some vid →
      syncVlans.body e vc run dvpg
        = { nbi := (e.AddVlan run.nbi (vlanOfPortgroup vc dvpg vid)).1,
            calls := run.calls ++ [EngineCall.AddVlan (vlanOfPortgroup vc dvpg vid)] }) ∧
    (∀ dvpg vid, (vlanOfPortgroup vc dvpg vid).Name = dvpg.Config.Name ∧
      (vlanOfPortgroup vc dvpg vid).Vid = vid ∧
      (vlanOfPortgroup vc dvpg vid).Status = some VlanStatus.VlanStatusActive ∧
      (vlanOfPortgroup vc dvpg vid).Group = none ∧
      (vlanOfPortgroup vc dvpg vid).Tags = vc.SourceTags) := by
  refine ⟨rfl, ?_, vlanCandidatesOf_length vc _, ?_, ?_, ?_,
    fun _ _ => ⟨rfl, rfl, rfl, rfl, rfl⟩⟩
  · unfold syncVlans
    rw [syncVlans_foldl_calls]
    simp
  · intro dvpg vid
    unfold vlanIdOf
    cases dvpg.Config.DefaultPortConfig with
    | OtherPortSetting => simp
    | VMwareDVSPortSetting dvsVlan =>
      cases dvsVlan with
      | OtherVlanSpec => simp
      | VmwareDistributedVirtualSwitchVlanIdSpec vlanId => simp
  · intro run dvpg h
    unfold vlanIdOf at h
    unfold syncVlans.body
    cases hc : dvpg.Config.DefaultPortConfig with
    | OtherPortSetting => rfl
    | VMwareDVSPortSetting dvsVlan =>
      cases dvsVlan with
      | OtherVlanSpec => rfl
      | VmwareDistributedVirtualSwitchVlanIdSpec vlanId => simp [hc] at h
  · intro run dvpg vid h
    unfold vlanIdOf at h
    unfold syncVlans.body
    cases hc : dvpg.Config.DefaultPortConfig with
    | OtherPortSetting => simp [hc] at h
    | VMwareDVSPortSetting dvsVlan =>
      cases dvsVlan with
      | OtherVlanSpec => simp [hc] at h
      | VmwareDistributedVirtualSwitchVlanIdSpec vlanId =>
        simp only [hc, Option.some.injEq] at h
        subst h
        rfl

/-- C28 at a concrete source, with an engine whose AddVlan rejects every VLAN: of three
port groups, only the one with the VLAN id 100 is submitted, and syncVlans returns no
error. -/
theorem C28_syncVlans_submits_per_vlan_id_portgroup_witness :
    (exEngineNoVlan.AddVlan exInventoryLoaded
      (vlanOfPortgroup exSourcePortgroups (exPortgroup "prod-100"
        (DVPortSetting.VMwareDVSPortSetting
          (VlanSpec.VmwareDistributedVirtualSwitchVlanIdSpec 100))) 100)).2
      = Except.error "rejected" ∧
    (syncVlans exEngineNoVlan exSourcePortgroups exInventoryLoaded).2 = Outcome.ok ∧
    (syncVlans exEngineNoVlan exSourcePortgroups exInventoryLoaded).1.calls
      = [EngineCall.AddVlan (vlanOfPortgroup exSourcePortgroups (exPortgroup "prod-100"
          (DVPortSetting.VMwareDVSPortSetting
            (VlanSpec.VmwareDistributedVirtualSwitchVlanIdSpec 100))) 100)] :=
  have h := C28_syncVlans_submits_per_vlan_id_portgroup exEngineNoVlan exSourcePortgroups
    exInventoryLoaded
  ⟨rfl, h.1, h.2.1.trans (by decide)⟩

/-- C29: for every input, syncVms and syncVmInterfaces of the VMware source return no
error, make no call to an upsert operation and leave the inventory as it was: every line
of their bodies but `return nil` is commented out. -/
theorem C29_vm_sync_does_nothing {OvirtVm : Type} (vc : VmwareSource) (nbi : NetboxInventory)
    (ovirtVm : Option OvirtVm) (netboxVm : Option VM) :
    (syncVms vc nbi).2 = Outcome.ok ∧ (syncVms vc nbi).1.calls = [] ∧
    (syncVms vc nbi).1.nbi = nbi ∧
    (syncVmInterfaces vc nbi ovirtVm netboxVm).2 = Outcome.ok ∧
    (syncVmInterfaces vc nbi ovirtVm netboxVm).1.calls = [] ∧
    (syncVmInterfaces vc nbi ovirtVm netboxVm).1.nbi = nbi :=
  ⟨rfl, rfl, rfl, rfl, rfl, rfl⟩

/-! ## One pass of syncHosts, call by call -/

theorem syncHosts_body_manufacturer_fails {u : Utils} {up : Upsert} {vc : VmwareSource}
    {run : Run} {hostId : String} {host : HostSystem} {cluster : ClusterComputeResource}
    {hostSite : Option Site} {hostTenant : Option Tenant}
    (hr : HostReads u vc run hostId host cluster hostSite hostTenant)
    {nbi1 : NetboxInventory} {err : Error}
    (hM : up.AddManufacturer run.nbi (hostManufacturerOf u host) = (nbi1, Except.error err)) :
    syncHosts.body u up vc run hostId host
      = ({ nbi := nbi1
           calls := run.calls ++ [Call.AddManufacturer (hostManufacturerOf u host)] },
         Outcome.error ("failed adding oVirt Manufacturer <nil> with error: " ++ err)) := by
  obtain ⟨hc, hs, ht⟩ := hr
  simp only [hostManufacturerOf] at hM
  simp [syncHosts.body, hc, hs, ht, hM, hostManufacturerOf]

theorem syncHosts_body_deviceType_fails {u : Utils} {up : Upsert} {vc : VmwareSource}
    {run : Run} {hostId : String} {host : HostSystem} {cluster : ClusterComputeResource}
    {hostSite : Option Site} {hostTenant : Option Tenant}
    (hr : HostReads u vc run hostId host cluster hostSite hostTenant)
    {nbi1 nbi2 : NetboxInventory} {hm : Manufacturer} {err : Error}
    (hM : up.AddManufacturer run.nbi (hostManufacturerOf u host) = (nbi1, Except.ok hm))
    (hT : up.AddDeviceType nbi1 (hostDeviceTypeOf u host hm) = (nbi2, Except.error err)) :
    syncHosts.body u up vc run hostId host
      = ({ nbi := nbi2
           calls := run.calls ++ [Call.AddManufacturer (hostManufacturerOf u host),
             Call.AddDeviceType (hostDeviceTypeOf u host hm)] },
         Outcome.error ("failed adding oVirt DeviceType <nil> with error: " ++ err)) := by
  obtain ⟨hc, hs, ht⟩ := hr
  simp only [hostManufacturerOf] at hM
  simp only [hostDeviceTypeOf] at hT
  simp [syncHosts.body, hc, hs, ht, hM, hT, hostManufacturerOf, hostDeviceTypeOf]

theorem syncHosts_body_platform_fails {u : Utils} {up : Upsert} {vc : VmwareSource}
    {run : Run} {hostId : String} {host : HostSystem} {cluster : ClusterComputeResource}
    {hostSite : Option Site} {hostTenant : Option Tenant}
    (hr : HostReads u vc run hostId host cluster hostSite hostTenant)
    {nbi1 nbi2 nbi3 : NetboxInventory} {hm : Manufacturer} {hdt : DeviceType} {err : Error}
    (hM : up.AddManufacturer run.nbi (hostManufacturerOf u host) = (nbi1, Except.ok hm))
    (hT : up.AddDeviceType nbi1 (hostDeviceTypeOf u host hm) = (nbi2, Except.ok hdt))
    (hP : up.AddPlatform nbi2 (hostPlatformOf u host) = (nbi3, Except.error err)) :
    syncHosts.body u up vc run hostId host
      = ({ nbi := nbi3
           calls := run.calls ++ [Call.AddManufacturer (hostManufacturerOf u host),
             Call.AddDeviceType (hostDeviceTypeOf u host hm),
             Call.AddPlatform (hostPlatformOf u host)] },
         Outcome.error ("failed adding oVirt Platform <nil> with error: " ++ err)) := by
  obtain ⟨hc, hs, ht⟩ := hr
  simp only [hostManufacturerOf] at hM
  simp only [hostDeviceTypeOf] at hT
  simp only [hostPlatformOf] at hP
  simp [syncHosts.body, hc, hs, ht, hM, hT, hP, hostManufacturerOf, hostDeviceTypeOf,
    hostPlatformOf]

theorem syncHosts_body_device_fails {u : Utils} {up : Upsert} {vc : VmwareSource}
    {run : Run} {hostId : String} {host : HostSystem} {cluster : ClusterComputeResource}
    {hostSite : Option Site} {hostTenant : Option Tenant}
    (hr : HostReads u vc run hostId host cluster hostSite hostTenant)
    {nbi1 nbi2 nbi3 nbi4 : NetboxInventory} {hm : Manufacturer} {hdt : DeviceType}
    {hp : Platform} {err : Error}
    (hM : up.AddManufacturer run.nbi (hostManufacturerOf u host) = (nbi1, Except.ok hm))
    (hT : up.AddDeviceType nbi1 (hostDeviceTypeOf u host hm) = (nbi2, Except.ok hdt))
    (hP : up.AddPlatform nbi2 (hostPlatformOf u host) = (nbi3, Except.ok hp))
    (hD : up.AddDevice nbi3 (nbHostOf vc host (run.nbi.ClustersIndexByName cluster.Name)
      hostSite hostTenant hdt hp (nbi3.DeviceRolesIndexByName "Server"))
        = (nbi4, Except.error err)) :
    syncHosts.body u up vc run hostId host
      = ({ nbi := nbi4
           calls := run.calls ++ [Call.AddManufacturer (hostManufacturerOf u host),
             Call.AddDeviceType (hostDeviceTypeOf u host hm),
             Call.AddPlatform (hostPlatformOf u host),
             Call.AddDevice (nbHostOf vc host (run.nbi.ClustersIndexByName cluster.Name)
               hostSite hostTenant hdt hp (nbi3.DeviceRolesIndexByName "Server"))] },
         Outcome.error ("failed to add vmware host " ++ host.Name ++ " with error: "
           ++ err)) := by
  obtain ⟨hc, hs, ht⟩ := hr
  simp only [hostManufacturerOf] at hM
  simp only [hostDeviceTypeOf] at hT
  simp only [hostPlatformOf] at hP
  simp only [nbHostOf, hostCustomFieldsOf, hostMemGBOf] at hD
  simp [syncHosts.body, hc, hs, ht, hM, hT, hP, hD, hostManufacturerOf, hostDeviceTypeOf,
    hostPlatformOf, nbHostOf, hostCustomFieldsOf, hostMemGBOf]

theorem syncHosts_body_device_added {u : Utils} {up : Upsert} {vc : VmwareSource}
    {run : Run} {hostId : String} {host : HostSystem} {cluster : ClusterComputeResource}
    {hostSite : Option Site} {hostTenant : Option Tenant}
    (hr : HostReads u vc run hostId host cluster hostSite hostTenant)
    {nbi1 nbi2 nbi3 nbi4 : NetboxInventory} {hm : Manufacturer} {hdt : DeviceType}
    {hp : Platform} {nbHost1 : Device}
    (hM : up.AddManufacturer run.nbi (hostManufacturerOf u host) = (nbi1, Except.ok hm))
    (hT : up.AddDeviceType nbi1 (hostDeviceTypeOf u host hm) = (nbi2, Except.ok hdt))
    (hP : up.AddPlatform nbi2 (hostPlatformOf u host) = (nbi3, Except.ok hp))
    (hD : up.AddDevice nbi3 (nbHostOf vc host (run.nbi.ClustersIndexByName cluster.Name)
      hostSite hostTenant hdt hp (nbi3.DeviceRolesIndexByName "Server"))
        = (nbi4, Except.ok nbHost1)) :
    (syncHosts.body u up vc run hostId host).1
      = { nbi := (up.syncHostNics nbi4 host nbHost1).1
          calls := run.calls ++ [Call.AddManufacturer (hostManufacturerOf u host),
            Call.AddDeviceType (hostDeviceTypeOf u host hm),
            Call.AddPlatform (hostPlatformOf u host),
            Call.AddDevice (nbHostOf vc host (run.nbi.ClustersIndexByName cluster.Name)
              hostSite hostTenant hdt hp (nbi3.DeviceRolesIndexByName "Server")),
            Call.syncHostNics host nbHost1] } ∧
    ((syncHosts.body u up vc run hostId host).2 = Outcome.ok
      ↔ (up.syncHostNics nbi4 host nbHost1).2 = none) ∧
    (∀ err, (up.syncHostNics nbi4 host nbHost1).2 = some err →
      (syncHosts.body u up vc run hostId host).2
        = Outcome.error ("failed to sync vmware host " ++ host.Name
            ++ " nics with error: " ++ err)) := by
  obtain ⟨hc, hs, ht⟩ := hr
  simp only [hostManufacturerOf] at hM
  simp only [hostDeviceTypeOf] at hT
  simp only [hostPlatformOf] at hP
  simp only [nbHostOf, hostCustomFieldsOf, hostMemGBOf] at hD
  rcases hN : up.syncHostNics nbi4 host nbHost1 with ⟨nbi5, r⟩
  cases r with
  | none =>
    simp [syncHosts.body, hc, hs, ht, hM, hT, hP, hD, hN, hostManufacturerOf,
      hostDeviceTypeOf, hostPlatformOf, nbHostOf, hostCustomFieldsOf, hostMemGBOf]
  | some e =>
    simp [syncHosts.body, hc, hs, ht, hM, hT, hP, hD, hN, hostManufacturerOf,
      hostDeviceTypeOf, hostPlatformOf, nbHostOf, hostCustomFieldsOf, hostMemGBOf]

theorem syncHosts_body_reads_fail (u : Utils) (up : Upsert) (vc : VmwareSource)
    (run : Run) (hostId : String) (host : HostSystem) :
    (vc.readCluster ((vc.Host2Cluster hostId).getD "") = none →
      syncHosts.body u up vc run hostId host = (run, Outcome.fault)) ∧
    (∀ cluster err, vc.readCluster ((vc.Host2Cluster hostId).getD "") = some cluster →
      hostSiteOf u vc run.nbi host.Name = Except.error err →
      syncHosts.body u up vc run hostId host = (run, Outcome.error err)) ∧
    (∀ cluster hostSite err,
      vc.readCluster ((vc.Host2Cluster hostId).getD "") = some cluster →
      hostSiteOf u vc run.nbi host.Name = Except.ok hostSite →
      hostTenantOf u vc run.nbi host.Name = Except.error err →
      syncHosts.body u up vc run hostId host = (run, Outcome.error err)) := by
  refine ⟨?_, ?_, ?_⟩
  · intro hc
    simp [syncHosts.body, hc]
  · intro cluster err hc hs
    simp [syncHosts.body, hc, hs]
  · intro cluster hostSite err hc hs ht
    simp [syncHosts.body, hc, hs, ht]

/-- C17: syncHosts runs the pass of each host in turn until a pass does not succeed. A pass
whose reads fail makes no call. A pass whose reads succeed calls AddManufacturer with the
host's manufacturer; when that succeeds, AddDeviceType with the host's device type, which
names the manufacturer returned; when that succeeds, AddPlatform with the host's platform;
when that succeeds, AddDevice with the host's device, which names the device type and the
platform returned; and then syncHostNics. The first of these calls that fails is the last
call of the pass and the pass returns an error, so a pass in which AddManufacturer,
AddDeviceType or AddPlatform fails submits no device. Every device candidate among the
calls of syncHosts comes right after the three upserts of its pass, each of which
succeeded in the inventory of its moment. -/
theorem C17_host_upserts_in_dependency_order (u : Utils) (up : Upsert) (vc : VmwareSource) :
    (∀ nbi, syncHosts u up vc nbi
      = syncHosts.loop u up vc vc.Hosts { nbi := nbi, calls := [] }) ∧
    (∀ run, syncHosts.loop u up vc [] run = (run, Outcome.ok)) ∧
    (∀ hostId host rest run, (syncHosts.body u up vc run hostId host).2 = Outcome.ok →
      syncHosts.loop u up vc ((hostId, host) :: rest) run
        = syncHosts.loop u up vc rest (syncHosts.body u up vc run hostId host).1) ∧
    (∀ hostId host rest run, (syncHosts.body u up vc run hostId host).2 ≠ Outcome.ok →
      syncHosts.loop u up vc ((hostId, host) :: rest) run
        = syncHosts.body u up vc run hostId host) ∧
    (∀ run hostId host, (¬ ∃ cluster hostSite hostTenant,
        HostReads u vc run hostId host cluster hostSite hostTenant) →
      (syncHosts.body u up vc run hostId host).1 = run ∧
      (syncHosts.body u up vc run hostId host).2 ≠ Outcome.ok) ∧
    (∀ run hostId host cluster hostSite hostTenant,
      HostReads u vc run hostId host cluster hostSite hostTenant →
      (∀ nbi1 err,
        up.AddManufacturer run.nbi (hostManufacturerOf u host) = (nbi1, Except.error err) →
        syncHosts.body u up vc run hostId host
          = ({ nbi := nbi1
               calls := run.calls ++ [Call.AddManufacturer (hostManufacturerOf u host)] },
             Outcome.error ("failed adding oVirt Manufacturer <nil> with error: " ++ err))) ∧
      (∀ nbi1 hm,
        up.AddManufacturer run.nbi (hostManufacturerOf u host) = (nbi1, Except.ok hm) →
        (hostDeviceTypeOf u host hm).Manufacturer = some hm ∧
        (∀ nbi2 err,
          up.AddDeviceType nbi1 (hostDeviceTypeOf u host hm) = (nbi2, Except.error err) →
          syncHosts.body u up vc run hostId host
            = ({ nbi := nbi2
                 calls := run.calls ++ [Call.AddManufacturer (hostManufacturerOf u host),
                   Call.AddDeviceType (hostDeviceTypeOf u host hm)] },
               Outcome.error ("failed adding oVirt DeviceType <nil> with error: " ++ err))) ∧
        (∀ nbi2 hdt,
          up.AddDeviceType nbi1 (hostDeviceTypeOf u host hm) = (nbi2, Except.ok hdt) →
          (∀ nbi3 err,
            up.AddPlatform nbi2 (hostPlatformOf u host) = (nbi3, Except.error err) →
            syncHosts.body u up vc run hostId host
              = ({ nbi := nbi3
                   calls := run.calls ++ [Call.AddManufacturer (hostManufacturerOf u host),
                     Call.AddDeviceType (hostDeviceTypeOf u host hm),
                     Call.AddPlatform (hostPlatformOf u host)] },
                 Outcome.error ("failed adding oVirt Platform <nil> with error: " ++ err))) ∧
          (∀ nbi3 hp,
            up.AddPlatform nbi2 (hostPlatformOf u host) = (nbi3, Except.ok hp) →
            (nbHostOf vc host (run.nbi.ClustersIndexByName cluster.Name) hostSite hostTenant
              hdt hp (nbi3.DeviceRolesIndexByName "Server")).DeviceType = some hdt ∧
            (nbHostOf vc host (run.nbi.ClustersIndexByName cluster.Name) hostSite hostTenant
              hdt hp (nbi3.DeviceRolesIndexByName "Server")).Platform = some hp ∧
            (nbHostOf vc host (run.nbi.ClustersIndexByName cluster.Name) hostSite hostTenant
              hdt hp (nbi3.DeviceRolesIndexByName "Server")).Name = host.Name ∧
            (∀ nbi4 err,
              up.AddDevice nbi3 (nbHostOf vc host (run.nbi.ClustersIndexByName cluster.Name)
                hostSite hostTenant hdt hp (nbi3.DeviceRolesIndexByName "Server"))
                  = (nbi4, Except.error err) →
              syncHosts.body u up vc run hostId host
                = ({ nbi := nbi4
                     calls := run.calls ++ [Call.AddManufacturer (hostManufacturerOf u host),
                       Call.AddDeviceType (hostDeviceTypeOf u host hm),
                       Call.AddPlatform (hostPlatformOf u host),
                       Call.AddDevice (nbHostOf vc host
                         (run.nbi.ClustersIndexByName cluster.Name) hostSite hostTenant hdt hp
                         (nbi3.DeviceRolesIndexByName "Server"))] },
                   Outcome.error ("failed to add vmware host " ++ host.Name
                     ++ " with error: " ++ err))) ∧
            (∀ nbi4 nbHost1,
              up.AddDevice nbi3 (nbHostOf vc host (run.nbi.ClustersIndexByName cluster.Name)
                hostSite hostTenant hdt hp (nbi3.DeviceRolesIndexByName "Server"))
                  = (nbi4, Except.ok nbHost1) →
              (syncHosts.body u up vc run hostId host).1
                = { nbi := (up.syncHostNics nbi4 host nbHost1).1
                    calls := run.calls ++ [Call.AddManufacturer (hostManufacturerOf u host),
                      Call.AddDeviceType (hostDeviceTypeOf u host hm),
                      Call.AddPlatform (hostPlatformOf u host),
                      Call.AddDevice (nbHostOf vc host
                        (run.nbi.ClustersIndexByName cluster.Name) hostSite hostTenant hdt hp
                        (nbi3.DeviceRolesIndexByName "Server")),
                      Call.syncHostNics host nbHost1] } ∧
              ((syncHosts.body u up vc run hostId host).2 = Outcome.ok
                ↔ (up.syncHostNics nbi4 host nbHost1).2 = none)))))) ∧
    (∀ nbi pre d post, (syncHosts u up vc nbi).1.calls = pre ++ Call.AddDevice d :: post →
      ∃ pre0 m t p hm ht hp,
        pre = pre0 ++ [Call.AddManufacturer m, Call.AddDeviceType t, Call.AddPlatform p] ∧
        (up.AddManufacturer (replay up nbi pre0) m).2 = Except.ok hm ∧
        t.Manufacturer = some hm ∧
        (up.AddDeviceType (replay up nbi (pre0 ++ [Call.AddManufacturer m])) t).2
          = Except.ok ht ∧
        (up.AddPlatform
          (replay up nbi (pre0 ++ [Call.AddManufacturer m, Call.AddDeviceType t])) p).2
          = Except.ok hp ∧
        d.DeviceType = some ht ∧ d.Platform = some hp) := by
  refine ⟨fun _ => rfl, fun _ => rfl, ?_, ?_, ?_, ?_, ?_⟩
  · intro hostId host rest run hok
    rw [syncHosts.loop]
    rcases hb : syncHosts.body u up vc run hostId host with ⟨run1, o⟩
    rw [hb] at hok
    simp only at hok
    subst hok
    rfl
  · intro hostId host rest run hnok
    rw [syncHosts.loop]
    rcases hb : syncHosts.body u up vc run hostId host with ⟨run1, o⟩
    rw [hb] at hnok
    cases o with
    | ok => exact absurd rfl hnok
    | error e => rfl
    | fault => rfl
  · intro run hostId host hno
    obtain ⟨f1, f2, f3⟩ := syncHosts_body_reads_fail u up vc run hostId host
    cases hc : vc.readCluster ((vc.Host2Cluster hostId).getD "") with
    | none => rw [f1 hc]; exact ⟨rfl, by simp⟩
    | some cluster =>
      cases hs : hostSiteOf u vc run.nbi host.Name with
      | error e => rw [f2 cluster e hc hs]; exact ⟨rfl, by simp⟩
      | ok hostSite =>
        cases ht : hostTenantOf u vc run.nbi host.Name with
        | error e => rw [f3 cluster hostSite e hc hs ht]; exact ⟨rfl, by simp⟩
        | ok hostTenant => exact absurd ⟨cluster, hostSite, hostTenant, hc, hs, ht⟩ hno
  · intro run hostId host cluster hostSite hostTenant hr
    refine ⟨fun nbi1 err hM => syncHosts_body_manufacturer_fails hr hM, ?_⟩
    intro nbi1 hm hM
    refine ⟨rfl, fun nbi2 err hT => syncHosts_body_deviceType_fails hr hM hT, ?_⟩
    intro nbi2 hdt hT
    refine ⟨fun nbi3 err hP => syncHosts_body_platform_fails hr hM hT hP, ?_⟩
    intro nbi3 hp hP
    refine ⟨rfl, rfl, rfl, fun nbi4 err hD => syncHosts_body_device_fails hr hM hT hP hD, ?_⟩
    intro nbi4 nbHost1 hD
    obtain ⟨g1, g2, -⟩ := syncHosts_body_device_added hr hM hT hP hD
    exact ⟨g1, g2⟩
  · intro nbi pre d post h
    obtain ⟨pre0, m, t, p, hm, ht, hp, e0, e1, e2, e3, e4, e5, e6, -, -⟩ :=
      syncHosts_chain u up vc nbi pre d post h
    refine ⟨pre0, m, t, p, hm, ht, hp, ?_, e1, e2, e3, ?_, e5, e6⟩
    · rw [e0]; simp
    · have : pre0 ++ [Call.AddManufacturer m, Call.AddDeviceType t]
          = pre0 ++ [Call.AddManufacturer m] ++ [Call.AddDeviceType t] := by simp
      rw [this]; exact e4

/-- C17 at a concrete source. With upserts that all succeed, syncHosts calls the upserts of
the manufacturer, the device type and the platform of the host `web-01` before it submits
the device, and the device names the device type and the platform returned. With an
AddDeviceType that fails, the pass ends after the calls for the manufacturer and the
device type. -/
theorem C17_host_upserts_in_dependency_order_witness :
    (∃ pre0 m t p hm ht hp,
      [Call.AddManufacturer (hostManufacturerOf exUtils (exHost "web-01")),
         Call.AddDeviceType (hostDeviceTypeOf exUtils (exHost "web-01")
           (hostManufacturerOf exUtils (exHost "web-01"))),
         Call.AddPlatform (hostPlatformOf exUtils (exHost "web-01"))]
        = pre0 ++ [Call.AddManufacturer m, Call.AddDeviceType t, Call.AddPlatform p] ∧
      (exUpsert.AddManufacturer (replay exUpsert exInventoryLoaded pre0) m).2 = Except.ok hm ∧
      t.Manufacturer = some hm ∧
      (exUpsert.AddDeviceType
        (replay exUpsert exInventoryLoaded (pre0 ++ [Call.AddManufacturer m])) t).2
        = Except.ok ht ∧
      (exUpsert.AddPlatform
        (replay exUpsert exInventoryLoaded
          (pre0 ++ [Call.AddManufacturer m, Call.AddDeviceType t])) p).2 = Except.ok hp ∧
      exHostCandidate.DeviceType = some ht ∧ exHostCandidate.Platform = some hp) ∧
    syncHosts.body exUtils exUpsertNoDeviceType exSource
        { nbi := exInventoryLoaded, calls := [] } "h-1" (exHost "web-01")
      = ({ nbi := exInventoryLoaded
           calls := [] ++ [Call.AddManufacturer (hostManufacturerOf exUtils (exHost "web-01")),
             Call.AddDeviceType (hostDeviceTypeOf exUtils (exHost "web-01")
               (hostManufacturerOf exUtils (exHost "web-01")))] },
         Outcome.error ("failed adding oVirt DeviceType <nil> with error: " ++ "rejected")) :=
  ⟨(C17_host_upserts_in_dependency_order exUtils exUpsert exSource).2.2.2.2.2.2
      exInventoryLoaded _ _ _ exSyncHosts_calls,
   (((C17_host_upserts_in_dependency_order exUtils exUpsertNoDeviceType exSource).2.2.2.2.2.1
      { nbi := exInventoryLoaded, calls := [] } "h-1" (exHost "web-01") { Name := "web-cl" }
      (some (exSite 3 "dc-east")) none ⟨rfl, rfl, rfl⟩).2 exInventoryLoaded
      (hostManufacturerOf exUtils (exHost "web-01")) rfl).2.1 exInventoryLoaded "rejected" rfl⟩

/-! ## The cluster read of syncHosts -/

theorem syncHosts_body_fault {u : Utils} {up : Upsert} {vc : VmwareSource} {run : Run}
    {hostId : String} {host : HostSystem}
    (h : (syncHosts.body u up vc run hostId host).2 = Outcome.fault) :
    vc.readCluster ((vc.Host2Cluster hostId).getD "") = none := by
  unfold syncHosts.body at h
  simp only [] at h
  split at h
  · assumption
  · exfalso
    (repeat' split at h) <;> simp at h

theorem syncHosts_loop_fault {u : Utils} {up : Upsert} {vc : VmwareSource}
    (hosts : List (String × HostSystem)) (run : Run)
    (h : (syncHosts.loop u up vc hosts run).2 = Outcome.fault) :
    ∃ p ∈ hosts, vc.readCluster ((vc.Host2Cluster p.1).getD "") = none := by
  induction hosts generalizing run with
  | nil => simp [syncHosts.loop] at h
  | cons p rest ih =>
    obtain ⟨hostId, host⟩ := p
    rw [syncHosts.loop] at h
    rcases hb : syncHosts.body u up vc run hostId host with ⟨run1, o⟩
    rw [hb] at h
    cases o with
    | ok =>
      obtain ⟨q, hq, hl⟩ := ih run1 h
      exact ⟨q, List.mem_cons_of_mem _ hq, hl⟩
    | error e => simp at h
    | fault =>
      have hf : (syncHosts.body u up vc run hostId host).2 = Outcome.fault := by rw [hb]
      exact ⟨(hostId, host), List.mem_cons_self _ _, syncHosts_body_fault hf⟩

theorem syncHosts_body_device_cluster {u : Utils} {up : Upsert} {vc : VmwareSource}
    {run : Run} {hostId : String} {host : HostSystem} {cluster : ClusterComputeResource}
    {hostSite : Option Site} {hostTenant : Option Tenant}
    (hr : HostReads u vc run hostId host cluster hostSite hostTenant) (d : Device)
    (hd : Call.AddDevice d ∈ (syncHosts.body u up vc run hostId host).1.calls) :
    Call.AddDevice d ∈ run.calls ∨ d.Cluster = run.nbi.ClustersIndexByName cluster.Name := by
  rcases hM : up.AddManufacturer run.nbi (hostManufacturerOf u host) with ⟨nbi1, r1⟩
  cases r1 with
  | error e1 =>
    rw [syncHosts_body_manufacturer_fails hr hM] at hd
    left; simpa using hd
  | ok hm =>
    rcases hT : up.AddDeviceType nbi1 (hostDeviceTypeOf u host hm) with ⟨nbi2, r2⟩
    cases r2 with
    | error e2 =>
      rw [syncHosts_body_deviceType_fails hr hM hT] at hd
      left; simpa using hd
    | ok hdt =>
      rcases hP : up.AddPlatform nbi2 (hostPlatformOf u host) with ⟨nbi3, r3⟩
      cases r3 with
      | error e3 =>
        rw [syncHosts_body_platform_fails hr hM hT hP] at hd
        left; simpa using hd
      | ok hp =>
        rcases hD : up.AddDevice nbi3 (nbHostOf vc host
          (run.nbi.ClustersIndexByName cluster.Name) hostSite hostTenant hdt hp
          (nbi3.DeviceRolesIndexByName "Server")) with ⟨nbi4, r4⟩
        cases r4 with
        | error e4 =>
          rw [syncHosts_body_device_fails hr hM hT hP hD] at hd
          simp only [List.mem_append, List.mem_cons, List.mem_singleton, Call.AddDevice.injEq,
            List.not_mem_nil, or_false, false_or, reduceCtorEq] at hd
          rcases hd with hd | hd
          · exact Or.inl hd
          · right; rw [hd]; rfl
        | ok nbHost1 =>
          rw [(syncHosts_body_device_added hr hM hT hP hD).1] at hd
          simp only [List.mem_append, List.mem_cons, List.mem_singleton, Call.AddDevice.injEq,
            List.not_mem_nil, or_false, false_or, reduceCtorEq] at hd
          rcases hd with hd | hd
          · exact Or.inl hd
          · right; rw [hd]; rfl

/-- The cluster read of syncHosts under either declaration of the maps of the source. When
the maps hold struct values, the cluster read at the start of
a pass of syncHosts is defined for every host: it gives the entry of `Clusters` under the
host's cluster id, and the zero struct with the empty name when the host has no entry in
`Host2Cluster` or its cluster id is no key of `Clusters`; no pass and no run of syncHosts
faults, and a device the pass submits has as its cluster what the cluster index holds
under the name read, a cluster or none. When the maps hold pointers instead, the read of
such a host gives nil and the pass faults at the selection of the name, before any
call. -/
theorem syncHosts_cluster_read_by_element_kind (u : Utils) (up : Upsert)
    (vc : VmwareSource) :
    (vc.Elems = MapElems.values →
      (∀ hostId, ∃ cluster,
        vc.readCluster ((vc.Host2Cluster hostId).getD "") = some cluster ∧
        (∀ c, vc.Clusters.lookup ((vc.Host2Cluster hostId).getD "") = some c →
          cluster = c) ∧
        (vc.Clusters.lookup ((vc.Host2Cluster hostId).getD "") = none →
          cluster = { Name := "" })) ∧
      (∀ run hostId host, (syncHosts.body u up vc run hostId host).2 ≠ Outcome.fault) ∧
      (∀ nbi, (syncHosts u up vc nbi).2 ≠ Outcome.fault) ∧
      (∀ run hostId host d,
        Call.AddDevice d ∈ (syncHosts.body u up vc run hostId host).1.calls →
        Call.AddDevice d ∉ run.calls →
        ∃ cluster, vc.readCluster ((vc.Host2Cluster hostId).getD "") = some cluster ∧
          d.Cluster = run.nbi.ClustersIndexByName cluster.Name)) ∧
    (vc.Elems = MapElems.pointers →
      ∀ run hostId host, vc.Clusters.lookup ((vc.Host2Cluster hostId).getD "") = none →
        syncHosts.body u up vc run hostId host = (run, Outcome.fault)) := by
  constructor
  · intro hv
    have hread : ∀ k, vc.readCluster k ≠ none := by
      intro k hn
      have := (readCluster_eq_none hn).2
      rw [hv] at this
      cases this
    refine ⟨?_, ?_, ?_, ?_⟩
    · intro hostId
      cases hl : vc.Clusters.lookup ((vc.Host2Cluster hostId).getD "") with
      | some c =>
        exact ⟨c, readCluster_of_lookup hl, fun c2 h2 => (Option.some.inj h2), by simp⟩
      | none =>
        refine ⟨{ Name := "" }, ?_, fun c2 h2 => (by cases h2), fun _ => rfl⟩
        simp [VmwareSource.readCluster, hl, hv]
    · intro run hostId host hf
      exact hread _ (syncHosts_body_fault hf)
    · intro nbi hf
      obtain ⟨q, -, hq⟩ := syncHosts_loop_fault vc.Hosts { nbi := nbi, calls := [] } hf
      exact hread _ hq
    · intro run hostId host d hd hnot
      obtain ⟨f1, f2, f3⟩ := syncHosts_body_reads_fail u up vc run hostId host
      cases hc : vc.readCluster ((vc.Host2Cluster hostId).getD "") with
      | none => exact absurd hc (hread _)
      | some cluster =>
        cases hs : hostSiteOf u vc run.nbi host.Name with
        | error e =>
          rw [f2 cluster e hc hs] at hd
          exact absurd hd hnot
        | ok hostSite =>
          cases ht : hostTenantOf u vc run.nbi host.Name with
          | error e =>
            rw [f3 cluster hostSite e hc hs ht] at hd
            exact absurd hd hnot
          | ok hostTenant =>
            rcases syncHosts_body_device_cluster ⟨hc, hs, ht⟩ d hd with h | h
            · exact absurd h hnot
            · exact ⟨cluster, rfl, h⟩
  · intro hp run hostId host hl
    have hc : vc.readCluster ((vc.Host2Cluster hostId).getD "") = none := by
      simp [VmwareSource.readCluster, hl, hp]
    exact (syncHosts_body_reads_fail u up vc run hostId host).1 hc

/-- The cluster read at a concrete source whose maps hold struct values: the host `esx-02` has no entry
in `Host2Cluster`, its cluster read gives the zero struct, the run does not fault, and the
device of `esx-02` is submitted with no cluster. -/
theorem syncHosts_standalone_host_with_struct_values :
    exSourceStandaloneHost.Host2Cluster "h-2" = none ∧
    exSourceStandaloneHost.readCluster "" = some { Name := "" } ∧
    (syncHosts exUtils exUpsert exSourceStandaloneHost exInventoryLoaded).2
      ≠ Outcome.fault ∧
    (∃ d, Call.AddDevice d
        ∈ (syncHosts exUtils exUpsert exSourceStandaloneHost exInventoryLoaded).1.calls ∧
      d.Name = "esx-02" ∧ d.Cluster = none) :=
  ⟨by decide, by decide,
   ((syncHosts_cluster_read_by_element_kind exUtils exUpsert
      exSourceStandaloneHost).1 rfl).2.2.1 exInventoryLoaded,
   ⟨nbHostOf exSourceStandaloneHost (exHost "esx-02") none none none
      (hostDeviceTypeOf exUtils (exHost "esx-02") (hostManufacturerOf exUtils (exHost "esx-02")))
      (hostPlatformOf exUtils (exHost "esx-02"))
      (exInventoryLoaded.DeviceRolesIndexByName "Server"), by decide, rfl, rfl⟩⟩

end NetboxSsot
